import Mathlib

/-!
Verification development for the SOFS14 storage engine
(repository rafaelferreirapt/sofs14).

The C sources under src/src/sofs14 are shallowly embedded: every operation
becomes a pure Lean function over an explicit file-system state, machine
integers (uint32_t / uint16_t) become Nat with an explicit modulus where
overflow can occur, and error returns (negative errno values) become the
Int component of the result tuple.  The memory-resident copies of the
superblock and of the inode-table block kept by sofs_basicoper.c persist
across calls (soLoadSuperBlock does not re-read once loaded), so the Lean
state is exactly that resident view; a soStoreSuperBlock / soStoreBlockInT
in the source commits staged record mutations, which the embedding applies
at the corresponding program point.

Conventions:
- a physical cluster address dZoneStart + n * BLOCKS_PER_CLUSTER in the
  source is represented by the logical cluster number n;
- output parameters (written through pointers) are returned as extra
  result components, Option-valued where the source may leave them
  unwritten;
- the body of a data cluster is a C union; the embedding carries the
  reference-array view and the directory-entry view side by side and each
  cluster is only ever accessed through the view its context dictates,
  exactly as in the source;
- raw-device I/O is taken to succeed except where a claim is about an
  injected I/O failure, in which case the store result is an explicit
  parameter.
-/

namespace Sofs14

set_option maxRecDepth 100000

/-! ### Constants (sofs_const.h, sofs_inode.h, sofs_datacluster.h, sofs_direntry.h, sofs_superblock.h) -/

def BLOCK_SIZE : Nat := 512
def BLOCKS_PER_CLUSTER : Nat := 4
def CLUSTER_SIZE : Nat := 2048
/-- byte stream length per cluster: CLUSTER_SIZE - 3 * 4 header bytes -/
def BSLPC : Nat := 2036
/-- references per cluster: CLUSTER_SIZE / 4 - 3 -/
def RPC : Nat := 509
/-- directory entries per cluster: (CLUSTER_SIZE - 12) / 64 -/
def DPC : Nat := 31
/-- inodes per block -/
def IPB : Nat := 8
def N_DIRECT : Nat := 7
def MAX_FILE_CLUSTERS : Nat := N_DIRECT + RPC + RPC * RPC
def DZONE_CACHE_SIZE : Nat := 50
def MAX_NAME : Nat := 59
def MAX_PATH : Nat := 254
/-- 2 ^ 32, the modulus of uint32_t arithmetic -/
def U32 : Nat := 4294967296
/-- sentinel 0xFFFFFFFF; NULL_INODE and NULL_CLUSTER coincide with it -/
def NULL_REF : Nat := 4294967295
def INODE_FREE : Nat := 4096
def INODE_DIR : Nat := 2048
def INODE_FILE : Nat := 1024
def INODE_SYMLINK : Nat := 512
def INODE_TYPE_MASK : Nat := INODE_DIR ||| INODE_FILE ||| INODE_SYMLINK
/-- data cluster status values of sofs_basicconsist.h -/
def FREE_CLT : Nat := 1
def ALLOC_CLT : Nat := 0
/-- inode status arguments of sofs_ifuncs_2 -/
def IUIN : Nat := 0
def FDIN : Nat := 1
/-- permission request bits of soAccessGranted -/
def R : Nat := 4
def W : Nat := 2
def X : Nat := 1

/-! ### Error codes (errno and sofs_basicconsist.h) -/

def EPERM : Int := 1
def ENOENT : Int := 2
def EIO : Int := 5
def EBADF : Int := 9
def EACCES : Int := 13
def ENOTDIR : Int := 20
def EINVAL : Int := 22
def ENOSPC : Int := 28
def ENAMETOOLONG : Int := 36
def ENOTEMPTY : Int := 39
def ELOOP : Int := 40
def ELIBBAD : Int := 80
def EFININVAL : Int := 515
def EFCININVAL : Int := 520
def EFDININVAL : Int := 521
def EIUININVAL : Int := 522
def ELDCININVAL : Int := 523
def EDIRINVAL : Int := 524
def EDEINVAL : Int := 525
def EDCARDYIL : Int := 526
def EDCNOTIL : Int := 527
def EWGINODENB : Int := 528
def ERELPATH : Int := 529
def EDCNALINVAL : Int := 530

/-! ### Data model (sofs_inode.h, sofs_direntry.h, sofs_datacluster.h, sofs_superblock.h) -/

/-- the 64-byte inode record; vD1 is aTime (in use) or next (free),
vD2 is mTime (in use) or prev (free), as in the source unions -/
structure SOInode where
  mode : Nat
  refCount : Nat
  owner : Nat
  group : Nat
  size : Nat
  cluCount : Nat
  vD1 : Nat
  vD2 : Nat
  d : List Nat
  i1 : Nat
  i2 : Nat
deriving Repr, DecidableEq

/-- a directory entry: 60 name bytes (NUL-terminated) plus the inode number -/
structure SODirEntry where
  name : List Nat
  nInode : Nat
deriving Repr, DecidableEq

/-- a data cluster: the three-word header and the body; ref and de are the
two union views used by this development (the raw byte view is only used
by the path resolver, which is embedded separately) -/
structure SODataClust where
  prev : Nat
  next : Nat
  stat : Nat
  ref : List Nat
  de : List SODirEntry
deriving Repr, DecidableEq

/-- one of the two in-superblock caches of free data cluster references -/
structure FCNode where
  cacheIdx : Nat
  cache : List Nat
deriving Repr, DecidableEq

/-- the superblock fields this development touches; identification fields
(magic, version, name, mStat) and the layout fields (block counts and
start addresses) play no role in any claim and are omitted -/
structure SOSuperBlock where
  iTotal : Nat
  iFree : Nat
  iHead : Nat
  iTail : Nat
  dZoneTotal : Nat
  dZoneFree : Nat
  dZoneRetriev : FCNode
  dZoneInsert : FCNode
  dHead : Nat
  dTail : Nat
deriving Repr, DecidableEq

/-- the resident state: superblock, inode table (indexed by inode number)
and data zone (indexed by logical cluster number) -/
structure FSState where
  sb : SOSuperBlock
  itable : List SOInode
  dzone : List SODataClust
deriving Repr, DecidableEq

def defInode : SOInode :=
  { mode := 0, refCount := 0, owner := 0, group := 0, size := 0, cluCount := 0,
    vD1 := 0, vD2 := 0, d := List.replicate N_DIRECT 0, i1 := 0, i2 := 0 }

def defClust : SODataClust :=
  { prev := 0, next := 0, stat := 0, ref := [], de := [] }

/-- the buffer produced by the memset branch of soReadFileCluster -/
def zeroClust : SODataClust :=
  { prev := 0, next := 0, stat := 0, ref := List.replicate RPC 0,
    de := List.replicate DPC { name := List.replicate (MAX_NAME + 1) 0, nInode := 0 } }

def getInode (s : FSState) (n : Nat) : SOInode := s.itable.getD n defInode

def setInode (s : FSState) (n : Nat) (i : SOInode) : FSState :=
  { s with itable := s.itable.set n i }

def getClust (s : FSState) (c : Nat) : SODataClust := s.dzone.getD c defClust

def setClust (s : FSState) (c : Nat) (dc : SODataClust) : FSState :=
  { s with dzone := s.dzone.set c dc }

/-- uint32_t increment -/
def u32add1 (x : Nat) : Nat := (x + 1) % U32

/-- uint32_t decrement -/
def u32sub1 (x : Nat) : Nat := (x + (U32 - 1)) % U32

/-! ### Consistency quick checks (sofs_basicconsist.h)

The implementation of these predicates is library code that is not part of
the repository snapshot (only the header is); they are modelled from the
spec and from the header documentation.  The substantive ones below decide
only which states an operation accepts, never what a successful operation
does. -/

/-- Modelled from the spec: soQCheckFInode succeeds exactly when the inode
carries the FREE flag (header: quick check of a free inode). -/
def soQCheckFInode (i : SOInode) : Int :=
  if i.mode &&& INODE_FREE ≠ 0 then 0 else -EFININVAL

/-- Modelled from the spec: soQCheckFCInode succeeds exactly when the inode
is free in the clean state: FREE flag set and the whole information
content scrubbed (header: quick check of a free inode in the clean state). -/
def soQCheckFCInode (i : SOInode) : Int :=
  if i.mode &&& INODE_FREE ≠ 0 ∧ i.size = 0 ∧ i.cluCount = 0 ∧
     i.d = List.replicate N_DIRECT NULL_REF ∧ i.i1 = NULL_REF ∧ i.i2 = NULL_REF
  then 0 else -EFCININVAL

/-- Modelled from the spec: soQCheckFDInode succeeds exactly when the inode
carries the FREE flag, its reference fields being allowed to hold stale
content (header: quick check of a free inode in the dirty state). -/
def soQCheckFDInode (i : SOInode) : Int :=
  if i.mode &&& INODE_FREE ≠ 0 then 0 else -EFDININVAL

/-- Modelled from the spec: soQCheckInodeIU succeeds exactly when the FREE
flag is clear and the mode carries exactly one legal type bit (header:
quick check of an inode in use). -/
def soQCheckInodeIU (i : SOInode) : Int :=
  if i.mode &&& INODE_FREE = 0 ∧
     (i.mode &&& INODE_TYPE_MASK = INODE_DIR ∨ i.mode &&& INODE_TYPE_MASK = INODE_FILE ∨
      i.mode &&& INODE_TYPE_MASK = INODE_SYMLINK)
  then 0 else -EIUININVAL

/-- Modelled from the spec: the structural quick checks of the superblock
header, of the inode-table metadata, of the data-zone metadata and of a
directory's contents validate metadata well-formedness only; on the
well-formed states this development manipulates they succeed, and no claim
is decided by them. -/
def soQCheckSuperBlock (_sb : SOSuperBlock) : Int := 0

/-- Modelled from the spec: see soQCheckSuperBlock. -/
def soQCheckInT (_sb : SOSuperBlock) : Int := 0

/-- Modelled from the spec: see soQCheckSuperBlock. -/
def soQCheckDZ (_sb : SOSuperBlock) : Int := 0

/-- Modelled from the spec: see soQCheckSuperBlock. -/
def soQCheckDirCont (_sb : SOSuperBlock) (_i : SOInode) : Int := 0

/-- walk of the general free-cluster list headed by dHead, looking for a
cluster number; the fuel argument bounds the walk by the data-zone size -/
def spillMem (s : FSState) : Nat → Nat → Nat → Bool
  | 0, _, _ => false
  | fuel + 1, cur, target =>
    if cur = NULL_REF then false
    else if cur = target then true
    else spillMem s fuel (getClust s cur).next target

/-- membership of a cluster in one of the three free pools: the live range
of the retrieval cache, the live range of the insertion cache, or the
general free-cluster list -/
def clusterInPools (s : FSState) (c : Nat) : Bool :=
  (s.sb.dZoneRetriev.cache.drop s.sb.dZoneRetriev.cacheIdx).contains c ||
  (s.sb.dZoneInsert.cache.take s.sb.dZoneInsert.cacheIdx).contains c ||
  spillMem s (s.sb.dZoneTotal + 1) s.sb.dHead c

/-- Modelled from the spec: soQCheckStatDC reports FREE_CLT exactly when
the cluster sits in one of the three free pools (spec invariants 2 and 3),
and ALLOC_CLT otherwise; out-of-range cluster numbers are rejected. -/
def soQCheckStatDC (s : FSState) (nClust : Nat) : Int × Nat :=
  if nClust ≥ s.sb.dZoneTotal then (-EINVAL, ALLOC_CLT)
  else (0, if clusterInPools s nClust then FREE_CLT else ALLOC_CLT)

/-! ### Cluster allocator (sofs_ifuncs_1/soFreeDataCluster.c, soAllocDataCluster.c) -/

/-- body of the link-fixing loop of soDeplete (src soFreeDataCluster.c lines
153-178): slot cPos of the insertion cache gets prev = previous slot (or the
old dTail for cPos 0) and next = following slot (or NULL_CLUSTER for the
last), written back to its cluster header -/
def depleteLinks (dTail : Nat) (cache : List Nat) (idx : Nat) (s : FSState) : FSState :=
  (List.range idx).foldl
    (fun st cPos =>
      let c := cache.getD cPos NULL_REF
      let dc := getClust st c
      let pv := if cPos = 0 then dTail else cache.getD (cPos - 1) NULL_REF
      let nx := if cPos ≠ idx - 1 then cache.getD (cPos + 1) NULL_REF else NULL_REF
      setClust st c { dc with prev := pv, next := nx }) s

/-- first step of soDeplete (src soFreeDataCluster.c lines 138-151): when
the general list is not empty, link the old tail's next to the first
insertion-cache slot -/
def depleteHead (s : FSState) : FSState :=
  if s.sb.dTail ≠ NULL_REF then
    let dc := getClust s s.sb.dTail
    setClust s s.sb.dTail { dc with next := s.sb.dZoneInsert.cache.getD 0 NULL_REF }
  else s

/-- soDeplete (src soFreeDataCluster.c lines 132-195): dump the insertion
cache onto the tail of the general free-cluster list -/
def soDeplete (s : FSState) : FSState :=
  let sb := s.sb
  let idx := sb.dZoneInsert.cacheIdx
  let cache := sb.dZoneInsert.cache
  let s2 := depleteLinks sb.dTail cache idx (depleteHead s)
  let newTail := cache.getD (idx - 1) NULL_REF
  let newHead := if sb.dHead = NULL_REF then cache.getD 0 NULL_REF else sb.dHead
  { s2 with sb := { s2.sb with
      dTail := newTail
      dHead := newHead
      dZoneInsert := { cacheIdx := 0, cache := List.replicate DZONE_CACHE_SIZE NULL_REF } } }

/-- body of the two soReplenish walks (src soAllocDataCluster.c lines
190-200 and 216-226): store the walked cluster number into retrieval-cache
slot n, read its next link and clear its header links; returns the new
state and the next cluster of the walk -/
def replStep (s : FSState) (nL n : Nat) : FSState × Nat :=
  let r := s.sb.dZoneRetriev
  let sA := { s with sb := { s.sb with
               dZoneRetriev := { r with cache := r.cache.set n nL } } }
  let dc := getClust sA nL
  (setClust sA nL { dc with prev := NULL_REF, next := NULL_REF }, dc.next)

/-- first walk of soReplenish (src soAllocDataCluster.c lines 186-201):
starting at slot n, fill successive retrieval-cache slots from the spill
list, clearing each walked cluster's header links; the walk stops at
NULL_CLUSTER; steps = DZONE_CACHE_SIZE - n bounds the loop -/
def replLoopBrk (s : FSState) (nL : Nat) (n : Nat) : Nat → FSState × Nat × Nat
  | 0 => (s, nL, n)
  | steps + 1 =>
    if nL = NULL_REF then (s, nL, n)
    else replLoopBrk (replStep s nL n).1 (replStep s nL n).2 (n + 1) steps

/-- second walk of soReplenish (src soAllocDataCluster.c lines 214-227):
same as replLoopBrk but with no NULL_CLUSTER test, exactly as in the
source (its reachability is guaranteed there by the preceding soDeplete) -/
def replLoopRaw (s : FSState) (nL : Nat) (n : Nat) : Nat → FSState × Nat × Nat
  | 0 => (s, nL, n)
  | steps + 1 => replLoopRaw (replStep s nL n).1 (replStep s nL n).2 (n + 1) steps

/-- head/tail fixing of soReplenish (src soAllocDataCluster.c lines
229-237): the new dHead is the walk's final cluster, or the list empties -/
def replSetHead (s2 : FSState) (nL2 : Nat) : FSState :=
  if nL2 = NULL_REF then { s2 with sb := { s2.sb with dHead := NULL_REF, dTail := NULL_REF } }
  else { s2 with sb := { s2.sb with dHead := nL2 } }

/-- prev clearing of soReplenish (src soAllocDataCluster.c lines 239-250):
the new head's prev link is written back as NULL_CLUSTER -/
def replClearPrev (s3 : FSState) (nL2 : Nat) : FSState :=
  if nL2 ≠ NULL_REF then
    let dc := getClust s3 s3.sb.dHead
    setClust s3 s3.sb.dHead { dc with prev := NULL_REF }
  else s3

/-- tail of soReplenish (src soAllocDataCluster.c lines 229-252): after
the walks, fix dHead / dTail according to where the walk stopped, clear
the new head's prev link and set the retrieval cache index -/
def replFinish (nctt : Nat) (s2 : FSState) (nL2 : Nat) : FSState :=
  let s4 := replClearPrev (replSetHead s2 nL2) nL2
  { s4 with sb := { s4.sb with
      dZoneRetriev := { cacheIdx := DZONE_CACHE_SIZE - nctt,
                        cache := s4.sb.dZoneRetriev.cache } } }

/-- soReplenish (src soAllocDataCluster.c lines 161-253): refill the
retrieval cache with min(dZoneFree, DZONE_CACHE_SIZE) references taken
from the spill list, depleting the insertion cache into the spill list if
the walk runs dry, and finally fix dHead / dTail and the cache index -/
def soReplenish (s : FSState) : FSState :=
  let nctt := if s.sb.dZoneFree < DZONE_CACHE_SIZE then s.sb.dZoneFree else DZONE_CACHE_SIZE
  let w1 := replLoopBrk s s.sb.dHead (DZONE_CACHE_SIZE - nctt) nctt
  let w2 :=
    if w1.2.2 ≠ DZONE_CACHE_SIZE then
      let sA := { w1.1 with sb := { w1.1.sb with dHead := NULL_REF, dTail := NULL_REF } }
      let sB := soDeplete sA
      replLoopRaw sB sB.sb.dHead w1.2.2 (DZONE_CACHE_SIZE - w1.2.2)
    else w1
  replFinish nctt w2.1 w2.2.1

/-- soFreeDataCluster (src soFreeDataCluster.c lines 51-118).  The
storeSbRes parameter is the result the device would give for the final
soStoreSuperBlock; source line 111 compares it with == instead of
assigning it, so the function returns 0 whatever that result is —
the embedding reproduces this faithfully. -/
def soFreeDataCluster (storeSbRes : Int) (s : FSState) (nClust : Nat) : Int × FSState :=
  if nClust = 0 ∨ nClust ≥ s.sb.dZoneTotal then (-EINVAL, s)
  else
    let q := soQCheckStatDC s nClust
    if q.1 ≠ 0 then (q.1, s)
    else if q.2 = FREE_CLT then (-EDCNALINVAL, s)
    else
      let cl := getClust s nClust
      let s1 := setClust s nClust { cl with prev := NULL_REF, next := NULL_REF }
      let s2 := if s1.sb.dZoneInsert.cacheIdx = DZONE_CACHE_SIZE then soDeplete s1 else s1
      let ins := s2.sb.dZoneInsert
      let s3 := { s2 with sb := { s2.sb with
          dZoneInsert := { cacheIdx := u32add1 ins.cacheIdx, cache := ins.cache.set ins.cacheIdx nClust }
          dZoneFree := u32add1 s2.sb.dZoneFree } }
      let error : Int := 0
      if (if error = storeSbRes then (1 : Int) else 0) ≠ 0 then (error, s3) else (0, s3)

/-- soCleanDataCluster (src sofs_ifuncs_3/soCleanDataCluster.c).  The
initial validations (lines 66-100) are embedded faithfully: out-of-range or
zero owner inode numbers are rejected with -EINVAL, and an owner that is
not free in the dirty state is rejected with -EFDININVAL (line 92).  The
remainder of the source function — the content-tree walk that dissociates
the cluster from a free-dirty owner — is reachable only when the owner
inode is free-dirty; in every state this development manipulates the owner
of a dirty cluster is in use (alloc stamps stat with an in-use inode and
nothing changes it while free), so that walk is never reached; it is
represented by the -ELIBBAD result below and no theorem depends on it. -/
def soCleanDataCluster (s : FSState) (nInode nLClust : Nat) : Int × FSState :=
  if nInode ≥ s.sb.iTotal ∨ nInode = 0 ∨ nLClust ≥ s.sb.dZoneTotal then (-EINVAL, s)
  else if soQCheckFDInode (getInode s nInode) ≠ 0 then (-EFDININVAL, s)
  else (-ELIBBAD, s)

/-- pop-and-stamp phase of soAllocDataCluster (src soAllocDataCluster.c
lines 115-146): take the reference at the retrieval-cache index, clear
that slot, advance the index, decrement dZoneFree, then read the cluster;
a dirty cluster (stat not NULL_INODE) is passed to soCleanDataCluster
first; finally the cluster is written back with cleared links and stat
stamped with the inode number.  The popped cluster number is returned as
the third component even on the error paths that follow the pop, exactly
as the source writes *p_nClust at line 115 before they can be reached.
allocView is the pop step (cache slot cleared, index advanced, dZoneFree
decremented), allocStamp the clean-and-write step. -/
def allocView (s1 : FSState) : FSState × Nat :=
  let r := s1.sb.dZoneRetriev
  let nClust := r.cache.getD r.cacheIdx NULL_REF
  ({ s1 with sb := { s1.sb with
      dZoneRetriev := { cacheIdx := r.cacheIdx + 1, cache := r.cache.set r.cacheIdx NULL_REF }
      dZoneFree := s1.sb.dZoneFree - 1 } }, nClust)

/-- read-clean-stamp-write phase of soAllocDataCluster (src lines
125-146) over the already-popped state and cluster number -/
def allocStamp (s2 : FSState) (nClust nInode : Nat) : Int × FSState × Nat :=
  let cl0 := getClust s2 nClust
  let cl1 := { cl0 with prev := NULL_REF, next := NULL_REF }
  if cl0.stat ≠ NULL_REF then
    let cres := soCleanDataCluster s2 cl0.stat nClust
    if cres.1 ≠ 0 then (cres.1, cres.2, nClust)
    else (0, setClust cres.2 nClust { cl1 with stat := nInode }, nClust)
  else (0, setClust s2 nClust { cl1 with stat := nInode }, nClust)

def allocPop (s1 : FSState) (nInode : Nat) : Int × FSState × Nat :=
  allocStamp (allocView s1).1 (allocView s1).2 nInode

/-- soAllocDataCluster (src soAllocDataCluster.c lines 64-147): validate,
replenish the retrieval cache when it is empty, then pop and stamp the
next free cluster -/
def soAllocDataCluster (s : FSState) (nInode : Nat) : Int × FSState × Nat :=
  if soQCheckDZ s.sb ≠ 0 then (soQCheckDZ s.sb, s, 0)
  else if s.sb.dZoneFree = 0 then (-ENOSPC, s, 0)
  else if nInode ≥ s.sb.iTotal then (-EINVAL, s, 0)
  else if soQCheckFInode (getInode s nInode) = 0 then (-EIUININVAL, s, 0)
  else allocPop (if s.sb.dZoneRetriev.cacheIdx = DZONE_CACHE_SIZE then soReplenish s else s)
    nInode

/-! ### Inode operations (sofs_ifuncs_2) -/

/-- soReadInode (src sofs_ifuncs_2/soReadInode.c lines 54-127): read the
record of inode nInode, which must be in use (IUIN) or free-dirty (FDIN);
when in use, its last-access time is refreshed to the current time and the
containing block is stored back, so the refresh is persistent.  The now
parameter is the value of time(NULL).  The returned SOInode is the buffer
*p_inode filled by the call (defInode when an error leaves it unwritten). -/
def soReadInode (now : Nat) (s : FSState) (nInode status : Nat) : Int × FSState × SOInode :=
  if status ≠ IUIN ∧ status ≠ FDIN then (-EINVAL, s, defInode)
  else if nInode ≥ s.sb.iTotal then (-EINVAL, s, defInode)
  else
    let ino := getInode s nInode
    if status = IUIN then
      if soQCheckInodeIU ino ≠ 0 then (soQCheckInodeIU ino, s, defInode)
      else
        let ino' := { ino with vD1 := now }
        (0, setInode s nInode ino', ino')
    else
      if soQCheckFDInode ino ≠ 0 then (soQCheckFDInode ino, s, defInode)
      else (0, s, ino)

/-- soWriteInode (src sofs_ifuncs_2/soWriteInode.c lines 50-115): write the
given record over inode nInode; for an in-use inode both time fields of
the written copy are forced to the current time.  (Source line 72 range
checks with nInode > iTotal; the exact bound is enforced by the
soConvertRefInT call that follows, embedded here as the second test.) -/
def soWriteInode (now : Nat) (s : FSState) (buf : SOInode) (nInode status : Nat) : Int × FSState :=
  if nInode > s.sb.iTotal ∨ (status ≠ IUIN ∧ status ≠ FDIN) then (-EINVAL, s)
  else if nInode ≥ s.sb.iTotal then (-EINVAL, s)
  else if status = IUIN then
    if soQCheckInodeIU buf ≠ 0 then (soQCheckInodeIU buf, s)
    else (0, setInode s nInode { buf with vD1 := now, vD2 := now })
  else
    if soQCheckFDInode buf ≠ 0 then (soQCheckFDInode buf, s)
    else (0, setInode s nInode buf)

/-- soCleanInode (src sofs_ifuncs_2/soCleanInode.c lines 58-106): after
validating that the inode number is in range, nonzero and that the inode
is free in the dirty state, the function calls soReadInode with status 0
(IUIN) and discards its result (line 93); since the inode is free, the
in-use consistency check inside soReadInode fails and that call leaves the
state untouched, after which the unchanged block and superblock are stored
back.  The function therefore never touches the inode's references or its
data clusters. -/
def soCleanInode (now : Nat) (s : FSState) (nInode : Nat) : Int × FSState :=
  if nInode ≥ s.sb.iTotal ∨ nInode = 0 then (-EINVAL, s)
  else
    let chk := soQCheckFDInode (getInode s nInode)
    if chk ≠ 0 then (chk, s)
    else
      let rd := soReadInode now s nInode IUIN
      (0, rd.2.1)

/-- reinitialization tail of soAllocInode (src soAllocInode.c lines
140-207) over the post-clean state: record the next free inode, overwrite
the record with the given type and the caller identity, advance iHead,
decrement iFree (emptying head and tail at zero) and clear the new head's
prev link -/
def allocInodeFinish (now uid gid : Nat) (s0 : FSState) (nInode type : Nat) :
    Int × FSState × Nat :=
  let newHead := (getInode s0 nInode).vD1
  let ino' : SOInode :=
    { mode := type, refCount := 0, owner := uid, group := gid, size := 0,
      cluCount := 0, vD1 := now, vD2 := now,
      d := List.replicate N_DIRECT NULL_REF, i1 := NULL_REF, i2 := NULL_REF }
  let s1 := setInode s0 nInode ino'
  let sb1 : SOSuperBlock := { s1.sb with iFree := s1.sb.iFree - 1, iHead := newHead }
  let sb2 := if sb1.iFree = 0 then { sb1 with iHead := NULL_REF, iTail := NULL_REF }
             else sb1
  let s2 := { s1 with sb := sb2 }
  if newHead ≠ NULL_REF then
    if newHead ≥ s2.sb.iTotal then (-EINVAL, s2, nInode)
    else
      let nh := getInode s2 newHead
      (0, setInode s2 newHead { nh with vD2 := NULL_REF }, nInode)
  else (0, s2, nInode)

/-- soAllocInode (src sofs_ifuncs_1/soAllocInode.c lines 57-208): detach
the head of the free-inode list, clean it first if it is free-dirty,
reinitialize its record with the given type and the caller's identity,
advance iHead, decrement iFree (emptying head and tail when it reaches
zero) and clear the new head's prev link.  uid and gid are the results of
getuid() / getgid(); now is time(NULL).  The third component is *p_nInode,
written as soon as the head is known (src line 96). -/
def soAllocInode (now uid gid : Nat) (s : FSState) (type : Nat) : Int × FSState × Nat :=
  if type &&& INODE_TYPE_MASK = 0 then (-EINVAL, s, 0)
  else if s.sb.iFree = 0 then (-ENOSPC, s, 0)
  else if s.sb.iHead ≥ s.sb.iTotal then (-EINVAL, s, 0)
  else
    let nInode := s.sb.iHead
    let chk := soQCheckFInode (getInode s nInode)
    if chk ≠ 0 then (chk, s, nInode)
    else
      let dirty :=
        if soQCheckFCInode (getInode s nInode) ≠ 0 then
          if soQCheckFDInode (getInode s nInode) ≠ 0 then
            (soQCheckFDInode (getInode s nInode), s)
          else soCleanInode now s nInode
        else (0, s)
      if dirty.1 ≠ 0 then (dirty.1, dirty.2, nInode)
      else allocInodeFinish now uid gid dirty.2 nInode type

/-- soFreeInode (src sofs_ifuncs_1/soFreeInode.c lines 50-111): mark the
in-use inode free (the mode is overwritten with INODE_FREE alone, src
line 77), append it to the tail of the free-inode list, increment iFree
and, when the list was not empty, link the old tail's next to it. -/
def soFreeInode (s : FSState) (nInode : Nat) : Int × FSState :=
  if nInode ≥ s.sb.iTotal ∨ nInode = 0 then (-EINVAL, s)
  else
    let ino := getInode s nInode
    let chk := soQCheckInodeIU ino
    if chk ≠ 0 then (chk, s)
    else
      if s.sb.iFree = 0 then
        let s1 := setInode s nInode { ino with mode := INODE_FREE, vD1 := NULL_REF, vD2 := NULL_REF }
        (0, { s1 with sb := { s1.sb with
                              iHead := nInode
                              iTail := nInode
                              iFree := u32add1 s1.sb.iFree } })
      else
        let oldTail := s.sb.iTail
        let s1 := setInode s nInode { ino with mode := INODE_FREE, vD1 := NULL_REF, vD2 := oldTail }
        let s2 := { s1 with sb := { s1.sb with iTail := nInode, iFree := u32add1 s1.sb.iFree } }
        if s2.sb.iFree > 1 then
          if oldTail ≥ s2.sb.iTotal then (-EINVAL, s2)
          else
            let t := getInode s2 oldTail
            (0, setInode s2 oldTail { t with vD1 := nInode })
        else (0, s2)

/-- soAccessGranted (src sofs_ifuncs_2/soAccessGranted.c lines 63-185):
when the caller is root, R and W are always granted and X requires some
execute bit; otherwise the owner, group or other permission triple applies
according to uid / gid. -/
def soAccessGranted (uid gid : Nat) (s : FSState) (nInode opRequested : Nat) : Int :=
  if nInode ≥ s.sb.iTotal then -EINVAL
  else if opRequested > (R ||| W ||| X) ∨ opRequested = 0 then -EINVAL
  else
    let ino := getInode s nInode
    if soQCheckInodeIU ino ≠ 0 then -ELIBBAD
    else if ino.mode &&& INODE_FREE ≠ 0 then -EIUININVAL
    else
      let vt := ino.mode &&& INODE_TYPE_MASK
      if vt ≠ INODE_DIR ∧ vt ≠ INODE_FILE ∧ vt ≠ INODE_SYMLINK then -EINVAL
      else if uid = 0 then
        if opRequested &&& X ≠ 0 ∧
           ino.mode &&& 64 = 0 ∧ ino.mode &&& 8 = 0 ∧ ino.mode &&& 1 = 0 then -EACCES
        else 0
      else if uid = ino.owner then
        if opRequested &&& R ≠ 0 ∧ ino.mode &&& 256 = 0 then -EACCES
        else if opRequested &&& W ≠ 0 ∧ ino.mode &&& 128 = 0 then -EACCES
        else if opRequested &&& X ≠ 0 ∧ ino.mode &&& 64 = 0 then -EACCES
        else 0
      else if gid = ino.group then
        if opRequested &&& R ≠ 0 ∧ ino.mode &&& 32 = 0 then -EACCES
        else if opRequested &&& W ≠ 0 ∧ ino.mode &&& 16 = 0 then -EACCES
        else if opRequested &&& X ≠ 0 ∧ ino.mode &&& 8 = 0 then -EACCES
        else 0
      else
        if opRequested &&& R ≠ 0 ∧ ino.mode &&& 4 = 0 then -EACCES
        else if opRequested &&& W ≠ 0 ∧ ino.mode &&& 2 = 0 then -EACCES
        else if opRequested &&& X ≠ 0 ∧ ino.mode &&& 1 = 0 then -EACCES
        else 0

/-! ### Content tree (sofs_ifuncs_3/soHandleFileCluster.c, soHandleFileClusters.c)

The operation codes GET = 0, FREE = 2, FREE_CLEAN = 3 and CLEAN = 4 of the
source become an inductive type; the ALLOC operation (code 1) is exercised
by no claim of this development and is not part of the embedded operation
type (the one call site below that could reach it in the source, the
allocation branch of soWriteFileCluster, is documented there). -/

inductive FileClusterOp where
  | GET
  | FREE
  | FREE_CLEAN
  | CLEAN
deriving Repr, DecidableEq

/-- result of one of the three band handlers: return code, state, the
(possibly updated) inode buffer p_inode, and the p_outVal output -/
structure HRes where
  ret : Int
  st : FSState
  ino : SOInode
  out : Option Nat
deriving Repr, DecidableEq

/-- soCleanLogicalCluster (src soHandleFileCluster.c lines 813-837): check
that the cluster belongs to the given inode, then mark its stat
NULL_INODE.  The first test embeds the raw-device range validation of the
soReadCacheCluster call. -/
def soCleanLogicalCluster (s : FSState) (nInode nLClust : Nat) : Int × FSState :=
  if nLClust ≥ s.sb.dZoneTotal then (-EINVAL, s)
  else
    let dc := getClust s nLClust
    if dc.stat ≠ nInode then (-EWGINODENB, s)
    else (0, setClust s nLClust { dc with stat := NULL_REF })

/-- soHandleDirect (src soHandleFileCluster.c lines 197-266): GET returns
d[clustInd]; FREE frees the data cluster and returns with the reference
and cluCount untouched (lines 247-253); FREE_CLEAN and CLEAN additionally
dissociate the cluster, clear the reference and decrement cluCount. -/
def soHandleDirect (s : FSState) (nInode : Nat) (ino : SOInode) (clustInd : Nat)
    (op : FileClusterOp) : HRes :=
  let NLClt := ino.d.getD clustInd NULL_REF
  match op with
  | .GET => ⟨0, s, ino, some NLClt⟩
  | _ =>
    if NLClt = NULL_REF then ⟨-EDCNOTIL, s, ino, none⟩
    else
      let fr : Int × FSState :=
        if op ≠ FileClusterOp.CLEAN then soFreeDataCluster 0 s NLClt else (0, s)
      if fr.1 ≠ 0 then ⟨fr.1, fr.2, ino, none⟩
      else if op = FileClusterOp.FREE then ⟨0, fr.2, ino, none⟩
      else
        let cl := soCleanLogicalCluster fr.2 nInode NLClt
        if cl.1 ≠ 0 then ⟨cl.1, cl.2, ino, none⟩
        else ⟨0, cl.2,
              { ino with cluCount := u32sub1 ino.cluCount, d := ino.d.set clustInd NULL_REF },
              none⟩

/-- soHandleSIndirect (src soHandleFileCluster.c lines 293-461).  GET reads
through i1.  For FREE / FREE_CLEAN / CLEAN the handler checks the i1
cluster's stat field against the inode; FREE frees the data cluster and
returns with the reference in place and cluCount untouched (lines
407-413); FREE_CLEAN and CLEAN dissociate it, clear the slot, decrement
cluCount and, when the reference cluster becomes all-NULL, free and clean
the i1 cluster itself, decrementing cluCount again.  Stores of the
resident reference cluster are applied at the corresponding program
points.  The i1 ≥ dZoneTotal tests embed the range validation of
soLoadDirRefClust. -/
def soHandleSIndirect (s : FSState) (nInode : Nat) (ino : SOInode) (clustInd : Nat)
    (op : FileClusterOp) : HRes :=
  let off := clustInd - N_DIRECT
  match op with
  | .GET =>
    if ino.i1 = NULL_REF then ⟨0, s, ino, some NULL_REF⟩
    else if ino.i1 ≥ s.sb.dZoneTotal then ⟨-EINVAL, s, ino, none⟩
    else ⟨0, s, ino, some ((getClust s ino.i1).ref.getD off NULL_REF)⟩
  | _ =>
    if ino.i1 = NULL_REF then ⟨-EDCNOTIL, s, ino, none⟩
    else if ino.i1 ≥ s.sb.dZoneTotal then ⟨-EINVAL, s, ino, none⟩
    else
      let dc := getClust s ino.i1
      let rOff := dc.ref.getD off NULL_REF
      if rOff = NULL_REF then ⟨-EDCNOTIL, s, ino, none⟩
      else if dc.stat ≠ nInode then ⟨-EWGINODENB, s, ino, none⟩
      else
        let fr : Int × FSState :=
          if op ≠ FileClusterOp.CLEAN then soFreeDataCluster 0 s rOff else (0, s)
        if fr.1 ≠ 0 then ⟨fr.1, fr.2, ino, none⟩
        else if op = FileClusterOp.FREE then ⟨0, fr.2, ino, none⟩
        else
          let cl := soCleanLogicalCluster fr.2 nInode rOff
          if cl.1 ≠ 0 then ⟨cl.1, cl.2, ino, none⟩
          else
            let dc2 := { dc with ref := dc.ref.set off NULL_REF }
            let s3 := setClust cl.2 ino.i1 dc2
            let ino1 := { ino with cluCount := u32sub1 ino.cluCount }
            let allNull := (List.range RPC).all (fun j => dc2.ref.getD j NULL_REF == NULL_REF)
            if allNull then
              let f2 := soFreeDataCluster 0 s3 ino.i1
              if f2.1 ≠ 0 then ⟨f2.1, f2.2, ino1, none⟩
              else
                let c2 := soCleanLogicalCluster f2.2 nInode ino.i1
                if c2.1 ≠ 0 then ⟨c2.1, c2.2, ino1, none⟩
                else ⟨0, c2.2,
                      { ino1 with cluCount := u32sub1 ino1.cluCount, i1 := NULL_REF }, none⟩
            else ⟨0, s3, ino1, none⟩

/-- soHandleDIndirect (src soHandleFileCluster.c lines 488-717).  GET reads
through i2 and the first-level reference cluster.  FREE / FREE_CLEAN /
CLEAN mirror the single-indirect handler over the two levels, with the
tree collapse of the first-level cluster and then of i2; source lines 643
and 673 assign the comparison (call != 0) instead of the call's result, so
those two failure paths propagate the positive value 1, which the
embedding reproduces. -/
def soHandleDIndirect (s : FSState) (nInode : Nat) (ino : SOInode) (clustInd : Nat)
    (op : FileClusterOp) : HRes :=
  let sOff := (clustInd - N_DIRECT - RPC) / RPC
  let dOff := (clustInd - N_DIRECT - RPC) % RPC
  match op with
  | .GET =>
    if ino.i2 = NULL_REF then ⟨0, s, ino, some NULL_REF⟩
    else if ino.i2 ≥ s.sb.dZoneTotal then ⟨-EINVAL, s, ino, none⟩
    else
      let dcS := getClust s ino.i2
      let refS := dcS.ref.getD sOff NULL_REF
      if refS = NULL_REF then ⟨0, s, ino, some NULL_REF⟩
      else if refS ≥ s.sb.dZoneTotal then ⟨-EINVAL, s, ino, none⟩
      else ⟨0, s, ino, some ((getClust s refS).ref.getD dOff NULL_REF)⟩
  | _ =>
    if ino.i2 = NULL_REF then ⟨-EDCNOTIL, s, ino, none⟩
    else if ino.i2 ≥ s.sb.dZoneTotal then ⟨-EINVAL, s, ino, none⟩
    else
      let dcS := getClust s ino.i2
      let refS := dcS.ref.getD sOff NULL_REF
      if refS = NULL_REF then ⟨-EDCNOTIL, s, ino, none⟩
      else if refS ≥ s.sb.dZoneTotal then ⟨-EINVAL, s, ino, none⟩
      else
        let dcD := getClust s refS
        let refD := dcD.ref.getD dOff NULL_REF
        if refD = NULL_REF then ⟨-EDCNOTIL, s, ino, none⟩
        else
          let fr : Int × FSState :=
            if op ≠ FileClusterOp.CLEAN then soFreeDataCluster 0 s refD else (0, s)
          if fr.1 ≠ 0 then ⟨1, fr.2, ino, none⟩
          else if op = FileClusterOp.FREE then ⟨0, fr.2, ino, none⟩
          else
            let cl := soCleanLogicalCluster fr.2 nInode refD
            if cl.1 ≠ 0 then ⟨cl.1, cl.2, ino, none⟩
            else
              let dcD2 := { dcD with ref := dcD.ref.set dOff NULL_REF }
              let ino1 := { ino with cluCount := u32sub1 ino.cluCount }
              let allNullD := (List.range RPC).all (fun j => dcD2.ref.getD j NULL_REF == NULL_REF)
              let s3 := setClust cl.2 refS dcD2
              if allNullD then
                let f2 := soFreeDataCluster 0 s3 refS
                if f2.1 ≠ 0 then ⟨f2.1, f2.2, ino1, none⟩
                else
                  let c2 := soCleanLogicalCluster f2.2 nInode refS
                  if c2.1 ≠ 0 then ⟨1, c2.2, ino1, none⟩
                  else
                    let dcS2 := { dcS with ref := dcS.ref.set sOff NULL_REF }
                    let ino2 := { ino1 with cluCount := u32sub1 ino1.cluCount }
                    let s4 := setClust c2.2 ino.i2 dcS2
                    let allNullS := (List.range RPC).all (fun j => dcS2.ref.getD j NULL_REF == NULL_REF)
                    if allNullS then
                      let f3 := soFreeDataCluster 0 s4 ino.i2
                      if f3.1 ≠ 0 then ⟨f3.1, f3.2, ino2, none⟩
                      else
                        let c3 := soCleanLogicalCluster f3.2 nInode ino.i2
                        if c3.1 ≠ 0 then ⟨c3.1, c3.2, ino2, none⟩
                        else ⟨0, c3.2,
                              { ino2 with cluCount := u32sub1 ino2.cluCount, i2 := NULL_REF },
                              none⟩
                    else ⟨0, s4, ino2, none⟩
              else ⟨0, s3, ino1, none⟩

/-- soHandleFileCluster (src soHandleFileCluster.c lines 92-170): validate
the inode number and the cluster index, read the inode (free-dirty for
CLEAN, in use otherwise, refreshing the access time in the latter case),
dispatch on the reference band, and for the mutating operations write the
updated inode buffer back (refreshing both times for an in-use inode). -/
def soHandleFileCluster (now : Nat) (s : FSState) (nInode clustInd : Nat)
    (op : FileClusterOp) : Int × FSState × Option Nat :=
  if nInode ≥ s.sb.iTotal then (-EINVAL, s, none)
  else if clustInd ≥ MAX_FILE_CLUSTERS then (-EINVAL, s, none)
  else
    let rd := if op = FileClusterOp.CLEAN then soReadInode now s nInode FDIN
              else soReadInode now s nInode IUIN
    if rd.1 ≠ 0 then (rd.1, rd.2.1, none)
    else
      let h :=
        if clustInd < N_DIRECT then soHandleDirect rd.2.1 nInode rd.2.2 clustInd op
        else if clustInd < N_DIRECT + RPC then soHandleSIndirect rd.2.1 nInode rd.2.2 clustInd op
        else soHandleDIndirect rd.2.1 nInode rd.2.2 clustInd op
      if h.ret ≠ 0 then (h.ret, h.st, h.out)
      else if op = FileClusterOp.CLEAN then
        let wr := soWriteInode now h.st h.ino nInode FDIN
        if wr.1 ≠ 0 then (wr.1, wr.2, h.out) else (0, wr.2, h.out)
      else if op ≠ FileClusterOp.GET then
        let wr := soWriteInode now h.st h.ino nInode IUIN
        if wr.1 ≠ 0 then (wr.1, wr.2, h.out) else (0, wr.2, h.out)
      else (0, h.st, h.out)

/-- double-indirect walk of soHandleFileClusters (src soHandleFileClusters.c
lines 118-152): ind runs over the double-indirect band; a chunk whose
first-level reference is NULL is skipped whole, otherwise each non-NULL
second-level slot with clustIndIn ≤ ind is handled.  The reference
clusters are re-read from the current state at each step (the source reads
them through the resident-slot cache; the operations applied here keep the
two views identical on the states this development evaluates).  The fuel
argument bounds the walk by MAX_FILE_CLUSTERS. -/
def d2walk (now nInode clustIndIn : Nat) (op : FileClusterOp) (i2 : Nat) :
    FSState → Nat → Nat → Int × FSState
  | s, _, 0 => (0, s)
  | s, ind, fuel + 1 =>
    if ind ≥ MAX_FILE_CLUSTERS then (0, s)
    else
      let sOff := (ind - N_DIRECT - RPC) / RPC
      let dOff := (ind - N_DIRECT - RPC) % RPC
      let refS := (getClust s i2).ref.getD sOff NULL_REF
      if refS ≠ NULL_REF then
        if (getClust s refS).ref.getD dOff NULL_REF ≠ NULL_REF ∧ clustIndIn ≤ ind then
          let r := soHandleFileCluster now s nInode ind op
          if r.1 ≠ 0 then (r.1, r.2.1)
          else d2walk now nInode clustIndIn op i2 r.2.1 (ind + 1) fuel
        else d2walk now nInode clustIndIn op i2 s (ind + 1) fuel
      else d2walk now nInode clustIndIn op i2 s (ind + RPC) fuel

/-- single-indirect walk of soHandleFileClusters (src lines 156-173) -/
def i1walk (now nInode clustIndIn : Nat) (op : FileClusterOp) (i1 : Nat) :
    FSState → Nat → Nat → Int × FSState
  | s, _, 0 => (0, s)
  | s, ind, fuel + 1 =>
    if (getClust s i1).ref.getD (ind - N_DIRECT) NULL_REF ≠ NULL_REF ∧ clustIndIn ≤ ind then
      let r := soHandleFileCluster now s nInode ind op
      if r.1 ≠ 0 then (r.1, r.2.1)
      else i1walk now nInode clustIndIn op i1 r.2.1 (ind + 1) fuel
    else i1walk now nInode clustIndIn op i1 s (ind + 1) fuel

/-- direct-references walk of soHandleFileClusters (src lines 177-185);
d is the reference list of the inode buffer read once at entry -/
def dwalk (now nInode clustIndIn : Nat) (op : FileClusterOp) (d : List Nat) :
    FSState → Nat → Nat → Int × FSState
  | s, _, 0 => (0, s)
  | s, ind, fuel + 1 =>
    if d.getD ind NULL_REF ≠ NULL_REF ∧ clustIndIn ≤ ind then
      let r := soHandleFileCluster now s nInode ind op
      if r.1 ≠ 0 then (r.1, r.2.1)
      else dwalk now nInode clustIndIn op d r.2.1 (ind + 1) fuel
    else dwalk now nInode clustIndIn op d s (ind + 1) fuel

/-- soHandleFileClusters (src soHandleFileClusters.c lines 79-188): apply
op to every allocated cluster slot with index ≥ clustIndIn, double
indirect band first, then the single indirect band, then the direct
references, exactly in the source's order. -/
def soHandleFileClusters (now : Nat) (s : FSState) (nInode clustIndIn : Nat)
    (op : FileClusterOp) : Int × FSState :=
  if nInode ≥ s.sb.iTotal then (-EINVAL, s)
  else if clustIndIn ≥ MAX_FILE_CLUSTERS then (-EINVAL, s)
  else if op = FileClusterOp.GET then (-EINVAL, s)
  else
    let rd := if op = FileClusterOp.CLEAN then soReadInode now s nInode FDIN
              else soReadInode now s nInode IUIN
    if rd.1 ≠ 0 then (rd.1, rd.2.1)
    else
      let ino := rd.2.2
      let r2 :=
        if ino.i2 ≠ NULL_REF then
          if ino.i2 ≥ rd.2.1.sb.dZoneTotal then (-EINVAL, rd.2.1)
          else d2walk now nInode clustIndIn op ino.i2 rd.2.1 (N_DIRECT + RPC) MAX_FILE_CLUSTERS
        else (0, rd.2.1)
      if r2.1 ≠ 0 then r2
      else
        let r1 :=
          if ino.i1 ≠ NULL_REF then
            if ino.i1 ≥ r2.2.sb.dZoneTotal then (-EINVAL, r2.2)
            else i1walk now nInode clustIndIn op ino.i1 r2.2 N_DIRECT RPC
          else (0, r2.2)
        if r1.1 ≠ 0 then r1
        else dwalk now nInode clustIndIn op ino.d r1.2 0 N_DIRECT

/-! ### File cluster read / write (sofs_ifuncs_3/soReadFileCluster.c, soWriteFileCluster.c) -/

/-- soReadFileCluster (src soReadFileCluster.c lines 63-119): validate,
read the inode for consistency (the call passes the resident inode-table
block base as the buffer, so on success the read record is also copied
over the block's first record and stored — the embedding applies that
aliasing effect explicitly), translate the cluster index through GET and
copy the cluster out, or a zero-filled buffer for an unallocated slot. -/
def soReadFileCluster (now : Nat) (s : FSState) (nInode clustInd : Nat) :
    Int × FSState × SODataClust :=
  if nInode ≥ s.sb.iTotal ∨ nInode = 0 ∨ clustInd ≥ MAX_FILE_CLUSTERS then (-EINVAL, s, defClust)
  else
    let rd := soReadInode now s nInode IUIN
    if rd.1 ≠ 0 then (rd.1, rd.2.1, defClust)
    else
      let sAlias := setInode rd.2.1 (nInode / IPB * IPB) rd.2.2
      let g := soHandleFileCluster now sAlias nInode clustInd FileClusterOp.GET
      if g.1 ≠ 0 then (g.1, g.2.1, defClust)
      else
        match g.2.2 with
        | some n =>
          if n = NULL_REF then (0, g.2.1, zeroClust)
          else if n ≥ g.2.1.sb.dZoneTotal then (-EINVAL, g.2.1, defClust)
          else (0, g.2.1, getClust g.2.1 n)
        | none => (0, g.2.1, defClust)

/-- soWriteFileCluster (src soWriteFileCluster.c lines 64-119): validate,
translate the cluster index through GET and overwrite the cluster's body
(the info union) with the given buffer, keeping its header.  When the slot
is unallocated the source grows the file through the ALLOC operation; no
use of this function in the present development reaches that branch (the
written slot always exists) and the embedding reports it as -ELIBBAD. -/
def soWriteFileCluster (now : Nat) (s : FSState) (nInode clustInd : Nat)
    (buff : SODataClust) : Int × FSState :=
  if nInode ≥ s.sb.iTotal ∨ nInode = 0 ∨ clustInd > MAX_FILE_CLUSTERS then (-EINVAL, s)
  else
    let g := soHandleFileCluster now s nInode clustInd FileClusterOp.GET
    if g.1 ≠ 0 then (g.1, g.2.1)
    else
      match g.2.2 with
      | some nL =>
        if nL = NULL_REF then (-ELIBBAD, g.2.1)
        else if nL ≥ g.2.1.sb.dZoneTotal then (-EINVAL, g.2.1)
        else
          let dc := getClust g.2.1 nL
          (0, setClust g.2.1 nL { dc with ref := buff.ref, de := buff.de })
      | none => (-ELIBBAD, g.2.1)

/-! ### Directory operations (sofs_ifuncs_4) -/

/-- the C string held in a NUL-terminated byte array -/
def cstr (l : List Nat) : List Nat := l.takeWhile (fun b => b != 0)

def defDirEntry : SODirEntry := { name := List.replicate (MAX_NAME + 1) 0, nInode := 0 }

/-- outcome of scanning the entries of one directory cluster -/
inductive ScanRes where
  | found (nInode idx : Nat)
  | cleanSlot (idx : Nat)
  | nothing
deriving Repr, DecidableEq

/-- inner loop of soGetDirEntryByName (src soGetDirEntryByName.c lines
131-150): for each entry of the cluster, first test the name against
eName (strcmp), then test whether the entry is free in the clean state
(first and last name bytes NUL), in which case the walk stops at once.
base is the entry index of the cluster's first slot; fuel = DPC - j. -/
def scanEntries (de : List SODirEntry) (eName : List Nat) (base : Nat) :
    Nat → Nat → ScanRes
  | _, 0 => .nothing
  | j, fuel + 1 =>
    let e := de.getD j defDirEntry
    if cstr e.name = cstr eName then .found e.nInode (base + j)
    else if e.name.getD 0 0 = 0 ∧ e.name.getD MAX_NAME 0 = 0 then .cleanSlot (base + j)
    else scanEntries de eName base (j + 1) fuel

/-- outer loop of soGetDirEntryByName (src lines 124-158): read cluster i
of the directory, scan its entries, stop on a match (return 0 with both
outputs) or on the first clean slot (return -ENOENT with the slot index);
when all numRefMax clusters are exhausted (fuel reaches 0), return -ENOENT
with index cluCount * DPC. -/
def dirNameLoop (now : Nat) (nInodeDir : Nat) (eName : List Nat) (cluCount : Nat) :
    FSState → Nat → Nat → Int × FSState × Option Nat × Option Nat
  | s, _, 0 => (-ENOENT, s, none, some (cluCount * DPC))
  | s, i, fuel + 1 =>
    let rc := soReadFileCluster now s nInodeDir i
    if rc.1 ≠ 0 then (rc.1, rc.2.1, none, none)
    else
      match scanEntries rc.2.2.de eName (i * DPC) 0 DPC with
      | .found nInode idx => (0, rc.2.1, some nInode, some idx)
      | .cleanSlot idx => (-ENOENT, rc.2.1, none, some idx)
      | .nothing => dirNameLoop now nInodeDir eName cluCount rc.2.1 (i + 1) fuel

/-- soGetDirEntryByName (src soGetDirEntryByName.c lines 62-159): validate
the directory inode and the name, require execute permission, then walk
the directory's clusters in index order; numRefMax = size / (DPC * 64)
clusters are visited.  The two outputs are p_nInodeEnt and p_idx. -/
def soGetDirEntryByName (now uid gid : Nat) (s : FSState) (nInodeDir : Nat)
    (eName : List Nat) : Int × FSState × Option Nat × Option Nat :=
  if nInodeDir ≥ s.sb.iTotal then (-EINVAL, s, none, none)
  else if (cstr eName).length = 0 then (-EINVAL, s, none, none)
  else if (cstr eName).length > MAX_NAME then (-ENAMETOOLONG, s, none, none)
  else if (cstr eName).contains 47 then (-EINVAL, s, none, none)
  else
    let rd := soReadInode now s nInodeDir IUIN
    if rd.1 ≠ 0 then (rd.1, rd.2.1, none, none)
    else
      let ino := rd.2.2
      if ino.mode &&& INODE_TYPE_MASK ≠ INODE_DIR then (-ENOTDIR, rd.2.1, none, none)
      else if soQCheckDirCont rd.2.1.sb ino ≠ 0 then
        (soQCheckDirCont rd.2.1.sb ino, rd.2.1, none, none)
      else
        let ac := soAccessGranted uid gid rd.2.1 nInodeDir X
        if ac ≠ 0 then (ac, rd.2.1, none, none)
        else
          let numRefMax := ino.size / (DPC * 64)
          dirNameLoop now nInodeDir eName ino.cluCount rd.2.1 0 numRefMax

/-- Modelled from the spec: soCheckDirectoryEmptiness is declared extern in
soRemDetachDirEntry.c but its definition is not part of the repository
snapshot; spec section 4.8: walk all DPC-sized clusters of the directory —
each located through the inode's content tree, direct band, single
indirect band or double indirect band according to its index — and return
NotEmpty when any entry past index 1 is in use.  The reads it performs
have no further effect here. -/
def soCheckDirectoryEmptiness (s : FSState) (nInodeDir : Nat) : Int :=
  let ino := getInode s nInodeDir
  let total := ino.size / (DPC * 64)
  if (List.range (total * DPC)).all (fun idx =>
      if idx ≤ 1 then true
      else
        let clustInd := idx / DPC
        let nL :=
          if clustInd < N_DIRECT then ino.d.getD clustInd NULL_REF
          else if clustInd < N_DIRECT + RPC then
            (getClust s ino.i1).ref.getD (clustInd - N_DIRECT) NULL_REF
          else
            (getClust s ((getClust s ino.i2).ref.getD
                ((clustInd - N_DIRECT - RPC) / RPC) NULL_REF)).ref.getD
              ((clustInd - N_DIRECT - RPC) % RPC) NULL_REF
        let dc := getClust s nL
        (dc.de.getD (idx % DPC) defDirEntry).nInode == NULL_REF)
  then 0 else -ENOTEMPTY

/-- uint16_t decrement, for the refCount fields -/
def u16sub1 (x : Nat) : Nat := (x + 65535) % 65536

/-- slot rewrite and write-back tail of the REM branch of
soRemDetachDirEntry (src soRemDetachDirEntry.c lines 160-199): read the
directory cluster holding the entry, copy the slot's first name byte over
the last and NUL the first (the slot's inode-number field is not touched),
decrement the entry's refCount once more and write the cluster back; when
the refCount reaches zero the entry inode's whole content tree and the
inode itself are freed; finally both inode records are stored.  entry1 and
dir1 are the inode buffers as left by the directory-entry refCount step. -/
def remEntryTail (now : Nat) (s2 : FSState) (nInodeDir nInodeEnt idxDir : Nat)
    (entry1 dir1 : SOInode) : Int × FSState :=
  let rc := soReadFileCluster now s2 nInodeDir (idxDir / DPC)
  if rc.1 ≠ 0 then (rc.1, rc.2.1)
  else
    let dc := rc.2.2
    let s3 := rc.2.1
    let e := dc.de.getD (idxDir % DPC) defDirEntry
    let e1 := { e with
      name := (e.name.set MAX_NAME (e.name.getD 0 0)).set 0 0 }
    let dc1 := { dc with de := dc.de.set (idxDir % DPC) e1 }
    let entry2 := { entry1 with refCount := u16sub1 entry1.refCount }
    let wf := soWriteFileCluster now s3 nInodeDir (idxDir / DPC) dc1
    if wf.1 ≠ 0 then (wf.1, wf.2)
    else
      if entry2.refCount = 0 then
        let w1 := soWriteInode now wf.2 entry2 nInodeEnt IUIN
        if w1.1 ≠ 0 then (w1.1, w1.2)
        else
          let hf := soHandleFileClusters now w1.2 nInodeEnt 0 FileClusterOp.FREE
          if hf.1 ≠ 0 then (hf.1, hf.2)
          else
            let fi := soFreeInode hf.2 nInodeEnt
            if fi.1 ≠ 0 then (fi.1, fi.2)
            else
              let w2 := soWriteInode now fi.2 dir1 nInodeDir IUIN
              if w2.1 ≠ 0 then (w2.1, w2.2) else (0, w2.2)
      else
        let w1 := soWriteInode now wf.2 entry2 nInodeEnt IUIN
        if w1.1 ≠ 0 then (w1.1, w1.2)
        else
          let w2 := soWriteInode now w1.2 dir1 nInodeDir IUIN
          if w2.1 ≠ 0 then (w2.1, w2.2) else (0, w2.2)

/-- soRemDetachDirEntry (src soRemDetachDirEntry.c lines 83-236), op 0 =
REM, op 1 = DETACH.  After locating the entry: REM copies the first name
byte over the last one and NULs the first (lines 164-165), leaving the
entry's inode-number field untouched, decrements the entry's refCount
(and, for a directory entry, both the entry's and the parent's) and, when
the refCount reaches zero, frees the whole content tree and the inode;
DETACH zeroes name bytes 0 .. MAX_NAME-1 (the source loop stops short of
the last byte, line 215), sets the slot's inode number to NULL_INODE and
decrements the refCounts without releasing anything. -/
def soRemDetachDirEntry (now uid gid : Nat) (s : FSState) (nInodeDir : Nat)
    (eName : List Nat) (op : Nat) : Int × FSState :=
  if op ≠ 0 ∧ op ≠ 1 then (-EINVAL, s)
  else
    let rd := soReadInode now s nInodeDir IUIN
    if rd.1 ≠ 0 then (rd.1, rd.2.1)
    else
      let inodeDir := rd.2.2
      let s0 := rd.2.1
      if inodeDir.mode &&& INODE_DIR ≠ INODE_DIR then (-ENOTDIR, s0)
      else
        let ax := soAccessGranted uid gid s0 nInodeDir X
        if ax ≠ 0 then (ax, s0)
        else
          let aw := soAccessGranted uid gid s0 nInodeDir W
          if aw ≠ 0 then (aw, s0)
          else if (cstr eName).length = 0 then (-EINVAL, s0)
          else if (cstr eName).length > MAX_NAME then (-ENAMETOOLONG, s0)
          else if (cstr eName).contains 47 then (-EINVAL, s0)
          else
            let gd := soGetDirEntryByName now uid gid s0 nInodeDir eName
            if gd.1 ≠ 0 then (gd.1, gd.2.1)
            else
              match gd.2.2.1, gd.2.2.2 with
              | some nInodeEnt, some idxDir =>
                let rdE := soReadInode now gd.2.1 nInodeEnt IUIN
                if rdE.1 ≠ 0 then (rdE.1, rdE.2.1)
                else
                  let inodeEntry := rdE.2.2
                  let s2 := rdE.2.1
                  if op = 0 then
                    -- REM
                    let dirStep : Int × SOInode × SOInode :=
                      if inodeEntry.mode &&& INODE_DIR ≠ 0 then
                        if soCheckDirectoryEmptiness s2 nInodeEnt ≠ 0 then
                          (soCheckDirectoryEmptiness s2 nInodeEnt, inodeEntry, inodeDir)
                        else (0, { inodeEntry with refCount := u16sub1 inodeEntry.refCount },
                              { inodeDir with refCount := u16sub1 inodeDir.refCount })
                      else (0, inodeEntry, inodeDir)
                    if dirStep.1 ≠ 0 then (dirStep.1, s2)
                    else remEntryTail now s2 nInodeDir nInodeEnt idxDir dirStep.2.1 dirStep.2.2
                  else
                    -- DETACH
                    let dirStep : SOInode × SOInode :=
                      if inodeEntry.mode &&& INODE_DIR = INODE_DIR then
                        ({ inodeEntry with refCount := u16sub1 inodeEntry.refCount },
                         { inodeDir with refCount := u16sub1 inodeDir.refCount })
                      else (inodeEntry, inodeDir)
                    let entry1 := dirStep.1
                    let dir1 := dirStep.2
                    let rc := soReadFileCluster now s2 nInodeDir (idxDir / DPC)
                    if rc.1 ≠ 0 then (rc.1, rc.2.1)
                    else
                      let dc := rc.2.2
                      let s3 := rc.2.1
                      let entry2 := { entry1 with refCount := u16sub1 entry1.refCount }
                      let e := dc.de.getD (idxDir % DPC) defDirEntry
                      let e1 : SODirEntry :=
                        { name := (List.range MAX_NAME).foldl (fun nm i => nm.set i 0) e.name,
                          nInode := NULL_REF }
                      let dc1 := { dc with de := dc.de.set (idxDir % DPC) e1 }
                      let wf := soWriteFileCluster now s3 nInodeDir (idxDir / DPC) dc1
                      if wf.1 ≠ 0 then (wf.1, wf.2)
                      else
                        let w1 := soWriteInode now wf.2 entry2 nInodeEnt IUIN
                        if w1.1 ≠ 0 then (w1.1, w1.2)
                        else
                          let w2 := soWriteInode now w1.2 dir1 nInodeDir IUIN
                          if w2.1 ≠ 0 then (w2.1, w2.2) else (0, w2.2)
              | _, _ => (-ELIBBAD, gd.2.1)

/-! ### Path resolver wrapper (sofs_ifuncs_4/soGetDirEntryByPath.c) -/

/-- soGetDirEntryByPath (src soGetDirEntryByPath.c lines 76-126).  The
recursive traversal soTraversePath reads the directory hierarchy; its
observable outcome — the return code and the values it stores through
p_nInodeDir / p_nInodeEnt — is supplied as the traverse argument, so this
definition is exactly the wrapper's own logic: the absolute-path test
(line 91), the length validation that returns the positive ENAMETOOLONG
(line 101), the propagation of a traversal error (line 105), and the two
assignments at lines 111-119 that overwrite both outputs with 0 after a
successful traversal.  The NULL-pointer test of line 84 has no
counterpart for a value-level path. -/
def soGetDirEntryByPath (traverse : Int × Option Nat × Option Nat) (ePath : List Nat) :
    Int × Option Nat × Option Nat :=
  if ePath.getD 0 0 ≠ 47 then (-ERELPATH, none, none)
  else if (cstr ePath).length > MAX_PATH then (ENAMETOOLONG, none, none)
  else if traverse.1 ≠ 0 then traverse
  else (0, some 0, some 0)

/-! ### Claim-support definitions -/

/-- predicate linking cluster stat fields to the inode table: every cluster
is clean (stat NULL_INODE) or its stat names an inode whose FREE flag is
clear; this holds of a mkfs-fresh image and is preserved by the cluster
allocator (allocation stamps stat with an in-use inode, freeing leaves
stat alone) -/
def statInvB (s : FSState) : Bool :=
  (List.range s.dzone.length).all fun c =>
    ((getClust s c).stat == NULL_REF) ||
    ((getInode s ((getClust s c).stat)).mode &&& INODE_FREE == 0)

/-- the conservation invariant of the data zone: dZoneFree plus the number
of allocated clusters (the ghost list g, root cluster included) equals
dZoneTotal; the side conditions make uint32 arithmetic exact and rule the
dirty-allocation failure path out -/
def ConsInv (s : FSState) (g : List Nat) : Prop :=
  s.sb.dZoneFree + g.length = s.sb.dZoneTotal ∧ s.sb.dZoneTotal < U32 ∧ statInvB s = true

/-- a client call of the cluster allocator -/
inductive DOp where
  | alloc (nInode : Nat)
  | free (nClust : Nat)
deriving Repr, DecidableEq

/-- run of a sequence of allocator calls, threading the ghost list of
allocated clusters; a run is legal when every call succeeds and every
freed cluster was allocated (and not freed since), and runDOps returns
none as soon as a call breaks that -/
def runDOps : FSState → List Nat → List DOp → Option (FSState × List Nat)
  | s, g, [] => some (s, g)
  | s, g, DOp.alloc n :: rest =>
    let r := soAllocDataCluster s n
    if r.1 = 0 then runDOps r.2.1 (r.2.2 :: g) rest else none
  | s, g, DOp.free c :: rest =>
    if c ∈ g then
      let r := soFreeDataCluster 0 s c
      if r.1 = 0 then runDOps r.2 (g.erase c) rest else none
    else none

/-- the next link of a free inode (vD1) -/
def nextOf (s : FSState) (n : Nat) : Nat := (getInode s n).vD1

/-- the prev link of a free inode (vD2) -/
def prevOf (s : FSState) (n : Nat) : Nat := (getInode s n).vD2

/-- walk of the free-inode list: from cur, the remaining nodes are rest,
the last one is iTail and its next is NULL_REF -/
def chainFrom (s : FSState) : Nat → List Nat → Bool
  | cur, [] => decide (s.sb.iTail = cur) && decide (nextOf s cur = NULL_REF)
  | cur, x :: xs => decide (nextOf s cur = x) && chainFrom s x xs

/-- the double-linked free-inode list of the superblock is exactly l: an
empty l means iHead = iTail = NULL_REF; otherwise iHead starts the chain,
the head's prev is NULL_REF and the chain ends at iTail with next
NULL_REF -/
def freeListRep (s : FSState) : List Nat → Bool
  | [] => decide (s.sb.iHead = NULL_REF) && decide (s.sb.iTail = NULL_REF)
  | h :: t => decide (s.sb.iHead = h) && decide (prevOf s h = NULL_REF) && chainFrom s h t

/-- the free-inode-list invariant of the spec: the walk from iHead yields
exactly the list l and iFree counts its nodes -/
def FreeListInv (s : FSState) (l : List Nat) : Prop :=
  freeListRep s l = true ∧ s.sb.iFree = l.length

/-- well-formedness side conditions on a free list l: its nodes are
distinct, in range, non-root, resident in the inode table and marked
free -/
def FreeListNodes (s : FSState) (l : List Nat) : Prop :=
  l.Nodup ∧ ∀ x ∈ l, x < s.sb.iTotal ∧ x ≠ 0 ∧ x < s.itable.length ∧
    (getInode s x).mode &&& INODE_FREE ≠ 0

/-- frame predicate: the inode table, the number of clusters, and every
cluster's stat field and body views are unchanged; only cluster headers
and superblock bookkeeping may differ -/
def ClustFrame (s s' : FSState) : Prop :=
  s'.itable = s.itable ∧ s'.dzone.length = s.dzone.length ∧
  ∀ c, (getClust s' c).stat = (getClust s c).stat ∧
       (getClust s' c).ref = (getClust s c).ref ∧
       (getClust s' c).de = (getClust s c).de

/-- ClustFrame plus unchanged dZoneFree, dZoneTotal and iTotal, the shape
of every helper step inside the cluster allocator -/
def AllocFrame (s s' : FSState) : Prop :=
  ClustFrame s s' ∧ s'.sb.dZoneFree = s.sb.dZoneFree ∧
  s'.sb.dZoneTotal = s.sb.dZoneTotal ∧ s'.sb.iTotal = s.sb.iTotal

/-- the directory-entry view of the data zone: cluster count and every
cluster's de view unchanged -/
def DeView (s s' : FSState) : Prop :=
  s'.dzone.length = s.dzone.length ∧ ∀ c, (getClust s' c).de = (getClust s c).de

/-! ### Concrete states used by counterexamples and witnesses -/

/-- name bytes for ".", "..", "b" and a clean slot -/
def nameDot : List Nat := 46 :: List.replicate 59 0
def nameDotDot : List Nat := 46 :: 46 :: List.replicate 58 0
def nameB : List Nat := 98 :: List.replicate 59 0
def cleanName : List Nat := List.replicate 60 0

/-- directory cluster with a clean hole (slot 2) before the in-use entry
"b" (slot 3) -/
def dirDeHole : List SODirEntry :=
  [ { name := nameDot, nInode := 1 },
    { name := nameDotDot, nInode := 0 },
    { name := cleanName, nInode := NULL_REF },
    { name := nameB, nInode := 2 } ] ++
  List.replicate 27 { name := cleanName, nInode := NULL_REF }

/-- directory cluster with "b" at slot 2 and no hole before it -/
def dirDePacked : List SODirEntry :=
  [ { name := nameDot, nInode := 1 },
    { name := nameDotDot, nInode := 0 },
    { name := nameB, nInode := 2 } ] ++
  List.replicate 28 { name := cleanName, nInode := NULL_REF }

/-- small image: inode 0 the root directory, inode 1 a directory of one
cluster (cluster 1, holding dirDeHole), inode 2 a regular file with two
hard links, clusters 2 and 3 on the spill list -/
def stDir : FSState :=
  { sb := { iTotal := 4, iFree := 0, iHead := NULL_REF, iTail := NULL_REF,
            dZoneTotal := 4, dZoneFree := 2,
            dZoneRetriev := { cacheIdx := DZONE_CACHE_SIZE,
                              cache := List.replicate DZONE_CACHE_SIZE NULL_REF },
            dZoneInsert := { cacheIdx := 0,
                             cache := List.replicate DZONE_CACHE_SIZE NULL_REF },
            dHead := 2, dTail := 3 },
    itable :=
      [ { mode := INODE_DIR + 64, refCount := 2, owner := 0, group := 0, size := 1984,
          cluCount := 1, vD1 := 5, vD2 := 5,
          d := [0, NULL_REF, NULL_REF, NULL_REF, NULL_REF, NULL_REF, NULL_REF],
          i1 := NULL_REF, i2 := NULL_REF },
        { mode := INODE_DIR + 64 + 128 + 256, refCount := 2, owner := 0, group := 0,
          size := 1984, cluCount := 1, vD1 := 5, vD2 := 5,
          d := [1, NULL_REF, NULL_REF, NULL_REF, NULL_REF, NULL_REF, NULL_REF],
          i1 := NULL_REF, i2 := NULL_REF },
        { mode := INODE_FILE + 256 + 128, refCount := 2, owner := 0, group := 0,
          size := 10, cluCount := 0, vD1 := 5, vD2 := 5,
          d := List.replicate 7 NULL_REF, i1 := NULL_REF, i2 := NULL_REF },
        defInode ],
    dzone :=
      [ { prev := NULL_REF, next := NULL_REF, stat := 0, ref := [], de := [] },
        { prev := NULL_REF, next := NULL_REF, stat := 1, ref := [], de := dirDeHole },
        { prev := NULL_REF, next := 3, stat := NULL_REF, ref := [], de := [] },
        { prev := 2, next := NULL_REF, stat := NULL_REF, ref := [], de := [] } ] }

/-- same image with the packed directory cluster -/
def stDirPacked : FSState :=
  { stDir with dzone :=
      [ { prev := NULL_REF, next := NULL_REF, stat := 0, ref := [], de := [] },
        { prev := NULL_REF, next := NULL_REF, stat := 1, ref := [], de := dirDePacked },
        { prev := NULL_REF, next := 3, stat := NULL_REF, ref := [], de := [] },
        { prev := 2, next := NULL_REF, stat := NULL_REF, ref := [], de := [] } ] }

/-- image with inode 1 free in the dirty state, still holding d[0] = 1 of
a cluster whose stat still names it -/
def stDirty : FSState :=
  { sb := { iTotal := 4, iFree := 1, iHead := 1, iTail := 1,
            dZoneTotal := 4, dZoneFree := 2,
            dZoneRetriev := { cacheIdx := DZONE_CACHE_SIZE,
                              cache := List.replicate DZONE_CACHE_SIZE NULL_REF },
            dZoneInsert := { cacheIdx := 0,
                             cache := List.replicate DZONE_CACHE_SIZE NULL_REF },
            dHead := 2, dTail := 3 },
    itable :=
      [ { mode := INODE_DIR + 64, refCount := 2, owner := 0, group := 0, size := 1984,
          cluCount := 1, vD1 := 0, vD2 := 0,
          d := [0, NULL_REF, NULL_REF, NULL_REF, NULL_REF, NULL_REF, NULL_REF],
          i1 := NULL_REF, i2 := NULL_REF },
        { mode := INODE_FREE, refCount := 0, owner := 0, group := 0, size := 2036,
          cluCount := 1, vD1 := NULL_REF, vD2 := NULL_REF,
          d := [1, NULL_REF, NULL_REF, NULL_REF, NULL_REF, NULL_REF, NULL_REF],
          i1 := NULL_REF, i2 := NULL_REF } ],
    dzone :=
      [ { prev := NULL_REF, next := NULL_REF, stat := 0, ref := [], de := [] },
        { prev := NULL_REF, next := NULL_REF, stat := 1, ref := [], de := [] },
        { prev := NULL_REF, next := 3, stat := NULL_REF, ref := [], de := [] },
        { prev := 2, next := NULL_REF, stat := NULL_REF, ref := [], de := [] } ] }

/-- mkfs-fresh tiny image: only root in use, clusters 1-3 on the spill
list, both caches empty, exactly as mkfs_sofs14.c lays them out -/
def stFresh : FSState :=
  { sb := { iTotal := 1, iFree := 0, iHead := NULL_REF, iTail := NULL_REF,
            dZoneTotal := 4, dZoneFree := 3,
            dZoneRetriev := { cacheIdx := DZONE_CACHE_SIZE,
                              cache := List.replicate DZONE_CACHE_SIZE NULL_REF },
            dZoneInsert := { cacheIdx := 0,
                             cache := List.replicate DZONE_CACHE_SIZE NULL_REF },
            dHead := 1, dTail := 3 },
    itable :=
      [ { mode := INODE_DIR + 64, refCount := 2, owner := 0, group := 0, size := 1984,
          cluCount := 1, vD1 := 0, vD2 := 0,
          d := [0, NULL_REF, NULL_REF, NULL_REF, NULL_REF, NULL_REF, NULL_REF],
          i1 := NULL_REF, i2 := NULL_REF } ],
    dzone :=
      [ { prev := NULL_REF, next := NULL_REF, stat := 0, ref := [], de := [] },
        { prev := NULL_REF, next := 2, stat := NULL_REF, ref := [], de := [] },
        { prev := 1, next := 3, stat := NULL_REF, ref := [], de := [] },
        { prev := 2, next := NULL_REF, stat := NULL_REF, ref := [], de := [] } ] }

/-- image with a two-node free-inode list (inodes 1 and 2) and an in-use
file inode 3 -/
def stInodes : FSState :=
  { sb := { iTotal := 4, iFree := 2, iHead := 1, iTail := 2,
            dZoneTotal := 2, dZoneFree := 1,
            dZoneRetriev := { cacheIdx := DZONE_CACHE_SIZE,
                              cache := List.replicate DZONE_CACHE_SIZE NULL_REF },
            dZoneInsert := { cacheIdx := 0,
                             cache := List.replicate DZONE_CACHE_SIZE NULL_REF },
            dHead := 1, dTail := 1 },
    itable :=
      [ { mode := INODE_DIR + 64, refCount := 2, owner := 0, group := 0, size := 1984,
          cluCount := 1, vD1 := 0, vD2 := 0,
          d := [0, NULL_REF, NULL_REF, NULL_REF, NULL_REF, NULL_REF, NULL_REF],
          i1 := NULL_REF, i2 := NULL_REF },
        { mode := INODE_FREE, refCount := 0, owner := 0, group := 0, size := 0,
          cluCount := 0, vD1 := 2, vD2 := NULL_REF,
          d := List.replicate 7 NULL_REF, i1 := NULL_REF, i2 := NULL_REF },
        { mode := INODE_FREE, refCount := 0, owner := 0, group := 0, size := 0,
          cluCount := 0, vD1 := NULL_REF, vD2 := 1,
          d := List.replicate 7 NULL_REF, i1 := NULL_REF, i2 := NULL_REF },
        { mode := INODE_FILE + 256 + 128, refCount := 0, owner := 0, group := 0,
          size := 0, cluCount := 0, vD1 := 5, vD2 := 5,
          d := List.replicate 7 NULL_REF, i1 := NULL_REF, i2 := NULL_REF } ],
    dzone :=
      [ { prev := NULL_REF, next := NULL_REF, stat := 0, ref := [], de := [] },
        { prev := NULL_REF, next := NULL_REF, stat := NULL_REF, ref := [], de := [] } ] }

/-- trace of four legal allocator calls on the fresh tiny image: three
allocations for the root inode, then a free of cluster 1 -/
def c4run : Option (FSState × List Nat) :=
  runDOps stFresh [0] [DOp.alloc 0, DOp.alloc 0, DOp.alloc 0, DOp.free 1]

/-- the state and ghost allocation list the trace reaches -/
def c4mid : FSState × List Nat := c4run.getD (stFresh, [])

/-- shorter trace used by the witness -/
def c4wRun : Option (FSState × List Nat) :=
  runDOps stFresh [0] [DOp.alloc 0, DOp.free 1]

def c4wMid : FSState × List Nat := c4wRun.getD (stFresh, [])

/-! ### Helper lemmas: list access and frames -/

theorem getD_set_self {a : Type _} (l : List a) (i : Nat) (x d : a) (h : i < l.length) :
    (l.set i x).getD i d = x := by
  simp [List.getD_eq_getElem?_getD, List.getElem?_set_self', h, List.getElem?_eq_getElem]

theorem getD_set_ne {a : Type _} (l : List a) (i j : Nat) (x d : a) (h : i ≠ j) :
    (l.set i x).getD j d = l.getD j d := by
  simp [List.getD_eq_getElem?_getD, List.getElem?_set_ne h]

theorem getClust_setClust_self (s : FSState) (c : Nat) (dc : SODataClust)
    (h : c < s.dzone.length) : getClust (setClust s c dc) c = dc := by
  simp only [getClust, setClust]
  exact getD_set_self _ _ _ _ h

theorem getClust_setClust_ne (s : FSState) (c : Nat) (dc : SODataClust) (x : Nat)
    (h : c ≠ x) : getClust (setClust s c dc) x = getClust s x := by
  simp only [getClust, setClust]
  exact getD_set_ne _ _ _ _ _ h

theorem setClust_out (s : FSState) (c : Nat) (dc : SODataClust) (h : s.dzone.length ≤ c) :
    setClust s c dc = s := by
  simp only [setClust, List.set_eq_of_length_le h]

theorem getInode_setInode_self (s : FSState) (n : Nat) (i : SOInode)
    (h : n < s.itable.length) : getInode (setInode s n i) n = i := by
  simp only [getInode, setInode]
  exact getD_set_self _ _ _ _ h

theorem getInode_setInode_ne (s : FSState) (n : Nat) (i : SOInode) (x : Nat)
    (h : n ≠ x) : getInode (setInode s n i) x = getInode s x := by
  simp only [getInode, setInode]
  exact getD_set_ne _ _ _ _ _ h

theorem clustFrame_refl (s : FSState) : ClustFrame s s :=
  ⟨rfl, rfl, fun _ => ⟨rfl, rfl, rfl⟩⟩

theorem clustFrame_trans {s t u : FSState} (h1 : ClustFrame s t) (h2 : ClustFrame t u) :
    ClustFrame s u := by
  obtain ⟨a1, b1, c1⟩ := h1
  obtain ⟨a2, b2, c2⟩ := h2
  refine ⟨a2.trans a1, b2.trans b1, fun c => ?_⟩
  obtain ⟨x1, y1, z1⟩ := c1 c
  obtain ⟨x2, y2, z2⟩ := c2 c
  exact ⟨x2.trans x1, y2.trans y1, z2.trans z1⟩

theorem allocFrame_refl (s : FSState) : AllocFrame s s :=
  ⟨clustFrame_refl s, rfl, rfl, rfl⟩

theorem allocFrame_trans {s t u : FSState} (h1 : AllocFrame s t) (h2 : AllocFrame t u) :
    AllocFrame s u :=
  ⟨clustFrame_trans h1.1 h2.1, h2.2.1.trans h1.2.1, h2.2.2.1.trans h1.2.2.1,
   h2.2.2.2.trans h1.2.2.2⟩

theorem allocFrame_sbOnly (s : FSState) (sb' : SOSuperBlock)
    (h1 : sb'.dZoneFree = s.sb.dZoneFree) (h2 : sb'.dZoneTotal = s.sb.dZoneTotal)
    (h3 : sb'.iTotal = s.sb.iTotal) :
    AllocFrame s { s with sb := sb' } :=
  ⟨⟨rfl, rfl, fun _ => ⟨rfl, rfl, rfl⟩⟩, h1, h2, h3⟩

/-- writing any cluster record that keeps the slot's stat, ref and de
fields is a frame step -/
theorem clustFrame_setHdr (s : FSState) (c : Nat) (dc' : SODataClust)
    (hstat : dc'.stat = (getClust s c).stat) (href : dc'.ref = (getClust s c).ref)
    (hde : dc'.de = (getClust s c).de) :
    ClustFrame s (setClust s c dc') := by
  refine ⟨rfl, by simp [setClust], fun x => ?_⟩
  by_cases hx : c = x
  · subst hx
    by_cases hc : c < s.dzone.length
    · rw [getClust_setClust_self _ _ _ hc]
      exact ⟨hstat, href, hde⟩
    · rw [setClust_out _ _ _ (Nat.le_of_not_lt hc)]
      exact ⟨rfl, rfl, rfl⟩
  · rw [getClust_setClust_ne _ _ _ _ hx]
    exact ⟨rfl, rfl, rfl⟩

theorem allocFrame_setHdr (s : FSState) (c : Nat) (dc' : SODataClust)
    (hstat : dc'.stat = (getClust s c).stat) (href : dc'.ref = (getClust s c).ref)
    (hde : dc'.de = (getClust s c).de) :
    AllocFrame s (setClust s c dc') :=
  ⟨clustFrame_setHdr s c dc' hstat href hde, rfl, rfl, rfl⟩

theorem foldl_allocFrame {f : FSState → Nat → FSState}
    (h : ∀ st c, AllocFrame st (f st c)) (l : List Nat) (s : FSState) :
    AllocFrame s (l.foldl f s) := by
  induction l generalizing s with
  | nil => exact allocFrame_refl s
  | cons a t ih => exact allocFrame_trans (h s a) (ih (f s a))

theorem depleteLinks_allocFrame (dt : Nat) (cache : List Nat) (idx : Nat) (s : FSState) :
    AllocFrame s (depleteLinks dt cache idx s) := by
  unfold depleteLinks
  refine foldl_allocFrame (fun st cPos => ?_) _ s
  simp only []
  exact allocFrame_setHdr st _ _ rfl rfl rfl

theorem depleteHead_allocFrame (s : FSState) : AllocFrame s (depleteHead s) := by
  unfold depleteHead
  rcases em (s.sb.dTail ≠ NULL_REF) with h | h
  · rw [if_pos h]
    exact allocFrame_setHdr s _ _ rfl rfl rfl
  · rw [if_neg h]
    exact allocFrame_refl s

theorem soDeplete_allocFrame (s : FSState) : AllocFrame s (soDeplete s) := by
  unfold soDeplete
  simp only []
  refine allocFrame_trans ?_ (allocFrame_sbOnly _ _ rfl rfl rfl)
  refine allocFrame_trans ?_ (depleteLinks_allocFrame _ _ _ _)
  exact depleteHead_allocFrame s

theorem replStep_allocFrame (s : FSState) (nL n : Nat) :
    AllocFrame s (replStep s nL n).1 := by
  unfold replStep
  simp only []
  refine allocFrame_trans ?_ (allocFrame_setHdr _ _ _ rfl rfl rfl)
  exact allocFrame_sbOnly _ _ rfl rfl rfl

theorem replLoopBrk_allocFrame (steps : Nat) :
    ∀ (s : FSState) (nL n : Nat), AllocFrame s (replLoopBrk s nL n steps).1 := by
  induction steps with
  | zero => intro s nL n; exact allocFrame_refl s
  | succ k ih =>
    intro s nL n
    unfold replLoopBrk
    rcases em (nL = NULL_REF) with h | h
    · rw [if_pos h]
      exact allocFrame_refl s
    · rw [if_neg h]
      exact allocFrame_trans (replStep_allocFrame s nL n) (ih _ _ _)

theorem replLoopRaw_allocFrame (steps : Nat) :
    ∀ (s : FSState) (nL n : Nat), AllocFrame s (replLoopRaw s nL n steps).1 := by
  induction steps with
  | zero => intro s nL n; exact allocFrame_refl s
  | succ k ih =>
    intro s nL n
    unfold replLoopRaw
    exact allocFrame_trans (replStep_allocFrame s nL n) (ih _ _ _)

theorem replSetHead_allocFrame (s : FSState) (nL : Nat) :
    AllocFrame s (replSetHead s nL) := by
  unfold replSetHead
  rcases em (nL = NULL_REF) with h | h
  · rw [if_pos h]
    exact allocFrame_sbOnly _ _ rfl rfl rfl
  · rw [if_neg h]
    exact allocFrame_sbOnly _ _ rfl rfl rfl

theorem replClearPrev_allocFrame (s : FSState) (nL : Nat) :
    AllocFrame s (replClearPrev s nL) := by
  unfold replClearPrev
  rcases em (nL ≠ NULL_REF) with h | h
  · rw [if_pos h]
    exact allocFrame_setHdr s _ _ rfl rfl rfl
  · rw [if_neg h]
    exact allocFrame_refl s

theorem replFinish_allocFrame (nctt : Nat) (s : FSState) (nL : Nat) :
    AllocFrame s (replFinish nctt s nL) := by
  unfold replFinish
  simp only []
  refine allocFrame_trans ?_ (allocFrame_sbOnly _ _ rfl rfl rfl)
  refine allocFrame_trans ?_ (replClearPrev_allocFrame _ nL)
  exact replSetHead_allocFrame s nL

theorem soReplenish_allocFrame (s : FSState) : AllocFrame s (soReplenish s) := by
  unfold soReplenish
  simp only []
  rcases em ((replLoopBrk s s.sb.dHead
      (DZONE_CACHE_SIZE - (if s.sb.dZoneFree < DZONE_CACHE_SIZE then s.sb.dZoneFree
        else DZONE_CACHE_SIZE))
      (if s.sb.dZoneFree < DZONE_CACHE_SIZE then s.sb.dZoneFree
        else DZONE_CACHE_SIZE)).2.2 ≠ DZONE_CACHE_SIZE) with h | h
  · rw [if_pos h]
    refine allocFrame_trans ?_ (replFinish_allocFrame _ _ _)
    refine allocFrame_trans ?_ (replLoopRaw_allocFrame _ _ _ _)
    refine allocFrame_trans ?_ (soDeplete_allocFrame _)
    refine allocFrame_trans ?_ (allocFrame_sbOnly _ _ rfl rfl rfl)
    exact replLoopBrk_allocFrame _ _ _ _
  · rw [if_neg h]
    refine allocFrame_trans ?_ (replFinish_allocFrame _ _ _)
    exact replLoopBrk_allocFrame _ _ _ _

/-! ### Allocator success-path lemmas -/


theorem getInode_eq_of_itable {s s' : FSState} (hit : s'.itable = s.itable) (x : Nat) :
    getInode s' x = getInode s x := by
  simp only [getInode, hit]

theorem statInvB_of_frame {s s' : FSState} (hf : ClustFrame s s') (h : statInvB s = true) :
    statInvB s' = true := by
  obtain ⟨hit, hlen, hall⟩ := hf
  unfold statInvB at h ⊢
  rw [hlen]
  refine List.all_eq_true.mpr fun c hc => ?_
  have horig := List.all_eq_true.mp h c hc
  obtain ⟨h1, -, -⟩ := hall c
  simp only [] at horig ⊢
  rw [h1, getInode_eq_of_itable hit]
  exact horig

theorem statInvB_setClust {s : FSState} (hstat : statInvB s = true) (c : Nat)
    (dc' : SODataClust)
    (hok : dc'.stat = NULL_REF ∨ (getInode s dc'.stat).mode &&& INODE_FREE = 0) :
    statInvB (setClust s c dc') = true := by
  unfold statInvB
  have hlen : (setClust s c dc').dzone.length = s.dzone.length := by simp [setClust]
  rw [hlen]
  refine List.all_eq_true.mpr fun x hx => ?_
  have hxlen := List.mem_range.mp hx
  have hit : (setClust s c dc').itable = s.itable := rfl
  rcases em (c = x) with hcx | hcx
  · subst hcx
    rw [getClust_setClust_self s c dc' hxlen, getInode_eq_of_itable hit]
    rcases hok with h | h
    · simp [h]
    · simp [h]
  · rw [getClust_setClust_ne s c dc' x hcx, getInode_eq_of_itable hit]
    exact List.all_eq_true.mp hstat x (List.mem_range.mpr hxlen)

theorem mode_free_of_qcheckFInode {i : SOInode} (h : soQCheckFInode i ≠ 0) :
    i.mode &&& INODE_FREE = 0 := by
  unfold soQCheckFInode at h
  rcases em (i.mode &&& INODE_FREE ≠ 0) with h2 | h2
  · rw [if_pos h2] at h
    exact absurd rfl h
  · exact not_not.mp h2

theorem soCleanDataCluster_fails {s : FSState} {nIn nc : Nat}
    (hstat : statInvB s = true) (hnc : (getClust s nc).stat = nIn) (hne : nIn ≠ NULL_REF) :
    (soCleanDataCluster s nIn nc).1 ≠ 0 := by
  unfold soCleanDataCluster
  rcases em (nIn ≥ s.sb.iTotal ∨ nIn = 0 ∨ nc ≥ s.sb.dZoneTotal) with h1 | h1
  · rw [if_pos h1]
    show -EINVAL ≠ 0
    decide
  rw [if_neg h1]
  rcases em (soQCheckFDInode (getInode s nIn) ≠ 0) with h2 | h2
  · rw [if_pos h2]
    show -EFDININVAL ≠ 0
    decide
  rw [if_neg h2]
  exfalso
  have hq : soQCheckFDInode (getInode s nIn) = 0 := not_not.mp h2
  have hfree : (getInode s nIn).mode &&& INODE_FREE ≠ 0 := by
    by_contra h3
    unfold soQCheckFDInode at hq
    rw [if_neg (not_not.mpr h3)] at hq
    exact absurd hq (by decide)
  push_neg at h1
  obtain ⟨-, hne0, -⟩ := h1
  rcases em (nc < s.dzone.length) with hlt | hlt
  · have hall := List.all_eq_true.mp hstat nc (List.mem_range.mpr hlt)
    simp only [Bool.or_eq_true, beq_iff_eq] at hall
    rw [hnc] at hall
    rcases hall with h4 | h4
    · exact hne h4
    · exact hfree h4
  · have hd : getClust s nc = defClust := by
      simp only [getClust]
      exact List.getD_eq_default _ _ (Nat.le_of_not_lt hlt)
    rw [hd] at hnc
    exact hne0 hnc.symm

theorem allocStamp_ok {s2 : FSState} {nC n : Nat} {s' : FSState} {c : Nat}
    (h : allocStamp s2 nC n = (0, s', c))
    (hstat : statInvB s2 = true)
    (hfree : (getInode s2 n).mode &&& INODE_FREE = 0) :
    statInvB s' = true ∧ s'.sb = s2.sb ∧ s'.itable = s2.itable ∧
    s'.dzone.length = s2.dzone.length := by
  unfold allocStamp at h
  simp only [] at h
  rcases em ((getClust s2 nC).stat ≠ NULL_REF) with hd | hd
  · rw [if_pos hd] at h
    have hfail := soCleanDataCluster_fails hstat rfl hd
    rw [if_pos hfail] at h
    exact absurd (congrArg (fun p => p.1) h) hfail
  · rw [if_neg hd] at h
    have hs' := congrArg (fun p => p.2.1) h
    simp only [] at hs'
    subst hs'
    refine ⟨?_, rfl, rfl, by simp [setClust]⟩
    refine statInvB_setClust hstat nC _ (Or.inr ?_)
    exact hfree

theorem allocPop_ok {s1 : FSState} {n : Nat} {s' : FSState} {c : Nat}
    (h : allocPop s1 n = (0, s', c))
    (hstat : statInvB s1 = true)
    (hfree : (getInode s1 n).mode &&& INODE_FREE = 0)
    (hdz : s1.sb.dZoneFree ≠ 0) :
    s'.sb.dZoneFree + 1 = s1.sb.dZoneFree ∧
    s'.sb.dZoneTotal = s1.sb.dZoneTotal ∧ s'.sb.iTotal = s1.sb.iTotal ∧
    s'.itable = s1.itable ∧ s'.dzone.length = s1.dzone.length ∧ statInvB s' = true := by
  unfold allocPop at h
  have hitv : (allocView s1).1.itable = s1.itable := rfl
  have hstat2 : statInvB (allocView s1).1 = true :=
    statInvB_of_frame ⟨rfl, rfl, fun _ => ⟨rfl, rfl, rfl⟩⟩ hstat
  have hfree2 : (getInode (allocView s1).1 n).mode &&& INODE_FREE = 0 := by
    rw [getInode_eq_of_itable hitv]
    exact hfree
  obtain ⟨hstat', hsb, hita, hlen⟩ := allocStamp_ok h hstat2 hfree2
  have hvfree : (allocView s1).1.sb.dZoneFree = s1.sb.dZoneFree - 1 := rfl
  have hvtot : (allocView s1).1.sb.dZoneTotal = s1.sb.dZoneTotal := rfl
  have hvitot : (allocView s1).1.sb.iTotal = s1.sb.iTotal := rfl
  have hvlen : (allocView s1).1.dzone.length = s1.dzone.length := rfl
  refine ⟨?_, ?_, ?_, ?_, ?_, hstat'⟩
  · rw [hsb, hvfree]
    exact Nat.sub_add_cancel (Nat.one_le_iff_ne_zero.mpr hdz)
  · rw [hsb, hvtot]
  · rw [hsb, hvitot]
  · rw [hita, hitv]
  · rw [hlen, hvlen]

theorem soAllocDataCluster_ok {s : FSState} {n : Nat} {s' : FSState} {c : Nat}
    (h : soAllocDataCluster s n = (0, s', c))
    (hstat : statInvB s = true) :
    s'.sb.dZoneFree + 1 = s.sb.dZoneFree ∧
    s'.sb.dZoneTotal = s.sb.dZoneTotal ∧ s'.sb.iTotal = s.sb.iTotal ∧
    s'.itable = s.itable ∧ s'.dzone.length = s.dzone.length ∧ statInvB s' = true := by
  unfold soAllocDataCluster at h
  rw [if_neg (by simp [soQCheckDZ])] at h
  rcases em (s.sb.dZoneFree = 0) with h1 | h1
  · rw [if_pos h1] at h
    exact absurd (show (-ENOSPC : Int) = 0 from congrArg (fun p => p.1) h) (by decide)
  rw [if_neg h1] at h
  rcases em (n ≥ s.sb.iTotal) with h2 | h2
  · rw [if_pos h2] at h
    exact absurd (show (-EINVAL : Int) = 0 from congrArg (fun p => p.1) h) (by decide)
  rw [if_neg h2] at h
  rcases em (soQCheckFInode (getInode s n) = 0) with h3 | h3
  · rw [if_pos h3] at h
    exact absurd (show (-EIUININVAL : Int) = 0 from congrArg (fun p => p.1) h) (by decide)
  rw [if_neg h3] at h
  have hfree0 := mode_free_of_qcheckFInode h3
  generalize hS : (if s.sb.dZoneRetriev.cacheIdx = DZONE_CACHE_SIZE
      then soReplenish s else s) = s1 at h
  have haf : AllocFrame s s1 := by
    rw [← hS]
    rcases em (s.sb.dZoneRetriev.cacheIdx = DZONE_CACHE_SIZE) with h4 | h4
    · rw [if_pos h4]
      exact soReplenish_allocFrame s
    · rw [if_neg h4]
      exact allocFrame_refl s
  obtain ⟨⟨hit, hlen, hcl⟩, hfr, htot, hitot⟩ := haf
  have hstat1 : statInvB s1 = true := statInvB_of_frame ⟨hit, hlen, hcl⟩ hstat
  have hfree1 : (getInode s1 n).mode &&& INODE_FREE = 0 := by
    rw [getInode_eq_of_itable hit]
    exact hfree0
  have hdz1 : s1.sb.dZoneFree ≠ 0 := by
    rw [hfr]
    exact h1
  obtain ⟨e1, e2, e3, e4, e5, e6⟩ := allocPop_ok h hstat1 hfree1 hdz1
  exact ⟨by rw [← hfr, e1], e2.trans htot, e3.trans hitot, e4.trans hit, e5.trans hlen, e6⟩

theorem soFreeDataCluster_ok {r : Int} {s : FSState} {c : Nat} {s' : FSState}
    (h : soFreeDataCluster r s c = (0, s')) :
    s'.sb.dZoneFree = u32add1 s.sb.dZoneFree ∧
    s'.sb.dZoneTotal = s.sb.dZoneTotal ∧
    s'.sb.iTotal = s.sb.iTotal ∧ s'.itable = s.itable ∧
    s'.dzone.length = s.dzone.length ∧ ClustFrame s s' := by
  unfold soFreeDataCluster at h
  rcases em (c = 0 ∨ c ≥ s.sb.dZoneTotal) with h1 | h1
  · rw [if_pos h1] at h
    exact absurd (show (-EINVAL : Int) = 0 from congrArg Prod.fst h) (by decide)
  rw [if_neg h1] at h
  simp only [] at h
  rcases em ((soQCheckStatDC s c).1 ≠ 0) with h2 | h2
  · rw [if_pos h2] at h
    exact absurd (congrArg Prod.fst h) h2
  rw [if_neg h2] at h
  rcases em ((soQCheckStatDC s c).2 = FREE_CLT) with h3 | h3
  · rw [if_pos h3] at h
    exact absurd (show (-EDCNALINVAL : Int) = 0 from congrArg Prod.fst h) (by decide)
  rw [if_neg h3] at h
  rw [ite_self] at h
  have hs' := congrArg Prod.snd h
  simp only [] at hs'
  subst hs'
  generalize hS1 : setClust s c
      { getClust s c with prev := NULL_REF, next := NULL_REF } = s1
  have haf1 : AllocFrame s s1 := by
    rw [← hS1]
    exact allocFrame_setHdr s c _ rfl rfl rfl
  obtain ⟨⟨h1it, h1len, h1cl⟩, h1fr, h1tot, h1itot⟩ := haf1
  rcases em (s1.sb.dZoneInsert.cacheIdx = DZONE_CACHE_SIZE) with hc | hc
  · rw [if_pos hc]
    obtain ⟨⟨hdit, hdlen, hdcl⟩, hdfr, hdtot, hditot⟩ := soDeplete_allocFrame s1
    refine ⟨?_, ?_, ?_, ?_, ?_, ?_⟩
    · show u32add1 (soDeplete s1).sb.dZoneFree = u32add1 s.sb.dZoneFree
      rw [hdfr, h1fr]
    · show (soDeplete s1).sb.dZoneTotal = s.sb.dZoneTotal
      rw [hdtot, h1tot]
    · show (soDeplete s1).sb.iTotal = s.sb.iTotal
      rw [hditot, h1itot]
    · show (soDeplete s1).itable = s.itable
      rw [hdit, h1it]
    · show (soDeplete s1).dzone.length = s.dzone.length
      rw [hdlen, h1len]
    · exact clustFrame_trans (clustFrame_trans ⟨h1it, h1len, h1cl⟩ ⟨hdit, hdlen, hdcl⟩)
        ⟨rfl, rfl, fun _ => ⟨rfl, rfl, rfl⟩⟩
  · rw [if_neg hc]
    refine ⟨?_, ?_, ?_, ?_, ?_, ?_⟩
    · show u32add1 s1.sb.dZoneFree = u32add1 s.sb.dZoneFree
      rw [h1fr]
    · show s1.sb.dZoneTotal = s.sb.dZoneTotal
      rw [h1tot]
    · show s1.sb.iTotal = s.sb.iTotal
      rw [h1itot]
    · show s1.itable = s.itable
      rw [h1it]
    · show s1.dzone.length = s.dzone.length
      rw [h1len]
    · exact clustFrame_trans ⟨h1it, h1len, h1cl⟩ ⟨rfl, rfl, fun _ => ⟨rfl, rfl, rfl⟩⟩

theorem runDOps_consInv (ops : List DOp) :
    ∀ (s : FSState) (g : List Nat) (s' : FSState) (g' : List Nat),
      ConsInv s g → runDOps s g ops = some (s', g') → ConsInv s' g' := by
  induction ops with
  | nil =>
    intro s g s' g' hI h
    simp only [runDOps, Option.some.injEq, Prod.mk.injEq] at h
    obtain ⟨h1, h2⟩ := h
    subst h1
    subst h2
    exact hI
  | cons op rest ih =>
    intro s g s' g' hI h
    cases op with
    | alloc n =>
      simp only [runDOps] at h
      rcases em ((soAllocDataCluster s n).1 = 0) with he | he
      · rw [if_pos he] at h
        have hr : soAllocDataCluster s n =
            (0, (soAllocDataCluster s n).2.1, (soAllocDataCluster s n).2.2) := by
          rw [← he]
        obtain ⟨e1, e2, e3, e4, e5, e6⟩ := soAllocDataCluster_ok hr hI.2.2
        refine ih _ _ _ _ ⟨?_, ?_, e6⟩ h
        · have hc := hI.1
          simp only [List.length_cons]
          omega
        · rw [e2]
          exact hI.2.1
      · rw [if_neg he] at h
        exact Option.noConfusion h
    | free cF =>
      simp only [runDOps] at h
      rcases em (cF ∈ g) with hm | hm
      · rw [if_pos hm] at h
        rcases em ((soFreeDataCluster 0 s cF).1 = 0) with he | he
        · rw [if_pos he] at h
          have hfe : soFreeDataCluster 0 s cF = (0, (soFreeDataCluster 0 s cF).2) :=
            Prod.ext_iff.mpr ⟨he, rfl⟩
          obtain ⟨e1, e2, e3, e4, e5, ecf⟩ := soFreeDataCluster_ok hfe
          have hg1 : 1 ≤ g.length := List.length_pos.mpr (List.ne_nil_of_mem hm)
          have hlen' : (g.erase cF).length = g.length - 1 := List.length_erase_of_mem hm
          have hnowrap : s.sb.dZoneFree + 1 < U32 := by
            have hc := hI.1
            have ht := hI.2.1
            omega
          have e1' : (soFreeDataCluster 0 s cF).2.sb.dZoneFree = s.sb.dZoneFree + 1 := by
            rw [e1]
            unfold u32add1
            exact Nat.mod_eq_of_lt hnowrap
          refine ih _ _ _ _ ⟨?_, ?_, statInvB_of_frame ecf hI.2.2⟩ h
          · rw [e1', e2, hlen']
            have hc := hI.1
            omega
          · rw [e2]
            exact hI.2.1
        · rw [if_neg he] at h
          exact Option.noConfusion h
      · rw [if_neg hm] at h
        exact Option.noConfusion h

/-! ### Claim C4 -/

/-- C4 (amended): starting from any state satisfying the conservation
invariant (dZoneFree + number of allocated clusters = dZoneTotal, with the
stat discipline), every successful soAllocDataCluster decrements dZoneFree
by exactly one, every successful soFreeDataCluster of an allocated cluster
increments it by exactly one, and the equation holds again after any run
in which every call succeeds. -/
theorem claim_C4 {s : FSState} {g : List Nat} (hI : ConsInv s g) :
    (∀ n s' c, soAllocDataCluster s n = (0, s', c) →
      s'.sb.dZoneFree + 1 = s.sb.dZoneFree) ∧
    (∀ c s', c ∈ g → soFreeDataCluster 0 s c = (0, s') →
      s'.sb.dZoneFree = s.sb.dZoneFree + 1) ∧
    (∀ ops s' g', runDOps s g ops = some (s', g') →
      s'.sb.dZoneFree + g'.length = s'.sb.dZoneTotal) := by
  refine ⟨fun n s' c h => ?_, fun c s' hm h => ?_, fun ops s' g' h => ?_⟩
  · exact (soAllocDataCluster_ok h hI.2.2).1
  · obtain ⟨e1, -, -, -, -, -⟩ := soFreeDataCluster_ok h
    have hg1 : 1 ≤ g.length := List.length_pos.mpr (List.ne_nil_of_mem hm)
    have hc := hI.1
    have ht := hI.2.1
    rw [e1]
    unfold u32add1
    exact Nat.mod_eq_of_lt (by omega)
  · exact (runDOps_consInv ops s g s' g' hI h).1

/-- C4 counterexample to the claim as stated: on the fresh tiny image the
four-call trace of c4run is legal and keeps the equation, and the image it
reaches still has a free cluster and the in-use root inode, yet the fifth
call soAllocDataCluster fails (the popped cluster is dirty and
soCleanDataCluster rejects its in-use owner) while still decrementing
dZoneFree, so after that call dZoneFree plus the number of allocated
clusters no longer equals dZoneTotal. -/
theorem claim_C4_counterexample :
    c4run = some c4mid ∧
    c4mid.1.sb.dZoneFree + c4mid.2.length = c4mid.1.sb.dZoneTotal ∧
    c4mid.1.sb.dZoneFree ≠ 0 ∧
    (getInode c4mid.1 0).mode &&& INODE_FREE = 0 ∧
    (soAllocDataCluster c4mid.1 0).1 ≠ 0 ∧
    (soAllocDataCluster c4mid.1 0).2.1.sb.dZoneFree + c4mid.2.length ≠
      (soAllocDataCluster c4mid.1 0).2.1.sb.dZoneTotal := by
  decide

/-- C4 witness: the amended theorem applied to the fresh tiny image and
the two-call trace -/
theorem claim_C4_witness :
    c4wMid.1.sb.dZoneFree + c4wMid.2.length = c4wMid.1.sb.dZoneTotal := by
  exact (@claim_C4 stFresh [0] ⟨by decide, by decide, by decide⟩).2.2
    [DOp.alloc 0, DOp.free 1] c4wMid.1 c4wMid.2 (by decide)

/-! ### Free-inode list lemmas and claim C7 -/

theorem setInode_sb (s : FSState) (n : Nat) (i : SOInode) : (setInode s n i).sb = s.sb := rfl

theorem getInode_sb (s : FSState) (sb' : SOSuperBlock) (n : Nat) :
    getInode { s with sb := sb' } n = getInode s n := rfl

theorem setInode_itlen (s : FSState) (n : Nat) (i : SOInode) :
    (setInode s n i).itable.length = s.itable.length := by
  simp [setInode]

theorem chainFrom_tail_mem {s : FSState} :
    ∀ (m : List Nat) (c : Nat), chainFrom s c m = true → s.sb.iTail ∈ c :: m := by
  intro m
  induction m with
  | nil =>
    intro c hch
    simp only [chainFrom, Bool.and_eq_true, decide_eq_true_eq] at hch
    simp [hch.1]
  | cons x xs ih =>
    intro c hch
    simp only [chainFrom, Bool.and_eq_true, decide_eq_true_eq] at hch
    exact List.mem_cons_of_mem c (ih x hch.2)

theorem chainFrom_congr {s s' : FSState} (hT : s'.sb.iTail = s.sb.iTail) :
    ∀ (m : List Nat) (c : Nat),
    (∀ z, z = c ∨ z ∈ m → nextOf s' z = nextOf s z) →
    chainFrom s c m = true → chainFrom s' c m = true := by
  intro m
  induction m with
  | nil =>
    intro c hpres hch
    simp only [chainFrom, Bool.and_eq_true, decide_eq_true_eq] at hch ⊢
    exact ⟨hT.trans hch.1, (hpres c (Or.inl rfl)).trans hch.2⟩
  | cons x xs ih =>
    intro c hpres hch
    simp only [chainFrom, Bool.and_eq_true, decide_eq_true_eq] at hch ⊢
    refine ⟨(hpres c (Or.inl rfl)).trans hch.1, ?_⟩
    exact ih x (fun z hz => hpres z (Or.inr (List.mem_cons.mpr hz))) hch.2

theorem chainFrom_snoc {s s' : FSState} {nNew : Nat} :
    ∀ (m : List Nat) (c : Nat), chainFrom s c m = true →
    (c :: m).Nodup →
    (∀ z, z = c ∨ z ∈ m → z ≠ s.sb.iTail → nextOf s' z = nextOf s z) →
    nextOf s' s.sb.iTail = nNew →
    nextOf s' nNew = NULL_REF →
    s'.sb.iTail = nNew →
    chainFrom s' c (m ++ [nNew]) = true := by
  intro m
  induction m with
  | nil =>
    intro c hch hnd hpres hT hNn hT'
    simp only [chainFrom, Bool.and_eq_true, decide_eq_true_eq] at hch
    simp only [List.nil_append, chainFrom, Bool.and_eq_true, decide_eq_true_eq]
    refine ⟨?_, hT', hNn⟩
    rw [← hch.1]
    exact hT
  | cons x xs ih =>
    intro c hch hnd hpres hT hNn hT'
    simp only [chainFrom, Bool.and_eq_true, decide_eq_true_eq] at hch
    simp only [List.cons_append, chainFrom, Bool.and_eq_true, decide_eq_true_eq]
    have hcne : c ≠ s.sb.iTail := by
      intro hEq
      have hmemT := chainFrom_tail_mem xs x hch.2
      rw [← hEq] at hmemT
      exact (List.nodup_cons.mp hnd).1 hmemT
    constructor
    · rw [hpres c (Or.inl rfl) hcne]
      exact hch.1
    · exact ih x hch.2 (List.nodup_cons.mp hnd).2
        (fun z hz hzt => hpres z (Or.inr (List.mem_cons.mpr hz)) hzt) hT hNn hT'

theorem soQCheckInodeIU_of_free {i : SOInode} (hfree : i.mode &&& INODE_FREE ≠ 0) :
    soQCheckInodeIU i = -EIUININVAL := by
  unfold soQCheckInodeIU
  rw [if_neg]
  intro hand
  exact hfree hand.1

theorem soFreeInode_freeList {s : FSState} {l : List Nat} {nInode : Nat} {s' : FSState}
    (hInv : FreeListInv s l) (hN : FreeListNodes s l)
    (hn : nInode < s.itable.length) (hU : l.length + 1 < U32)
    (h : soFreeInode s nInode = (0, s')) :
    FreeListInv s' (l ++ [nInode]) := by
  obtain ⟨hrep, hcnt⟩ := hInv
  obtain ⟨hnd, hmem⟩ := hN
  unfold soFreeInode at h
  rcases em (nInode ≥ s.sb.iTotal ∨ nInode = 0) with h1 | h1
  · rw [if_pos h1] at h
    exact absurd (show (-EINVAL : Int) = 0 from congrArg (fun p => p.1) h) (by decide)
  rw [if_neg h1] at h
  simp only [] at h
  rcases em (soQCheckInodeIU (getInode s nInode) ≠ 0) with h2 | h2
  · rw [if_pos h2] at h
    exact absurd (show soQCheckInodeIU (getInode s nInode) = 0 from
      congrArg (fun p => p.1) h) h2
  rw [if_neg h2] at h
  have hfree0 : (getInode s nInode).mode &&& INODE_FREE = 0 := by
    by_contra h3
    rw [soQCheckInodeIU_of_free h3] at h2
    exact h2 (by decide)
  have hnotin : nInode ∉ l := fun hin => (hmem nInode hin).2.2.2 hfree0
  cases l with
  | nil =>
    have hif : s.sb.iFree = 0 := hcnt
    rw [if_pos hif] at h
    simp only [setInode_sb] at h
    generalize hs1 : setInode s nInode
      { getInode s nInode with mode := INODE_FREE, vD1 := NULL_REF, vD2 := NULL_REF } = s1 at h
    have hs' := congrArg Prod.snd h
    simp only [] at hs'
    subst hs'
    have hg1 : getInode s1 nInode =
        { getInode s nInode with mode := INODE_FREE, vD1 := NULL_REF, vD2 := NULL_REF } := by
      rw [← hs1]
      exact getInode_setInode_self _ _ _ hn
    refine ⟨?_, ?_⟩
    · simp only [List.nil_append, freeListRep, chainFrom, Bool.and_eq_true, decide_eq_true_eq]
      refine ⟨⟨trivial, ?_⟩, trivial, ?_⟩
      · show (getInode { s1 with sb := _ } nInode).vD2 = NULL_REF
        rw [getInode_sb, hg1]
      · show (getInode { s1 with sb := _ } nInode).vD1 = NULL_REF
        rw [getInode_sb, hg1]
    · show u32add1 s.sb.iFree = _
      rw [hif]
      rfl
  | cons hd tl =>
    have hifne : s.sb.iFree ≠ 0 := by
      rw [hcnt]
      simp
    rw [if_neg hifne] at h
    simp only [setInode_sb] at h
    simp only [freeListRep, Bool.and_eq_true, decide_eq_true_eq] at hrep
    obtain ⟨⟨hhead, hprev⟩, hch⟩ := hrep
    have hTailMem : s.sb.iTail ∈ hd :: tl := chainFrom_tail_mem tl hd hch
    obtain ⟨hotLT, hotNE, hotlen, hotfree⟩ := hmem _ hTailMem
    have hfval : u32add1 s.sb.iFree = (hd :: tl).length + 1 := by
      rw [hcnt]
      exact Nat.mod_eq_of_lt hU
    rw [hfval] at h
    rw [if_pos (by omega : (hd :: tl).length + 1 > 1)] at h
    rw [if_neg (not_le.mpr hotLT)] at h
    generalize hs1 : setInode s nInode
      { getInode s nInode with mode := INODE_FREE, vD1 := NULL_REF, vD2 := s.sb.iTail } = s1 at h
    generalize hs2 : ({ s1 with sb :=
      { s.sb with iTail := nInode, iFree := (hd :: tl).length + 1 } } : FSState) = s2 at h
    have hs' := congrArg Prod.snd h
    simp only [] at hs'
    subst hs'
    have hS2head : s2.sb.iHead = s.sb.iHead := by rw [← hs2]
    have hS2tail : s2.sb.iTail = nInode := by rw [← hs2]
    have hS2free : s2.sb.iFree = (hd :: tl).length + 1 := by rw [← hs2]
    have hS2len : s2.itable.length = s.itable.length := by
      rw [← hs2, ← hs1]
      exact setInode_itlen _ _ _
    have hS2get : ∀ z, z ≠ nInode → getInode s2 z = getInode s z := by
      intro z hz
      rw [← hs2, getInode_sb, ← hs1]
      exact getInode_setInode_ne _ _ _ _ (fun e => hz e.symm)
    have hS2getN : getInode s2 nInode =
        { getInode s nInode with mode := INODE_FREE, vD1 := NULL_REF, vD2 := s.sb.iTail } := by
      rw [← hs2, getInode_sb, ← hs1]
      exact getInode_setInode_self _ _ _ hn
    have hTne : s.sb.iTail ≠ nInode := fun e => hnotin (e ▸ hTailMem)
    have hTlen : s.sb.iTail < s2.itable.length := by
      rw [hS2len]
      exact hotlen
    refine ⟨?_, ?_⟩
    · simp only [List.cons_append, freeListRep, Bool.and_eq_true, decide_eq_true_eq]
      refine ⟨⟨?_, ?_⟩, ?_⟩
      · rw [setInode_sb, hS2head]
        exact hhead
      · have hdne : hd ≠ nInode := fun e => hnotin (e ▸ List.mem_cons_self hd tl)
        show (getInode _ hd).vD2 = NULL_REF
        rcases em (s.sb.iTail = hd) with hoEq | hoNe
        · rw [hoEq, getInode_setInode_self _ _ _ (hoEq ▸ hTlen)]
          show (getInode s2 hd).vD2 = NULL_REF
          rw [hS2get hd hdne]
          exact hprev
        · rw [getInode_setInode_ne _ _ _ _ hoNe, hS2get hd hdne]
          exact hprev
      · refine chainFrom_snoc tl hd hch hnd ?_ ?_ ?_ ?_
        · intro z hz hzt
          have hzl : z ∈ hd :: tl := List.mem_cons.mpr hz
          have hzn : z ≠ nInode := fun e => hnotin (e ▸ hzl)
          show (getInode _ z).vD1 = (getInode s z).vD1
          rw [getInode_setInode_ne _ _ _ _ (Ne.symm hzt), hS2get z hzn]
        · show (getInode _ s.sb.iTail).vD1 = nInode
          rw [getInode_setInode_self _ _ _ hTlen]
        · show (getInode _ nInode).vD1 = NULL_REF
          rw [getInode_setInode_ne _ _ _ _ hTne, hS2getN]
        · rw [setInode_sb, hS2tail]
    · show (setInode s2 _ _).sb.iFree = _
      rw [setInode_sb, hS2free, List.length_append]
      rfl

theorem soCleanInode_noop {now : Nat} {s : FSState} {n : Nat}
    (hfree : (getInode s n).mode &&& INODE_FREE ≠ 0)
    (hlt : n < s.sb.iTotal) (hn0 : n ≠ 0) :
    soCleanInode now s n = (0, s) := by
  unfold soCleanInode
  rw [if_neg (by push_neg; exact ⟨hlt, hn0⟩)]
  simp only []
  have hchk : soQCheckFDInode (getInode s n) = 0 := by
    unfold soQCheckFDInode
    rw [if_pos hfree]
  rw [hchk, if_neg (by decide : ¬((0 : Int) ≠ 0))]
  unfold soReadInode
  rw [if_neg (by decide : ¬(IUIN ≠ IUIN ∧ IUIN ≠ FDIN)), if_neg (Nat.not_le.mpr hlt)]
  simp only []
  rw [if_true, soQCheckInodeIU_of_free hfree,
    if_pos (by decide : (-EIUININVAL : Int) ≠ 0)]

theorem soAllocInode_freeList {now uid gid type : Nat} {s : FSState} {l : List Nat}
    {s' : FSState} {n : Nat}
    (hInv : FreeListInv s l) (hN : FreeListNodes s l)
    (hTot : s.sb.iTotal ≤ NULL_REF)
    (h : soAllocInode now uid gid s type = (0, s', n)) :
    FreeListInv s' l.tail := by
  obtain ⟨hrep, hcnt⟩ := hInv
  obtain ⟨hnd, hmem⟩ := hN
  unfold soAllocInode at h
  rcases em (type &&& INODE_TYPE_MASK = 0) with h1 | h1
  · rw [if_pos h1] at h
    exact absurd (show (-EINVAL : Int) = 0 from congrArg (fun p => p.1) h) (by decide)
  rw [if_neg h1] at h
  rcases em (s.sb.iFree = 0) with h2 | h2
  · rw [if_pos h2] at h
    exact absurd (show (-ENOSPC : Int) = 0 from congrArg (fun p => p.1) h) (by decide)
  rw [if_neg h2] at h
  rcases em (s.sb.iHead ≥ s.sb.iTotal) with h3 | h3
  · rw [if_pos h3] at h
    exact absurd (show (-EINVAL : Int) = 0 from congrArg (fun p => p.1) h) (by decide)
  rw [if_neg h3] at h
  simp only [] at h
  cases l with
  | nil => exact absurd hcnt h2
  | cons hd tl =>
  simp only [freeListRep, Bool.and_eq_true, decide_eq_true_eq] at hrep
  obtain ⟨⟨hhead, hprev⟩, hch⟩ := hrep
  rw [hhead] at h
  have hfhd : (getInode s hd).mode &&& INODE_FREE ≠ 0 :=
    (hmem hd (List.mem_cons_self hd tl)).2.2.2
  have hchk : soQCheckFInode (getInode s hd) = 0 := by
    unfold soQCheckFInode
    rw [if_pos hfhd]
  rw [hchk, if_neg (by decide : ¬((0 : Int) ≠ 0))] at h
  have hhdlt : hd < s.sb.iTotal := (hmem hd (List.mem_cons_self hd tl)).1
  have hhd0 : hd ≠ 0 := (hmem hd (List.mem_cons_self hd tl)).2.1
  have hdirty : (if soQCheckFCInode (getInode s hd) ≠ 0 then
      if soQCheckFDInode (getInode s hd) ≠ 0 then (soQCheckFDInode (getInode s hd), s)
      else soCleanInode now s hd
    else ((0 : Int), s)) = ((0 : Int), s) := by
    rcases em (soQCheckFCInode (getInode s hd) ≠ 0) with hfc | hfc
    · rw [if_pos hfc]
      have hfd : soQCheckFDInode (getInode s hd) = 0 := by
        unfold soQCheckFDInode
        rw [if_pos hfhd]
      rw [hfd, if_neg (by decide : ¬((0 : Int) ≠ 0))]
      exact soCleanInode_noop hfhd hhdlt hhd0
    · rw [if_neg hfc]
  rw [hdirty] at h
  simp only [] at h
  rw [if_neg (by decide : ¬((0 : Int) ≠ 0))] at h
  unfold allocInodeFinish at h
  simp only [setInode_sb] at h
  cases tl with
  | nil =>
    simp only [chainFrom, Bool.and_eq_true, decide_eq_true_eq] at hch
    obtain ⟨hTl, hnx⟩ := hch
    unfold nextOf at hnx
    rw [hnx] at h
    have hsub : s.sb.iFree - 1 = 0 := by
      rw [hcnt]
      rfl
    rw [hsub, if_pos rfl] at h
    simp only [] at h
    rw [if_neg (by decide : ¬(NULL_REF ≠ NULL_REF))] at h
    have hs' := congrArg (fun p => p.2.1) h
    simp only [] at hs'
    subst hs'
    refine ⟨?_, rfl⟩
    simp only [List.tail_cons, freeListRep, Bool.and_eq_true, decide_eq_true_eq]
    exact ⟨trivial, trivial⟩
  | cons y tl' =>
    simp only [chainFrom, Bool.and_eq_true, decide_eq_true_eq] at hch
    obtain ⟨hnxy, hch'⟩ := hch
    unfold nextOf at hnxy
    rw [hnxy] at h
    have hy := hmem y (List.mem_cons_of_mem hd (List.mem_cons_self y tl'))
    have hyNull : y ≠ NULL_REF := Nat.ne_of_lt (Nat.lt_of_lt_of_le hy.1 hTot)
    have hne0 : ¬(s.sb.iFree - 1 = 0) := by
      rw [hcnt]
      simp
    rw [if_neg hne0, if_pos hyNull, if_neg (Nat.not_le.mpr hy.1)] at h
    generalize hs1 : setInode s hd
      { mode := type, refCount := 0, owner := uid, group := gid, size := 0,
        cluCount := 0, vD1 := now, vD2 := now,
        d := List.replicate N_DIRECT NULL_REF, i1 := NULL_REF, i2 := NULL_REF } = s1 at h
    generalize hs2 : ({ s1 with sb :=
      { s.sb with iFree := s.sb.iFree - 1, iHead := y } } : FSState) = s2 at h
    have hs' := congrArg (fun p => p.2.1) h
    simp only [] at hs'
    subst hs'
    have hS2head : s2.sb.iHead = y := by rw [← hs2]
    have hS2tail : s2.sb.iTail = s.sb.iTail := by rw [← hs2]
    have hS2free : s2.sb.iFree = s.sb.iFree - 1 := by rw [← hs2]
    have hS2len : s2.itable.length = s.itable.length := by
      rw [← hs2, ← hs1]
      exact setInode_itlen _ _ _
    have hS2get : ∀ z, z ≠ hd → getInode s2 z = getInode s z := by
      intro z hz
      rw [← hs2, getInode_sb, ← hs1]
      exact getInode_setInode_ne _ _ _ _ (fun e => hz e.symm)
    have hyhd : y ≠ hd := fun e => (List.nodup_cons.mp hnd).1 (by
      rw [← e]
      exact List.mem_cons_self y tl')
    have hylen2 : y < s2.itable.length := by
      rw [hS2len]
      exact hy.2.2.1
    refine ⟨?_, ?_⟩
    · simp only [List.tail_cons, freeListRep, Bool.and_eq_true, decide_eq_true_eq]
      refine ⟨⟨?_, ?_⟩, ?_⟩
      · rw [setInode_sb, hS2head]
      · show (getInode _ y).vD2 = NULL_REF
        rw [getInode_setInode_self _ _ _ hylen2]
      · refine chainFrom_congr ?_ tl' y ?_ hch'
        · rw [setInode_sb, hS2tail]
        · intro z hz
          show (getInode _ z).vD1 = (getInode s z).vD1
          rcases hz with hzy | hzm
          · rw [hzy, getInode_setInode_self _ _ _ hylen2]
            show (getInode s2 y).vD1 = (getInode s y).vD1
            exact congrArg SOInode.vD1 (hS2get y hyhd)
          · have hzy : z ≠ y := fun e => (List.nodup_cons.mp (List.nodup_cons.mp hnd).2).1 (by
              rw [← e]
              exact hzm)
            have hzhd : z ≠ hd := fun e => (List.nodup_cons.mp hnd).1 (by
              rw [← e]
              exact List.mem_cons_of_mem y hzm)
            rw [getInode_setInode_ne _ _ _ _ (Ne.symm hzy)]
            exact congrArg SOInode.vD1 (hS2get z hzhd)
    · show (setInode s2 _ _).sb.iFree = _
      rw [setInode_sb, hS2free, hcnt]
      simp

/-- C7: provided the free-inode-list invariant (iFree counts the walk from
iHead to iTail, tail next and head prev NULL_REF) and the node
well-formedness conditions hold before the call, every successful
soAllocInode leaves the invariant holding for the list without its head,
and every successful soFreeInode of a resident inode leaves it holding for
the list with that inode appended at the tail. -/
theorem claim_C7 {s : FSState} {l : List Nat}
    (hInv : FreeListInv s l) (hN : FreeListNodes s l) (hTot : s.sb.iTotal ≤ NULL_REF)
    (hU : l.length + 1 < U32) :
    (∀ now uid gid type s' n, soAllocInode now uid gid s type = (0, s', n) →
      FreeListInv s' l.tail) ∧
    (∀ nInode s', nInode < s.itable.length → soFreeInode s nInode = (0, s') →
      FreeListInv s' (l ++ [nInode])) :=
  ⟨fun _ _ _ _ _ _ h => soAllocInode_freeList hInv hN hTot h,
   fun _ _ hn h => soFreeInode_freeList hInv hN hn hU h⟩

/-- C7 witness: the theorem applied to the two-node free list of stInodes,
once for an allocation popping inode 1 and once for the free of the in-use
file inode 3 -/
theorem claim_C7_witness :
    FreeListInv (soAllocInode 7 0 0 stInodes INODE_FILE).2.1 [2] ∧
    FreeListInv (soFreeInode stInodes 3).2 [1, 2, 3] := by
  have h := @claim_C7 stInodes [1, 2] ⟨by decide, by decide⟩ ⟨by decide, by decide⟩
    (by decide) (by decide)
  exact ⟨h.1 7 0 0 INODE_FILE (soAllocInode 7 0 0 stInodes INODE_FILE).2.1
      (soAllocInode 7 0 0 stInodes INODE_FILE).2.2 (by decide),
    h.2 3 (soFreeInode stInodes 3).2 (by decide) (by decide)⟩

/-! ### Claims C10 and C2 -/

theorem mode_free_ne_of_qcheckFInode_eq {i : SOInode} (h : soQCheckFInode i = 0) :
    i.mode &&& INODE_FREE ≠ 0 := by
  intro h0
  unfold soQCheckFInode at h
  rw [if_neg (not_not.mpr h0)] at h
  exact absurd h (by decide)

theorem allocInodeFinish_mode {now uid gid : Nat} {s0 : FSState} {nInode type : Nat}
    {s' : FSState} {n : Nat}
    (hlen : nInode < s0.itable.length)
    (h : allocInodeFinish now uid gid s0 nInode type = (0, s', n)) :
    n = nInode ∧ (getInode s' n).mode = type := by
  unfold allocInodeFinish at h
  simp only [setInode_sb] at h
  simp only [apply_ite SOSuperBlock.iTotal, ite_self] at h
  generalize hnh : (getInode s0 nInode).vD1 = nh at h
  rcases em (nh ≠ NULL_REF) with hpos | hneg
  · rw [if_pos hpos] at h
    rcases em (nh ≥ s0.sb.iTotal) with hge | hge
    · rw [if_pos hge] at h
      exact absurd (show (-EINVAL : Int) = 0 from congrArg (fun p => p.1) h) (by decide)
    · rw [if_neg hge] at h
      have hn := congrArg (fun p => p.2.2) h
      simp only [] at hn
      have hs' := congrArg (fun p => p.2.1) h
      simp only [] at hs'
      subst hs'
      refine ⟨hn.symm, ?_⟩
      rw [← hn]
      rcases em (nh = nInode) with hEq | hNe
      · rw [hEq, getInode_setInode_self]
        · show (getInode _ nInode).mode = type
          rw [getInode_sb, getInode_setInode_self _ _ _ hlen]
        · show nInode < (setInode s0 nInode _).itable.length
          rw [setInode_itlen]
          exact hlen
      · rw [getInode_setInode_ne _ _ _ _ hNe, getInode_sb,
          getInode_setInode_self _ _ _ hlen]
  · rw [if_neg hneg] at h
    have hn := congrArg (fun p => p.2.2) h
    simp only [] at hn
    have hs' := congrArg (fun p => p.2.1) h
    simp only [] at hs'
    subst hs'
    refine ⟨hn.symm, ?_⟩
    rw [← hn]
    rw [getInode_sb, getInode_setInode_self _ _ _ hlen]

/-- C10: after every successful soAllocInode with a legal type argument
(INODE_DIR, INODE_FILE or INODE_SYMLINK), the returned inode is the old
list head and its mode field equals type exactly, so the FREE flag and all
nine permission bits of the fresh inode are clear. -/
theorem claim_C10 {now uid gid type : Nat} {s s' : FSState} {n : Nat}
    (hty : type = INODE_DIR ∨ type = INODE_FILE ∨ type = INODE_SYMLINK)
    (hlen : s.sb.iHead < s.itable.length)
    (h : soAllocInode now uid gid s type = (0, s', n)) :
    n = s.sb.iHead ∧ (getInode s' n).mode = type ∧
    (getInode s' n).mode &&& INODE_FREE = 0 ∧ (getInode s' n).mode &&& 511 = 0 := by
  have hmain : n = s.sb.iHead ∧ (getInode s' n).mode = type := by
    unfold soAllocInode at h
    rcases em (type &&& INODE_TYPE_MASK = 0) with h1 | h1
    · rw [if_pos h1] at h
      exact absurd (show (-EINVAL : Int) = 0 from congrArg (fun p => p.1) h) (by decide)
    rw [if_neg h1] at h
    rcases em (s.sb.iFree = 0) with h2 | h2
    · rw [if_pos h2] at h
      exact absurd (show (-ENOSPC : Int) = 0 from congrArg (fun p => p.1) h) (by decide)
    rw [if_neg h2] at h
    rcases em (s.sb.iHead ≥ s.sb.iTotal) with h3 | h3
    · rw [if_pos h3] at h
      exact absurd (show (-EINVAL : Int) = 0 from congrArg (fun p => p.1) h) (by decide)
    rw [if_neg h3] at h
    simp only [] at h
    rcases em (soQCheckFInode (getInode s s.sb.iHead) ≠ 0) with hc | hc
    · rw [if_pos hc] at h
      exact absurd (show soQCheckFInode (getInode s s.sb.iHead) = 0 from
        congrArg (fun p => p.1) h) hc
    rw [if_neg hc] at h
    have hfree : (getInode s s.sb.iHead).mode &&& INODE_FREE ≠ 0 :=
      mode_free_ne_of_qcheckFInode_eq (not_not.mp hc)
    rcases em (soQCheckFCInode (getInode s s.sb.iHead) ≠ 0) with hfc | hfc
    · rw [if_pos hfc] at h
      have hfd : soQCheckFDInode (getInode s s.sb.iHead) = 0 := by
        unfold soQCheckFDInode
        rw [if_pos hfree]
      rw [hfd, if_neg (by decide : ¬((0 : Int) ≠ 0))] at h
      rcases em (s.sb.iHead = 0) with hz | hz
      · have hclean : soCleanInode now s s.sb.iHead = (-EINVAL, s) := by
          unfold soCleanInode
          rw [if_pos (Or.inr hz)]
        rw [hclean] at h
        simp only [] at h
        rw [if_pos (by decide : (-EINVAL : Int) ≠ 0)] at h
        exact absurd (show (-EINVAL : Int) = 0 from congrArg (fun p => p.1) h) (by decide)
      · rw [soCleanInode_noop hfree (Nat.lt_of_not_le h3) hz] at h
        simp only [] at h
        rw [if_neg (by decide : ¬((0 : Int) ≠ 0))] at h
        exact allocInodeFinish_mode hlen h
    · rw [if_neg hfc] at h
      simp only [] at h
      rw [if_neg (by decide : ¬((0 : Int) ≠ 0))] at h
      exact allocInodeFinish_mode hlen h
  refine ⟨hmain.1, hmain.2, ?_, ?_⟩ <;>
    rcases hty with rfl | rfl | rfl <;> rw [hmain.2] <;> decide

/-- C10 witness: the theorem applied to stInodes and type INODE_FILE -/
theorem claim_C10_witness :
    (soAllocInode 7 0 0 stInodes INODE_FILE).2.2 = stInodes.sb.iHead ∧
    (getInode (soAllocInode 7 0 0 stInodes INODE_FILE).2.1
      (soAllocInode 7 0 0 stInodes INODE_FILE).2.2).mode = INODE_FILE ∧
    (getInode (soAllocInode 7 0 0 stInodes INODE_FILE).2.1
      (soAllocInode 7 0 0 stInodes INODE_FILE).2.2).mode &&& INODE_FREE = 0 ∧
    (getInode (soAllocInode 7 0 0 stInodes INODE_FILE).2.1
      (soAllocInode 7 0 0 stInodes INODE_FILE).2.2).mode &&& 511 = 0 :=
  @claim_C10 7 0 0 INODE_FILE stInodes
    (soAllocInode 7 0 0 stInodes INODE_FILE).2.1
    (soAllocInode 7 0 0 stInodes INODE_FILE).2.2
    (Or.inr (Or.inl rfl)) (by decide) (by decide)

/-- C2 exhibit: on stDirty, inode 1 is free in the dirty state and still
holds a direct reference to cluster 1 whose stat names it, yet
soCleanInode succeeds and returns the state completely unchanged — no
data cluster is dissociated and no reference is cleared, because the
source discards the result of its soReadInode call (which fails for a
free inode) and stores the untouched block back. -/
theorem claim_C2 :
    (getInode stDirty 1).mode &&& INODE_FREE ≠ 0 ∧
    (getInode stDirty 1).d.getD 0 NULL_REF = 1 ∧
    (getClust stDirty 1).stat = 1 ∧
    soCleanInode 100 stDirty 1 = (0, stDirty) := by
  decide

/-! ### Claims C1, C5 and C8 -/

/-- C1 exhibit: for the absolute path "/a" and a successful traversal that
resolved the final entry to inode 5 inside directory 0, the wrapper
returns success but both outputs read 0 — the final-entry inode number
the traversal stored has been overwritten by the assignments at
soGetDirEntryByPath.c lines 111-119. -/
theorem claim_C1 :
    soGetDirEntryByPath (0, some 0, some 5) [47, 97] = (0, some 0, some 0) ∧
    (5 : Nat) ≠ 0 := by
  decide

/-- C5 exhibit: on stDir the directory holds the in-use entry "b" at slot
3, but slot 2 before it is free in the clean state; the lookup stops at
the clean slot and reports -ENOENT with index 2, never reaching the
matching entry. -/
theorem claim_C5 :
    (soGetDirEntryByName 100 0 0 stDir 1 nameB).1 = -ENOENT ∧
    (soGetDirEntryByName 100 0 0 stDir 1 nameB).2.2.1 = none ∧
    (soGetDirEntryByName 100 0 0 stDir 1 nameB).2.2.2 = some 2 ∧
    cstr ((getClust stDir 1).de.getD 3 defDirEntry).name = cstr nameB ∧
    ((getClust stDir 1).de.getD 3 defDirEntry).nInode = 2 := by
  decide

/-- C8 exhibit: soFreeDataCluster returns 0 even when the final superblock
store fails with -EIO (the == typo at soFreeDataCluster.c line 111), and
soGetDirEntryByPath returns the positive value ENAMETOOLONG = 36 for an
overlong path (line 101 lacks the minus sign). -/
theorem claim_C8 :
    (soFreeDataCluster (- EIO) stDirty 1).1 = 0 ∧
    soGetDirEntryByPath (0, some 0, some 5) (47 :: List.replicate 260 97) =
      (ENAMETOOLONG, none, none) ∧
    (0 : Int) < ENAMETOOLONG := by
  decide

/-! ### Claim C9 -/

theorem soReadInode_IUIN_ok {now : Nat} {s : FSState} {n : Nat}
    (h : (soReadInode now s n IUIN).1 = 0) :
    soReadInode now s n IUIN =
      (0, setInode s n { getInode s n with vD1 := now },
       { getInode s n with vD1 := now }) := by
  unfold soReadInode at h ⊢
  rw [if_neg (by decide : ¬(IUIN ≠ IUIN ∧ IUIN ≠ FDIN))] at h ⊢
  rcases em (n ≥ s.sb.iTotal) with hge | hge
  · rw [if_pos hge] at h
    exact absurd (show (-EINVAL : Int) = 0 from h) (by decide)
  rw [if_neg hge] at h ⊢
  simp only [] at h ⊢
  rw [if_true] at h ⊢
  rcases em (soQCheckInodeIU (getInode s n) ≠ 0) with hq | hq
  · rw [if_pos hq] at h
    exact absurd h hq
  · rw [if_neg hq]

theorem soHandleDirect_GET_st (s : FSState) (n : Nat) (i : SOInode) (k : Nat) :
    soHandleDirect s n i k FileClusterOp.GET =
      ⟨0, s, i, some (i.d.getD k NULL_REF)⟩ := rfl

theorem soHandleSIndirect_GET_st (s : FSState) (n : Nat) (i : SOInode) (k : Nat) :
    (soHandleSIndirect s n i k FileClusterOp.GET).st = s := by
  unfold soHandleSIndirect
  simp only []
  rcases em (i.i1 = NULL_REF) with h1 | h1
  · rw [if_pos h1]
  · rw [if_neg h1]
    rcases em (i.i1 ≥ s.sb.dZoneTotal) with h2 | h2
    · rw [if_pos h2]
    · rw [if_neg h2]

theorem soHandleDIndirect_GET_st (s : FSState) (n : Nat) (i : SOInode) (k : Nat) :
    (soHandleDIndirect s n i k FileClusterOp.GET).st = s := by
  unfold soHandleDIndirect
  simp only []
  rcases em (i.i2 = NULL_REF) with h1 | h1
  · rw [if_pos h1]
  · rw [if_neg h1]
    rcases em (i.i2 ≥ s.sb.dZoneTotal) with h2 | h2
    · rw [if_pos h2]
    · rw [if_neg h2]
      rcases em ((getClust s i.i2).ref.getD ((k - N_DIRECT - RPC) / RPC) NULL_REF
          = NULL_REF) with h3 | h3
      · rw [if_pos h3]
      · rw [if_neg h3]
        rcases em ((getClust s i.i2).ref.getD ((k - N_DIRECT - RPC) / RPC) NULL_REF
            ≥ s.sb.dZoneTotal) with h4 | h4
        · rw [if_pos h4]
        · rw [if_neg h4]

theorem setInode_dzone (s : FSState) (n : Nat) (i : SOInode) :
    (setInode s n i).dzone = s.dzone := rfl

/-- C9 (amended): a successful soHandleFileCluster GET writes nothing to
the superblock or the data zone and leaves every inode record untouched
except the queried inode itself, whose access-time field (vD1) is
refreshed to the current time and stored back by the soReadInode call the
operation begins with — the state after the call is exactly
setInode s nInode (getInode s nInode with the refreshed access time). -/
theorem claim_C9 {now : Nat} {s : FSState} {nInode clustInd : Nat} {s' : FSState}
    {out : Option Nat}
    (h : soHandleFileCluster now s nInode clustInd FileClusterOp.GET = (0, s', out)) :
    s' = setInode s nInode { getInode s nInode with vD1 := now } ∧
    s'.sb = s.sb ∧ s'.dzone = s.dzone := by
  have hmain : s' = setInode s nInode { getInode s nInode with vD1 := now } := by
    unfold soHandleFileCluster at h
    rcases em (nInode ≥ s.sb.iTotal) with h1 | h1
    · rw [if_pos h1] at h
      exact absurd (show (-EINVAL : Int) = 0 from congrArg (fun p => p.1) h) (by decide)
    rw [if_neg h1] at h
    rcases em (clustInd ≥ MAX_FILE_CLUSTERS) with h2 | h2
    · rw [if_pos h2] at h
      exact absurd (show (-EINVAL : Int) = 0 from congrArg (fun p => p.1) h) (by decide)
    rw [if_neg h2] at h
    rw [if_neg (by decide : ¬(FileClusterOp.GET = FileClusterOp.CLEAN))] at h
    simp only [] at h
    rcases em ((soReadInode now s nInode IUIN).1 ≠ 0) with hr | hr
    · rw [if_pos hr] at h
      exact absurd (show (soReadInode now s nInode IUIN).1 = 0 from
        congrArg (fun p => p.1) h) hr
    rw [if_neg hr] at h
    rw [soReadInode_IUIN_ok (not_not.mp hr)] at h
    simp only [] at h
    generalize hs1 : setInode s nInode { getInode s nInode with vD1 := now } = s1 at h ⊢
    generalize hi1 : ({ getInode s nInode with vD1 := now } : SOInode) = i1 at h
    have hdisp : (if clustInd < N_DIRECT then
          soHandleDirect s1 nInode i1 clustInd FileClusterOp.GET
        else if clustInd < N_DIRECT + RPC then
          soHandleSIndirect s1 nInode i1 clustInd FileClusterOp.GET
        else soHandleDIndirect s1 nInode i1 clustInd FileClusterOp.GET).st = s1 := by
      rcases em (clustInd < N_DIRECT) with hk | hk
      · rw [if_pos hk, soHandleDirect_GET_st]
      · rw [if_neg hk]
        rcases em (clustInd < N_DIRECT + RPC) with hk2 | hk2
        · rw [if_pos hk2]
          exact soHandleSIndirect_GET_st _ _ _ _
        · rw [if_neg hk2]
          exact soHandleDIndirect_GET_st _ _ _ _
    generalize hH : (if clustInd < N_DIRECT then
        soHandleDirect s1 nInode i1 clustInd FileClusterOp.GET
      else if clustInd < N_DIRECT + RPC then
        soHandleSIndirect s1 nInode i1 clustInd FileClusterOp.GET
      else soHandleDIndirect s1 nInode i1 clustInd FileClusterOp.GET) = H at h hdisp
    rcases em (H.ret ≠ 0) with hret | hret
    · rw [if_pos hret] at h
      exact absurd (show H.ret = 0 from congrArg (fun p => p.1) h) hret
    rw [if_neg hret] at h
    rw [if_neg (by decide : ¬(FileClusterOp.GET = FileClusterOp.CLEAN)),
      if_neg (by decide : ¬(FileClusterOp.GET ≠ FileClusterOp.GET))] at h
    have hs' := congrArg (fun p => p.2.1) h
    simp only [] at hs'
    rw [hdisp] at hs'
    exact hs'.symm
  refine ⟨hmain, ?_, ?_⟩
  · rw [hmain, setInode_sb]
  · rw [hmain, setInode_dzone]

/-- C9 counterexample to the claim as stated: on stDir a successful GET of
cluster index 0 of the root inode returns a state different from the input
state — the root inode's access-time field has been rewritten from 5 to
the current time 100 and stored, so persistent state did change. -/
theorem claim_C9_counterexample :
    (soHandleFileCluster 100 stDir 0 0 FileClusterOp.GET).1 = 0 ∧
    (soHandleFileCluster 100 stDir 0 0 FileClusterOp.GET).2.2 = some 0 ∧
    (soHandleFileCluster 100 stDir 0 0 FileClusterOp.GET).2.1 ≠ stDir ∧
    (getInode stDir 0).vD1 = 5 ∧
    (getInode (soHandleFileCluster 100 stDir 0 0 FileClusterOp.GET).2.1 0).vD1 = 100 := by
  decide

/-- C9 witness: the amended theorem applied to the GET of cluster index 0
of the root inode of stDir -/
theorem claim_C9_witness :
    (soHandleFileCluster 100 stDir 0 0 FileClusterOp.GET).2.1 =
      setInode stDir 0 { getInode stDir 0 with vD1 := 100 } ∧
    (soHandleFileCluster 100 stDir 0 0 FileClusterOp.GET).2.1.sb = stDir.sb ∧
    (soHandleFileCluster 100 stDir 0 0 FileClusterOp.GET).2.1.dzone = stDir.dzone :=
  @claim_C9 100 stDir 0 0 (soHandleFileCluster 100 stDir 0 0 FileClusterOp.GET).2.1
    (soHandleFileCluster 100 stDir 0 0 FileClusterOp.GET).2.2 (by decide)

/-! ### Claim C3 -/

theorem soReadInode_IUIN_facts {now : Nat} {s : FSState} {n : Nat}
    (h : (soReadInode now s n IUIN).1 = 0) :
    n < s.sb.iTotal ∧ soQCheckInodeIU (getInode s n) = 0 := by
  unfold soReadInode at h
  rw [if_neg (by decide : ¬(IUIN ≠ IUIN ∧ IUIN ≠ FDIN))] at h
  rcases em (n ≥ s.sb.iTotal) with hge | hge
  · rw [if_pos hge] at h
    exact absurd (show (-EINVAL : Int) = 0 from h) (by decide)
  rw [if_neg hge] at h
  simp only [] at h
  rw [if_true] at h
  rcases em (soQCheckInodeIU (getInode s n) ≠ 0) with hq | hq
  · rw [if_pos hq] at h
    exact absurd h hq
  · exact ⟨Nat.lt_of_not_le hge, not_not.mp hq⟩

theorem qcheckIU_vD1 (i : SOInode) (v : Nat) :
    soQCheckInodeIU { i with vD1 := v } = soQCheckInodeIU i := rfl

theorem soWriteInode_IUIN_ok {now : Nat} {st : FSState} {buf : SOInode} {n : Nat}
    (hlt : n < st.sb.iTotal) (hq : soQCheckInodeIU buf = 0) :
    soWriteInode now st buf n IUIN =
      (0, setInode st n { buf with vD1 := now, vD2 := now }) := by
  unfold soWriteInode
  have hg : ¬(n > st.sb.iTotal ∨ (IUIN ≠ IUIN ∧ IUIN ≠ FDIN)) := by
    rintro (hgt | ⟨hne, -⟩)
    · exact absurd hgt (Nat.lt_asymm hlt)
    · exact hne rfl
  rw [if_neg hg, if_neg (Nat.not_le.mpr hlt), if_pos (rfl : IUIN = IUIN), hq,
    if_neg (by decide : ¬((0 : Int) ≠ 0))]

theorem soHandleDirect_FREE_ok {s : FSState} {n : Nat} {i : SOInode} {k : Nat}
    {st : FSState} {ino : SOInode} {o : Option Nat}
    (h : soHandleDirect s n i k FileClusterOp.FREE = ⟨0, st, ino, o⟩) :
    ino = i ∧ soFreeDataCluster 0 s (i.d.getD k NULL_REF) = (0, st) := by
  unfold soHandleDirect at h
  simp only [] at h
  rcases em (i.d.getD k NULL_REF = NULL_REF) with h1 | h1
  · rw [if_pos h1] at h
    exact absurd (show (-EDCNOTIL : Int) = 0 from congrArg HRes.ret h) (by decide)
  rw [if_neg h1] at h
  rw [if_pos (by decide : FileClusterOp.FREE ≠ FileClusterOp.CLEAN)] at h
  rcases em ((soFreeDataCluster 0 s (i.d.getD k NULL_REF)).1 ≠ 0) with h2 | h2
  · rw [if_pos h2] at h
    exact absurd (show (soFreeDataCluster 0 s (i.d.getD k NULL_REF)).1 = 0 from
      congrArg HRes.ret h) h2
  rw [if_neg h2] at h
  rw [if_true] at h
  refine ⟨(congrArg HRes.ino h).symm, ?_⟩
  exact Prod.ext_iff.mpr ⟨not_not.mp h2, congrArg HRes.st h⟩

theorem soHandleSIndirect_FREE_ok {s : FSState} {n : Nat} {i : SOInode} {k : Nat}
    {st : FSState} {ino : SOInode} {o : Option Nat}
    (h : soHandleSIndirect s n i k FileClusterOp.FREE = ⟨0, st, ino, o⟩) :
    ino = i ∧ soFreeDataCluster 0 s
      ((getClust s i.i1).ref.getD (k - N_DIRECT) NULL_REF) = (0, st) := by
  unfold soHandleSIndirect at h
  simp only [] at h
  rcases em (i.i1 = NULL_REF) with h1 | h1
  · rw [if_pos h1] at h
    exact absurd (show (-EDCNOTIL : Int) = 0 from congrArg HRes.ret h) (by decide)
  rw [if_neg h1] at h
  rcases em (i.i1 ≥ s.sb.dZoneTotal) with h2 | h2
  · rw [if_pos h2] at h
    exact absurd (show (-EINVAL : Int) = 0 from congrArg HRes.ret h) (by decide)
  rw [if_neg h2] at h
  rcases em ((getClust s i.i1).ref.getD (k - N_DIRECT) NULL_REF = NULL_REF) with h3 | h3
  · rw [if_pos h3] at h
    exact absurd (show (-EDCNOTIL : Int) = 0 from congrArg HRes.ret h) (by decide)
  rw [if_neg h3] at h
  rcases em ((getClust s i.i1).stat ≠ n) with h4 | h4
  · rw [if_pos h4] at h
    exact absurd (show (-EWGINODENB : Int) = 0 from congrArg HRes.ret h) (by decide)
  rw [if_neg h4] at h
  rw [if_pos (by decide : FileClusterOp.FREE ≠ FileClusterOp.CLEAN)] at h
  rcases em ((soFreeDataCluster 0 s
      ((getClust s i.i1).ref.getD (k - N_DIRECT) NULL_REF)).1 ≠ 0) with h5 | h5
  · rw [if_pos h5] at h
    exact absurd (show (soFreeDataCluster 0 s
      ((getClust s i.i1).ref.getD (k - N_DIRECT) NULL_REF)).1 = 0 from
      congrArg HRes.ret h) h5
  rw [if_neg h5] at h
  rw [if_true] at h
  refine ⟨(congrArg HRes.ino h).symm, ?_⟩
  exact Prod.ext_iff.mpr ⟨not_not.mp h5, congrArg HRes.st h⟩

/-- C3 (amended): for an in-use inode and a cluster index in the direct or
single-indirect band whose slot references an allocated cluster, a
successful soHandleFileCluster FREE releases the data cluster through the
cluster allocator (dZoneFree grows by one) and leaves the inode's whole
reference band — the d array and i1 — and its cluCount untouched; the
cluCount decrement the spec describes does not happen for FREE.  The data
zone keeps its shape: every cluster's stat field and both body views (the
reference array and the directory entries) are unchanged — only free-list
headers move — so for a single-indirect index the reference held in the
i1 cluster's slot is also left in place. -/
theorem claim_C3 {now : Nat} {s : FSState} {nInode clustInd : Nat} {s' : FSState}
    {out : Option Nat}
    (hband : clustInd < N_DIRECT + RPC)
    (hn : nInode < s.itable.length)
    (h : soHandleFileCluster now s nInode clustInd FileClusterOp.FREE = (0, s', out)) :
    (getInode s' nInode).cluCount = (getInode s nInode).cluCount ∧
    (getInode s' nInode).d = (getInode s nInode).d ∧
    (getInode s' nInode).i1 = (getInode s nInode).i1 ∧
    s'.sb.dZoneFree = u32add1 s.sb.dZoneFree ∧
    s'.dzone.length = s.dzone.length ∧
    (∀ c, (getClust s' c).stat = (getClust s c).stat ∧
      (getClust s' c).ref = (getClust s c).ref ∧
      (getClust s' c).de = (getClust s c).de) := by
  unfold soHandleFileCluster at h
  rcases em (nInode ≥ s.sb.iTotal) with h1 | h1
  · rw [if_pos h1] at h
    exact absurd (show (-EINVAL : Int) = 0 from congrArg (fun p => p.1) h) (by decide)
  rw [if_neg h1] at h
  rcases em (clustInd ≥ MAX_FILE_CLUSTERS) with h2 | h2
  · rw [if_pos h2] at h
    exact absurd (show (-EINVAL : Int) = 0 from congrArg (fun p => p.1) h) (by decide)
  rw [if_neg h2] at h
  rw [if_neg (by decide : ¬(FileClusterOp.FREE = FileClusterOp.CLEAN))] at h
  simp only [] at h
  rcases em ((soReadInode now s nInode IUIN).1 ≠ 0) with hr | hr
  · rw [if_pos hr] at h
    exact absurd (show (soReadInode now s nInode IUIN).1 = 0 from
      congrArg (fun p => p.1) h) hr
  rw [if_neg hr] at h
  obtain ⟨hlt, hq0⟩ := soReadInode_IUIN_facts (not_not.mp hr)
  rw [soReadInode_IUIN_ok (not_not.mp hr)] at h
  simp only [] at h
  generalize hs1 : setInode s nInode { getInode s nInode with vD1 := now } = s1 at h
  generalize hiR : ({ getInode s nInode with vD1 := now } : SOInode) = iR at h
  have hs1sb : s1.sb = s.sb := by
    rw [← hs1]
    exact setInode_sb _ _ _
  have hs1len : s1.itable.length = s.itable.length := by
    rw [← hs1]
    exact setInode_itlen _ _ _
  generalize hH : (if clustInd < N_DIRECT then
      soHandleDirect s1 nInode iR clustInd FileClusterOp.FREE
    else if clustInd < N_DIRECT + RPC then
      soHandleSIndirect s1 nInode iR clustInd FileClusterOp.FREE
    else soHandleDIndirect s1 nInode iR clustInd FileClusterOp.FREE) = H at h
  rcases em (H.ret ≠ 0) with hret | hret
  · rw [if_pos hret] at h
    exact absurd (show H.ret = 0 from congrArg (fun p => p.1) h) hret
  rw [if_neg hret] at h
  have hret0 : H.ret = 0 := not_not.mp hret
  have hkey : H.ino = iR ∧ ∃ c, soFreeDataCluster 0 s1 c = (0, H.st) := by
    rw [← hH] at hret0 ⊢
    rcases em (clustInd < N_DIRECT) with hk | hk
    · rw [if_pos hk] at hret0 ⊢
      have hDH : soHandleDirect s1 nInode iR clustInd FileClusterOp.FREE =
          ⟨0, (soHandleDirect s1 nInode iR clustInd FileClusterOp.FREE).st,
           (soHandleDirect s1 nInode iR clustInd FileClusterOp.FREE).ino,
           (soHandleDirect s1 nInode iR clustInd FileClusterOp.FREE).out⟩ := by
        rw [← hret0]
      obtain ⟨hi, hf⟩ := soHandleDirect_FREE_ok hDH
      exact ⟨hi, _, hf⟩
    · rw [if_neg hk] at hret0 ⊢
      rw [if_pos hband] at hret0 ⊢
      have hDH : soHandleSIndirect s1 nInode iR clustInd FileClusterOp.FREE =
          ⟨0, (soHandleSIndirect s1 nInode iR clustInd FileClusterOp.FREE).st,
           (soHandleSIndirect s1 nInode iR clustInd FileClusterOp.FREE).ino,
           (soHandleSIndirect s1 nInode iR clustInd FileClusterOp.FREE).out⟩ := by
        rw [← hret0]
      obtain ⟨hi, hf⟩ := soHandleSIndirect_FREE_ok hDH
      exact ⟨hi, _, hf⟩
  obtain ⟨hino, c, hfr⟩ := hkey
  obtain ⟨e1, e2, e3, e4, e5, ecf⟩ := soFreeDataCluster_ok hfr
  rw [if_neg (by decide : ¬(FileClusterOp.FREE = FileClusterOp.CLEAN)),
    if_pos (by decide : FileClusterOp.FREE ≠ FileClusterOp.GET)] at h
  have hltW : nInode < H.st.sb.iTotal := by
    rw [e3, hs1sb]
    exact hlt
  have hqW : soQCheckInodeIU H.ino = 0 := by
    rw [hino, ← hiR, qcheckIU_vD1]
    exact hq0
  rw [soWriteInode_IUIN_ok hltW hqW] at h
  simp only [] at h
  rw [if_neg (by decide : ¬((0 : Int) ≠ 0))] at h
  have hs' := congrArg (fun p => p.2.1) h
  simp only [] at hs'
  subst hs'
  have hlen' : nInode < H.st.itable.length := by
    rw [e4, hs1len]
    exact hn
  have hs1dz : s1.dzone = s.dzone := by
    rw [← hs1]
    exact setInode_dzone _ _ _
  have hceq : ∀ c, getClust s1 c = getClust s c := by
    intro c
    unfold getClust
    rw [hs1dz]
  refine ⟨?_, ?_, ?_, ?_, ?_, ?_⟩
  · rw [getInode_setInode_self _ _ _ hlen']
    show H.ino.cluCount = _
    rw [hino, ← hiR]
  · rw [getInode_setInode_self _ _ _ hlen']
    show H.ino.d = _
    rw [hino, ← hiR]
  · rw [getInode_setInode_self _ _ _ hlen']
    show H.ino.i1 = _
    rw [hino, ← hiR]
  · rw [setInode_sb, e1, hs1sb]
  · show H.st.dzone.length = s.dzone.length
    rw [e5, hs1dz]
  · intro c
    show (getClust H.st c).stat = (getClust s c).stat ∧
      (getClust H.st c).ref = (getClust s c).ref ∧
      (getClust H.st c).de = (getClust s c).de
    obtain ⟨hst, href, hde⟩ := ecf.2.2 c
    exact ⟨hst.trans (congrArg SODataClust.stat (hceq c)),
      href.trans (congrArg SODataClust.ref (hceq c)),
      hde.trans (congrArg SODataClust.de (hceq c))⟩

/-- C3 counterexample to the claim as stated: on stDirPacked, freeing
cluster index 0 of the directory inode 1 succeeds and releases the data
cluster (dZoneFree goes from 2 to 3), but the inode's cluCount stays at 1
instead of being decremented — the FREE arm of the handlers returns
before the decrement the spec describes. -/
theorem claim_C3_counterexample :
    (soHandleFileCluster 100 stDirPacked 1 0 FileClusterOp.FREE).1 = 0 ∧
    (getInode stDirPacked 1).cluCount = 1 ∧
    (getInode (soHandleFileCluster 100 stDirPacked 1 0 FileClusterOp.FREE).2.1 1).cluCount
      = 1 ∧
    (getInode (soHandleFileCluster 100 stDirPacked 1 0 FileClusterOp.FREE).2.1 1).d.getD 0
      NULL_REF = 1 ∧
    stDirPacked.sb.dZoneFree = 2 ∧
    (soHandleFileCluster 100 stDirPacked 1 0 FileClusterOp.FREE).2.1.sb.dZoneFree = 3 := by
  decide

/-- C3 witness: the amended theorem applied to the FREE of cluster index 0
of directory inode 1 on stDirPacked -/
theorem claim_C3_witness :
    (getInode (soHandleFileCluster 100 stDirPacked 1 0 FileClusterOp.FREE).2.1 1).cluCount
      = (getInode stDirPacked 1).cluCount ∧
    (getInode (soHandleFileCluster 100 stDirPacked 1 0 FileClusterOp.FREE).2.1 1).d
      = (getInode stDirPacked 1).d ∧
    (getInode (soHandleFileCluster 100 stDirPacked 1 0 FileClusterOp.FREE).2.1 1).i1
      = (getInode stDirPacked 1).i1 ∧
    (soHandleFileCluster 100 stDirPacked 1 0 FileClusterOp.FREE).2.1.sb.dZoneFree
      = u32add1 stDirPacked.sb.dZoneFree ∧
    (soHandleFileCluster 100 stDirPacked 1 0 FileClusterOp.FREE).2.1.dzone.length
      = stDirPacked.dzone.length ∧
    (getClust (soHandleFileCluster 100 stDirPacked 1 0 FileClusterOp.FREE).2.1 1).stat
      = (getClust stDirPacked 1).stat ∧
    (getClust (soHandleFileCluster 100 stDirPacked 1 0 FileClusterOp.FREE).2.1 1).de
      = (getClust stDirPacked 1).de :=
  have h := @claim_C3 100 stDirPacked 1 0
    (soHandleFileCluster 100 stDirPacked 1 0 FileClusterOp.FREE).2.1
    (soHandleFileCluster 100 stDirPacked 1 0 FileClusterOp.FREE).2.2
    (by decide) (by decide) (by decide)
  ⟨h.1, h.2.1, h.2.2.1, h.2.2.2.1, h.2.2.2.2.1,
   (h.2.2.2.2.2 1).1, (h.2.2.2.2.2 1).2.2⟩

theorem deView_refl (s : FSState) : DeView s s := ⟨rfl, fun _ => rfl⟩

theorem deView_trans {s t u : FSState} (h1 : DeView s t) (h2 : DeView t u) : DeView s u :=
  ⟨h2.1.trans h1.1, fun c => (h2.2 c).trans (h1.2 c)⟩

theorem deView_of_clustFrame {s s' : FSState} (h : ClustFrame s s') : DeView s s' :=
  ⟨h.2.1, fun c => (h.2.2 c).2.2⟩

theorem deView_of_dzone {s s' : FSState} (h : s'.dzone = s.dzone) : DeView s s' := by
  refine ⟨congrArg List.length h, fun c => ?_⟩
  unfold getClust
  rw [h]

theorem soReadInode_dzone (now : Nat) (s : FSState) (n st : Nat) :
    (soReadInode now s n st).2.1.dzone = s.dzone := by
  unfold soReadInode
  rcases em (st ≠ IUIN ∧ st ≠ FDIN) with h1 | h1
  · rw [if_pos h1]
  rw [if_neg h1]
  rcases em (n ≥ s.sb.iTotal) with h2 | h2
  · rw [if_pos h2]
  rw [if_neg h2]
  simp only []
  rcases em (st = IUIN) with h3 | h3
  · rw [if_pos h3]
    rcases em (soQCheckInodeIU (getInode s n) ≠ 0) with h4 | h4
    · rw [if_pos h4]
    · rw [if_neg h4]
      exact setInode_dzone _ _ _
  · rw [if_neg h3]
    rcases em (soQCheckFDInode (getInode s n) ≠ 0) with h4 | h4
    · rw [if_pos h4]
    · rw [if_neg h4]

theorem soReadInode_sb (now : Nat) (s : FSState) (n st : Nat) :
    (soReadInode now s n st).2.1.sb = s.sb := by
  unfold soReadInode
  rcases em (st ≠ IUIN ∧ st ≠ FDIN) with h1 | h1
  · rw [if_pos h1]
  rw [if_neg h1]
  rcases em (n ≥ s.sb.iTotal) with h2 | h2
  · rw [if_pos h2]
  rw [if_neg h2]
  simp only []
  rcases em (st = IUIN) with h3 | h3
  · rw [if_pos h3]
    rcases em (soQCheckInodeIU (getInode s n) ≠ 0) with h4 | h4
    · rw [if_pos h4]
    · rw [if_neg h4]
      exact setInode_sb _ _ _
  · rw [if_neg h3]
    rcases em (soQCheckFDInode (getInode s n) ≠ 0) with h4 | h4
    · rw [if_pos h4]
    · rw [if_neg h4]

theorem soWriteInode_dzone (now : Nat) (s : FSState) (b : SOInode) (n st : Nat) :
    (soWriteInode now s b n st).2.dzone = s.dzone := by
  unfold soWriteInode
  rcases em (n > s.sb.iTotal ∨ (st ≠ IUIN ∧ st ≠ FDIN)) with h1 | h1
  · rw [if_pos h1]
  rw [if_neg h1]
  rcases em (n ≥ s.sb.iTotal) with h2 | h2
  · rw [if_pos h2]
  rw [if_neg h2]
  rcases em (st = IUIN) with h3 | h3
  · rw [if_pos h3]
    rcases em (soQCheckInodeIU b ≠ 0) with h4 | h4
    · rw [if_pos h4]
    · rw [if_neg h4]
      exact setInode_dzone _ _ _
  · rw [if_neg h3]
    rcases em (soQCheckFDInode b ≠ 0) with h4 | h4
    · rw [if_pos h4]
    · rw [if_neg h4]
      exact setInode_dzone _ _ _

theorem soFreeInode_dzone (s : FSState) (n : Nat) :
    (soFreeInode s n).2.dzone = s.dzone := by
  unfold soFreeInode
  rcases em (n ≥ s.sb.iTotal ∨ n = 0) with h1 | h1
  · rw [if_pos h1]
  rw [if_neg h1]
  simp only []
  rcases em (soQCheckInodeIU (getInode s n) ≠ 0) with h2 | h2
  · rw [if_pos h2]
  rw [if_neg h2]
  rcases em (s.sb.iFree = 0) with h3 | h3
  · rw [if_pos h3]
    exact setInode_dzone s n
      { getInode s n with mode := INODE_FREE, vD1 := NULL_REF, vD2 := NULL_REF }
  rw [if_neg h3]
  simp only [setInode_sb]
  rcases em (u32add1 s.sb.iFree > 1) with h4 | h4
  · rw [if_pos h4]
    rcases em (s.sb.iTail ≥ s.sb.iTotal) with h5 | h5
    · rw [if_pos h5]
      exact setInode_dzone s n
        { getInode s n with mode := INODE_FREE, vD1 := NULL_REF, vD2 := s.sb.iTail }
    · rw [if_neg h5]
      refine Eq.trans (setInode_dzone _ _ _) ?_
      exact setInode_dzone s n
        { getInode s n with mode := INODE_FREE, vD1 := NULL_REF, vD2 := s.sb.iTail }
  · rw [if_neg h4]
    exact setInode_dzone s n
      { getInode s n with mode := INODE_FREE, vD1 := NULL_REF, vD2 := s.sb.iTail }

theorem soFreeDataCluster_clustFrame (r : Int) (s : FSState) (c : Nat) :
    ClustFrame s (soFreeDataCluster r s c).2 := by
  unfold soFreeDataCluster
  rcases em (c = 0 ∨ c ≥ s.sb.dZoneTotal) with h1 | h1
  · rw [if_pos h1]
    exact clustFrame_refl s
  rw [if_neg h1]
  simp only []
  rcases em ((soQCheckStatDC s c).1 ≠ 0) with h2 | h2
  · rw [if_pos h2]
    exact clustFrame_refl s
  rw [if_neg h2]
  rcases em ((soQCheckStatDC s c).2 = FREE_CLT) with h3 | h3
  · rw [if_pos h3]
    exact clustFrame_refl s
  rw [if_neg h3]
  rw [ite_self]
  simp only []
  generalize hS1 : setClust s c
      { getClust s c with prev := NULL_REF, next := NULL_REF } = s1
  have haf1 : ClustFrame s s1 := by
    rw [← hS1]
    exact clustFrame_setHdr s c _ rfl rfl rfl
  rcases em (s1.sb.dZoneInsert.cacheIdx = DZONE_CACHE_SIZE) with hc | hc
  · rw [if_pos hc]
    exact clustFrame_trans (clustFrame_trans haf1 (soDeplete_allocFrame s1).1)
      ⟨rfl, rfl, fun _ => ⟨rfl, rfl, rfl⟩⟩
  · rw [if_neg hc]
    exact clustFrame_trans haf1 ⟨rfl, rfl, fun _ => ⟨rfl, rfl, rfl⟩⟩

theorem soHandleDirect_FREE_deview (s : FSState) (n : Nat) (i : SOInode) (k : Nat) :
    DeView s (soHandleDirect s n i k FileClusterOp.FREE).st := by
  unfold soHandleDirect
  simp only []
  rcases em (i.d.getD k NULL_REF = NULL_REF) with h1 | h1
  · rw [if_pos h1]
    exact deView_refl s
  rw [if_neg h1]
  rw [if_pos (by decide : FileClusterOp.FREE ≠ FileClusterOp.CLEAN)]
  rcases em ((soFreeDataCluster 0 s (i.d.getD k NULL_REF)).1 ≠ 0) with h2 | h2
  · rw [if_pos h2]
    exact deView_of_clustFrame (soFreeDataCluster_clustFrame _ _ _)
  rw [if_neg h2]
  rw [if_true]
  exact deView_of_clustFrame (soFreeDataCluster_clustFrame _ _ _)

theorem soHandleSIndirect_FREE_deview (s : FSState) (n : Nat) (i : SOInode) (k : Nat) :
    DeView s (soHandleSIndirect s n i k FileClusterOp.FREE).st := by
  unfold soHandleSIndirect
  simp only []
  rcases em (i.i1 = NULL_REF) with h1 | h1
  · rw [if_pos h1]
    exact deView_refl s
  rw [if_neg h1]
  rcases em (i.i1 ≥ s.sb.dZoneTotal) with h2 | h2
  · rw [if_pos h2]
    exact deView_refl s
  rw [if_neg h2]
  rcases em ((getClust s i.i1).ref.getD (k - N_DIRECT) NULL_REF = NULL_REF) with h3 | h3
  · rw [if_pos h3]
    exact deView_refl s
  rw [if_neg h3]
  rcases em ((getClust s i.i1).stat ≠ n) with h4 | h4
  · rw [if_pos h4]
    exact deView_refl s
  rw [if_neg h4]
  rw [if_pos (by decide : FileClusterOp.FREE ≠ FileClusterOp.CLEAN)]
  rcases em ((soFreeDataCluster 0 s
      ((getClust s i.i1).ref.getD (k - N_DIRECT) NULL_REF)).1 ≠ 0) with h5 | h5
  · rw [if_pos h5]
    exact deView_of_clustFrame (soFreeDataCluster_clustFrame _ _ _)
  rw [if_neg h5]
  rw [if_true]
  exact deView_of_clustFrame (soFreeDataCluster_clustFrame _ _ _)

theorem soHandleDIndirect_FREE_deview (s : FSState) (n : Nat) (i : SOInode) (k : Nat) :
    DeView s (soHandleDIndirect s n i k FileClusterOp.FREE).st := by
  unfold soHandleDIndirect
  simp only []
  rcases em (i.i2 = NULL_REF) with h1 | h1
  · rw [if_pos h1]
    exact deView_refl s
  rw [if_neg h1]
  rcases em (i.i2 ≥ s.sb.dZoneTotal) with h2 | h2
  · rw [if_pos h2]
    exact deView_refl s
  rw [if_neg h2]
  rcases em ((getClust s i.i2).ref.getD ((k - N_DIRECT - RPC) / RPC) NULL_REF
      = NULL_REF) with h3 | h3
  · rw [if_pos h3]
    exact deView_refl s
  rw [if_neg h3]
  rcases em ((getClust s i.i2).ref.getD ((k - N_DIRECT - RPC) / RPC) NULL_REF
      ≥ s.sb.dZoneTotal) with h4 | h4
  · rw [if_pos h4]
    exact deView_refl s
  rw [if_neg h4]
  rcases em ((getClust s ((getClust s i.i2).ref.getD ((k - N_DIRECT - RPC) / RPC)
      NULL_REF)).ref.getD ((k - N_DIRECT - RPC) % RPC) NULL_REF = NULL_REF) with h5 | h5
  · rw [if_pos h5]
    exact deView_refl s
  rw [if_neg h5]
  rw [if_pos (by decide : FileClusterOp.FREE ≠ FileClusterOp.CLEAN)]
  rcases em ((soFreeDataCluster 0 s
      ((getClust s ((getClust s i.i2).ref.getD ((k - N_DIRECT - RPC) / RPC)
        NULL_REF)).ref.getD ((k - N_DIRECT - RPC) % RPC) NULL_REF)).1 ≠ 0) with h6 | h6
  · rw [if_pos h6]
    exact deView_of_clustFrame (soFreeDataCluster_clustFrame _ _ _)
  rw [if_neg h6]
  rw [if_true]
  exact deView_of_clustFrame (soFreeDataCluster_clustFrame _ _ _)

theorem soHandleFileCluster_FREE_deview (now : Nat) (s : FSState) (n k : Nat) :
    DeView s (soHandleFileCluster now s n k FileClusterOp.FREE).2.1 := by
  unfold soHandleFileCluster
  rcases em (n ≥ s.sb.iTotal) with h1 | h1
  · rw [if_pos h1]
    exact deView_refl s
  rw [if_neg h1]
  rcases em (k ≥ MAX_FILE_CLUSTERS) with h2 | h2
  · rw [if_pos h2]
    exact deView_refl s
  rw [if_neg h2]
  rw [if_neg (by decide : ¬(FileClusterOp.FREE = FileClusterOp.CLEAN))]
  simp only []
  have hrd : DeView s (soReadInode now s n IUIN).2.1 :=
    deView_of_dzone (soReadInode_dzone _ _ _ _)
  rcases em ((soReadInode now s n IUIN).1 ≠ 0) with h3 | h3
  · rw [if_pos h3]
    exact hrd
  rw [if_neg h3]
  generalize hH : (if k < N_DIRECT then
      soHandleDirect (soReadInode now s n IUIN).2.1 n (soReadInode now s n IUIN).2.2 k
        FileClusterOp.FREE
    else if k < N_DIRECT + RPC then
      soHandleSIndirect (soReadInode now s n IUIN).2.1 n (soReadInode now s n IUIN).2.2 k
        FileClusterOp.FREE
    else soHandleDIndirect (soReadInode now s n IUIN).2.1 n (soReadInode now s n IUIN).2.2 k
        FileClusterOp.FREE) = H
  have hHst : DeView (soReadInode now s n IUIN).2.1 H.st := by
    rw [← hH]
    rcases em (k < N_DIRECT) with hk | hk
    · rw [if_pos hk]
      exact soHandleDirect_FREE_deview _ _ _ _
    rw [if_neg hk]
    rcases em (k < N_DIRECT + RPC) with hk2 | hk2
    · rw [if_pos hk2]
      exact soHandleSIndirect_FREE_deview _ _ _ _
    · rw [if_neg hk2]
      exact soHandleDIndirect_FREE_deview _ _ _ _
  rcases em (H.ret ≠ 0) with h4 | h4
  · rw [if_pos h4]
    exact deView_trans hrd hHst
  rw [if_neg h4]
  rw [if_neg (by decide : ¬(FileClusterOp.FREE = FileClusterOp.CLEAN)),
    if_pos (by decide : FileClusterOp.FREE ≠ FileClusterOp.GET)]
  have hwr : DeView H.st (soWriteInode now H.st H.ino n IUIN).2 :=
    deView_of_dzone (soWriteInode_dzone _ _ _ _ _)
  rcases em ((soWriteInode now H.st H.ino n IUIN).1 ≠ 0) with h5 | h5
  · rw [if_pos h5]
    exact deView_trans hrd (deView_trans hHst hwr)
  · rw [if_neg h5]
    exact deView_trans hrd (deView_trans hHst hwr)

theorem dwalk_FREE_deview (now nInode clustIndIn : Nat) (d : List Nat) :
    ∀ (fuel : Nat) (s : FSState) (ind : Nat),
      DeView s (dwalk now nInode clustIndIn FileClusterOp.FREE d s ind fuel).2 := by
  intro fuel
  induction fuel with
  | zero =>
    intro s ind
    exact deView_refl s
  | succ f ih =>
    intro s ind
    unfold dwalk
    rcases em (d.getD ind NULL_REF ≠ NULL_REF ∧ clustIndIn ≤ ind) with h1 | h1
    · rw [if_pos h1]
      simp only []
      rcases em ((soHandleFileCluster now s nInode ind FileClusterOp.FREE).1 ≠ 0) with h2 | h2
      · rw [if_pos h2]
        exact soHandleFileCluster_FREE_deview now s nInode ind
      · rw [if_neg h2]
        exact deView_trans (soHandleFileCluster_FREE_deview now s nInode ind) (ih _ _)
    · rw [if_neg h1]
      exact ih _ _

theorem i1walk_FREE_deview (now nInode clustIndIn : Nat) (i1 : Nat) :
    ∀ (fuel : Nat) (s : FSState) (ind : Nat),
      DeView s (i1walk now nInode clustIndIn FileClusterOp.FREE i1 s ind fuel).2 := by
  intro fuel
  induction fuel with
  | zero =>
    intro s ind
    exact deView_refl s
  | succ f ih =>
    intro s ind
    unfold i1walk
    rcases em ((getClust s i1).ref.getD (ind - N_DIRECT) NULL_REF ≠ NULL_REF ∧
        clustIndIn ≤ ind) with h1 | h1
    · rw [if_pos h1]
      simp only []
      rcases em ((soHandleFileCluster now s nInode ind FileClusterOp.FREE).1 ≠ 0) with h2 | h2
      · rw [if_pos h2]
        exact soHandleFileCluster_FREE_deview now s nInode ind
      · rw [if_neg h2]
        exact deView_trans (soHandleFileCluster_FREE_deview now s nInode ind) (ih _ _)
    · rw [if_neg h1]
      exact ih _ _

theorem d2walk_FREE_deview (now nInode clustIndIn : Nat) (i2 : Nat) :
    ∀ (fuel : Nat) (s : FSState) (ind : Nat),
      DeView s (d2walk now nInode clustIndIn FileClusterOp.FREE i2 s ind fuel).2 := by
  intro fuel
  induction fuel with
  | zero =>
    intro s ind
    exact deView_refl s
  | succ f ih =>
    intro s ind
    unfold d2walk
    rcases em (ind ≥ MAX_FILE_CLUSTERS) with h0 | h0
    · rw [if_pos h0]
      exact deView_refl s
    rw [if_neg h0]
    simp only []
    rcases em ((getClust s i2).ref.getD ((ind - N_DIRECT - RPC) / RPC) NULL_REF
        ≠ NULL_REF) with h1 | h1
    · rw [if_pos h1]
      rcases em ((getClust s ((getClust s i2).ref.getD ((ind - N_DIRECT - RPC) / RPC)
          NULL_REF)).ref.getD ((ind - N_DIRECT - RPC) % RPC) NULL_REF ≠ NULL_REF ∧
          clustIndIn ≤ ind) with h2 | h2
      · rw [if_pos h2]
        rcases em ((soHandleFileCluster now s nInode ind FileClusterOp.FREE).1 ≠ 0) with h3 | h3
        · rw [if_pos h3]
          exact soHandleFileCluster_FREE_deview now s nInode ind
        · rw [if_neg h3]
          exact deView_trans (soHandleFileCluster_FREE_deview now s nInode ind) (ih _ _)
      · rw [if_neg h2]
        exact ih _ _
    · rw [if_neg h1]
      exact ih _ _

theorem soHandleFileClusters_FREE_deview (now : Nat) (s : FSState) (n cIn : Nat) :
    DeView s (soHandleFileClusters now s n cIn FileClusterOp.FREE).2 := by
  unfold soHandleFileClusters
  rcases em (n ≥ s.sb.iTotal) with h1 | h1
  · rw [if_pos h1]
    exact deView_refl s
  rw [if_neg h1]
  rcases em (cIn ≥ MAX_FILE_CLUSTERS) with h2 | h2
  · rw [if_pos h2]
    exact deView_refl s
  rw [if_neg h2]
  rw [if_neg (by decide : ¬(FileClusterOp.FREE = FileClusterOp.GET))]
  rw [if_neg (by decide : ¬(FileClusterOp.FREE = FileClusterOp.CLEAN))]
  simp only []
  have hrd : DeView s (soReadInode now s n IUIN).2.1 :=
    deView_of_dzone (soReadInode_dzone _ _ _ _)
  rcases em ((soReadInode now s n IUIN).1 ≠ 0) with h3 | h3
  · rw [if_pos h3]
    exact hrd
  rw [if_neg h3]
  generalize hR2 : (if (soReadInode now s n IUIN).2.2.i2 ≠ NULL_REF then
      if (soReadInode now s n IUIN).2.2.i2 ≥ (soReadInode now s n IUIN).2.1.sb.dZoneTotal then
        ((-EINVAL : Int), (soReadInode now s n IUIN).2.1)
      else d2walk now n cIn FileClusterOp.FREE (soReadInode now s n IUIN).2.2.i2
        (soReadInode now s n IUIN).2.1 (N_DIRECT + RPC) MAX_FILE_CLUSTERS
    else (0, (soReadInode now s n IUIN).2.1)) = r2
  have hr2 : DeView (soReadInode now s n IUIN).2.1 r2.2 := by
    rw [← hR2]
    rcases em ((soReadInode now s n IUIN).2.2.i2 ≠ NULL_REF) with ha | ha
    · rw [if_pos ha]
      rcases em ((soReadInode now s n IUIN).2.2.i2 ≥
          (soReadInode now s n IUIN).2.1.sb.dZoneTotal) with hb | hb
      · rw [if_pos hb]
        exact deView_refl _
      · rw [if_neg hb]
        exact d2walk_FREE_deview _ _ _ _ _ _ _
    · rw [if_neg ha]
      exact deView_refl _
  rcases em (r2.1 ≠ 0) with h4 | h4
  · rw [if_pos h4]
    exact deView_trans hrd hr2
  rw [if_neg h4]
  generalize hR1 : (if (soReadInode now s n IUIN).2.2.i1 ≠ NULL_REF then
      if (soReadInode now s n IUIN).2.2.i1 ≥ r2.2.sb.dZoneTotal then
        ((-EINVAL : Int), r2.2)
      else i1walk now n cIn FileClusterOp.FREE (soReadInode now s n IUIN).2.2.i1
        r2.2 N_DIRECT RPC
    else (0, r2.2)) = r1
  have hr1 : DeView r2.2 r1.2 := by
    rw [← hR1]
    rcases em ((soReadInode now s n IUIN).2.2.i1 ≠ NULL_REF) with ha | ha
    · rw [if_pos ha]
      rcases em ((soReadInode now s n IUIN).2.2.i1 ≥ r2.2.sb.dZoneTotal) with hb | hb
      · rw [if_pos hb]
        exact deView_refl _
      · rw [if_neg hb]
        exact i1walk_FREE_deview _ _ _ _ _ _ _
    · rw [if_neg ha]
      exact deView_refl _
  rcases em (r1.1 ≠ 0) with h5 | h5
  · rw [if_pos h5]
    exact deView_trans hrd (deView_trans hr2 hr1)
  · rw [if_neg h5]
    exact deView_trans hrd (deView_trans hr2
      (deView_trans hr1 (dwalk_FREE_deview _ _ _ _ _ _ _)))

theorem soHandleFileCluster_GET_itonly (now : Nat) (s : FSState) (n k : Nat) :
    (soHandleFileCluster now s n k FileClusterOp.GET).2.1.sb = s.sb ∧
    (soHandleFileCluster now s n k FileClusterOp.GET).2.1.dzone = s.dzone := by
  unfold soHandleFileCluster
  rcases em (n ≥ s.sb.iTotal) with h1 | h1
  · rw [if_pos h1]
    exact ⟨rfl, rfl⟩
  rw [if_neg h1]
  rcases em (k ≥ MAX_FILE_CLUSTERS) with h2 | h2
  · rw [if_pos h2]
    exact ⟨rfl, rfl⟩
  rw [if_neg h2]
  rw [if_neg (by decide : ¬(FileClusterOp.GET = FileClusterOp.CLEAN))]
  simp only []
  have hrd : (soReadInode now s n IUIN).2.1.sb = s.sb ∧
      (soReadInode now s n IUIN).2.1.dzone = s.dzone :=
    ⟨soReadInode_sb _ _ _ _, soReadInode_dzone _ _ _ _⟩
  rcases em ((soReadInode now s n IUIN).1 ≠ 0) with h3 | h3
  · rw [if_pos h3]
    exact hrd
  rw [if_neg h3]
  generalize hH : (if k < N_DIRECT then
      soHandleDirect (soReadInode now s n IUIN).2.1 n (soReadInode now s n IUIN).2.2 k
        FileClusterOp.GET
    else if k < N_DIRECT + RPC then
      soHandleSIndirect (soReadInode now s n IUIN).2.1 n (soReadInode now s n IUIN).2.2 k
        FileClusterOp.GET
    else soHandleDIndirect (soReadInode now s n IUIN).2.1 n (soReadInode now s n IUIN).2.2 k
        FileClusterOp.GET) = H
  have hHst : H.st = (soReadInode now s n IUIN).2.1 := by
    rw [← hH]
    rcases em (k < N_DIRECT) with hk | hk
    · rw [if_pos hk, soHandleDirect_GET_st]
    rw [if_neg hk]
    rcases em (k < N_DIRECT + RPC) with hk2 | hk2
    · rw [if_pos hk2]
      exact soHandleSIndirect_GET_st _ _ _ _
    · rw [if_neg hk2]
      exact soHandleDIndirect_GET_st _ _ _ _
  rcases em (H.ret ≠ 0) with h4 | h4
  · rw [if_pos h4]
    rw [show ((H.ret, H.st, H.out) : Int × FSState × Option Nat).2.1 = H.st from rfl, hHst]
    exact hrd
  rw [if_neg h4]
  rw [if_neg (by decide : ¬(FileClusterOp.GET = FileClusterOp.CLEAN)),
    if_neg (by decide : ¬(FileClusterOp.GET ≠ FileClusterOp.GET))]
  rw [show ((0, H.st, H.out) : Int × FSState × Option Nat).2.1 = H.st from rfl, hHst]
  exact hrd

theorem soWriteFileCluster_ok {now : Nat} {s : FSState} {n k : Nat} {buff : SODataClust}
    {s' : FSState} (h : soWriteFileCluster now s n k buff = (0, s')) :
    ∃ nL, (soHandleFileCluster now s n k FileClusterOp.GET).2.2 = some nL ∧
      nL ≠ NULL_REF ∧ nL < s.sb.dZoneTotal ∧
      s' = setClust (soHandleFileCluster now s n k FileClusterOp.GET).2.1 nL
        { getClust (soHandleFileCluster now s n k FileClusterOp.GET).2.1 nL with
          ref := buff.ref, de := buff.de } := by
  unfold soWriteFileCluster at h
  rcases em (n ≥ s.sb.iTotal ∨ n = 0 ∨ k > MAX_FILE_CLUSTERS) with h1 | h1
  · rw [if_pos h1] at h
    exact absurd (show (-EINVAL : Int) = 0 from congrArg (fun p => p.1) h) (by decide)
  rw [if_neg h1] at h
  simp only [] at h
  rcases em ((soHandleFileCluster now s n k FileClusterOp.GET).1 ≠ 0) with h2 | h2
  · rw [if_pos h2] at h
    exact absurd (show (soHandleFileCluster now s n k FileClusterOp.GET).1 = 0 from
      congrArg (fun p => p.1) h) h2
  rw [if_neg h2] at h
  rcases hout : (soHandleFileCluster now s n k FileClusterOp.GET).2.2 with _ | nL
  · rw [hout] at h
    simp only [] at h
    exact absurd (show (-ELIBBAD : Int) = 0 from congrArg (fun p => p.1) h) (by decide)
  · rw [hout] at h
    simp only [] at h
    rcases em (nL = NULL_REF) with h3 | h3
    · rw [if_pos h3] at h
      exact absurd (show (-ELIBBAD : Int) = 0 from congrArg (fun p => p.1) h) (by decide)
    rw [if_neg h3] at h
    rcases em (nL ≥ (soHandleFileCluster now s n k FileClusterOp.GET).2.1.sb.dZoneTotal)
        with h4 | h4
    · rw [if_pos h4] at h
      exact absurd (show (-EINVAL : Int) = 0 from congrArg (fun p => p.1) h) (by decide)
    rw [if_neg h4] at h
    refine ⟨nL, rfl, h3, ?_, ?_⟩
    · have hsb := (soHandleFileCluster_GET_itonly now s n k).1
      rw [← hsb]
      exact Nat.lt_of_not_le h4
    · exact (congrArg Prod.snd h).symm

theorem remEntryTail_slot {now : Nat} {s2 : FSState} {nInodeDir nInodeEnt idxDir : Nat}
    {entry1 dir1 : SOInode} {s3 : FSState} {dc : SODataClust} {s' : FSState}
    (hrc : soReadFileCluster now s2 nInodeDir (idxDir / DPC) = (0, s3, dc))
    (hdelen : idxDir % DPC < dc.de.length)
    (hres : s3.sb.dZoneTotal ≤ s3.dzone.length)
    (h : remEntryTail now s2 nInodeDir nInodeEnt idxDir entry1 dir1 = (0, s')) :
    ∃ nL, (soHandleFileCluster now s3 nInodeDir (idxDir / DPC) FileClusterOp.GET).2.2
        = some nL ∧ nL ≠ NULL_REF ∧
      (getClust s' nL).de.getD (idxDir % DPC) defDirEntry =
        { name := ((dc.de.getD (idxDir % DPC) defDirEntry).name.set MAX_NAME
            ((dc.de.getD (idxDir % DPC) defDirEntry).name.getD 0 0)).set 0 0,
          nInode := (dc.de.getD (idxDir % DPC) defDirEntry).nInode } := by
  unfold remEntryTail at h
  rw [hrc] at h
  simp only [] at h
  rw [if_neg (by decide : ¬((0 : Int) ≠ 0))] at h
  generalize hE : ({ dc.de.getD (idxDir % DPC) defDirEntry with
      name := ((dc.de.getD (idxDir % DPC) defDirEntry).name.set MAX_NAME
        ((dc.de.getD (idxDir % DPC) defDirEntry).name.getD 0 0)).set 0 0 } : SODirEntry)
    = E at h ⊢
  generalize hDC1 : ({ dc with de := dc.de.set (idxDir % DPC) E } : SODataClust) = DC1 at h
  rcases em ((soWriteFileCluster now s3 nInodeDir (idxDir / DPC) DC1).1 ≠ 0) with hw | hw
  · rw [if_pos hw] at h
    exact absurd (show (soWriteFileCluster now s3 nInodeDir (idxDir / DPC) DC1).1 = 0 from
      congrArg (fun p => p.1) h) hw
  rw [if_neg hw] at h
  have hwf : soWriteFileCluster now s3 nInodeDir (idxDir / DPC) DC1 =
      (0, (soWriteFileCluster now s3 nInodeDir (idxDir / DPC) DC1).2) :=
    Prod.ext_iff.mpr ⟨not_not.mp hw, rfl⟩
  obtain ⟨nL, hout, hnn, hlt, hseq⟩ := soWriteFileCluster_ok hwf
  generalize hWF : (soWriteFileCluster now s3 nInodeDir (idxDir / DPC) DC1).2 = sW at h hseq
  have hGdz := (soHandleFileCluster_GET_itonly now s3 nInodeDir (idxDir / DPC)).2
  have hlen2 : nL < (soHandleFileCluster now s3 nInodeDir (idxDir / DPC)
      FileClusterOp.GET).2.1.dzone.length := by
    rw [hGdz]
    exact Nat.lt_of_lt_of_le hlt hres
  have hslot : (getClust sW nL).de = DC1.de := by
    rw [hseq, getClust_setClust_self _ _ _ hlen2]
  have hval : DC1.de.getD (idxDir % DPC) defDirEntry = E := by
    rw [← hDC1]
    exact getD_set_self _ _ _ _ hdelen
  have hDe : DeView sW s' := by
    rcases em (u16sub1 entry1.refCount = 0) with hz | hz
    · rw [if_pos hz] at h
      rcases em ((soWriteInode now sW { entry1 with refCount := u16sub1 entry1.refCount }
          nInodeEnt IUIN).1 ≠ 0) with e1 | e1
      · rw [if_pos e1] at h
        exact absurd (show (soWriteInode now sW
          { entry1 with refCount := u16sub1 entry1.refCount } nInodeEnt IUIN).1 = 0 from
          congrArg (fun p => p.1) h) e1
      rw [if_neg e1] at h
      generalize hW1 : (soWriteInode now sW { entry1 with refCount := u16sub1 entry1.refCount }
          nInodeEnt IUIN).2 = sA at h
      have d1 : DeView sW sA := by
        rw [← hW1]
        exact deView_of_dzone (soWriteInode_dzone _ _ _ _ _)
      rcases em ((soHandleFileClusters now sA nInodeEnt 0 FileClusterOp.FREE).1 ≠ 0)
          with e2 | e2
      · rw [if_pos e2] at h
        exact absurd (show (soHandleFileClusters now sA nInodeEnt 0
          FileClusterOp.FREE).1 = 0 from congrArg (fun p => p.1) h) e2
      rw [if_neg e2] at h
      generalize hHF : (soHandleFileClusters now sA nInodeEnt 0 FileClusterOp.FREE).2 = sB at h
      have d2 : DeView sA sB := by
        rw [← hHF]
        exact soHandleFileClusters_FREE_deview _ _ _ _
      rcases em ((soFreeInode sB nInodeEnt).1 ≠ 0) with e3 | e3
      · rw [if_pos e3] at h
        exact absurd (show (soFreeInode sB nInodeEnt).1 = 0 from
          congrArg (fun p => p.1) h) e3
      rw [if_neg e3] at h
      generalize hFI : (soFreeInode sB nInodeEnt).2 = sC at h
      have d3 : DeView sB sC := by
        rw [← hFI]
        exact deView_of_dzone (soFreeInode_dzone _ _)
      rcases em ((soWriteInode now sC dir1 nInodeDir IUIN).1 ≠ 0) with e4 | e4
      · rw [if_pos e4] at h
        exact absurd (show (soWriteInode now sC dir1 nInodeDir IUIN).1 = 0 from
          congrArg (fun p => p.1) h) e4
      rw [if_neg e4] at h
      have hs'eq := congrArg Prod.snd h
      simp only [] at hs'eq
      have d4 : DeView sC s' := by
        rw [← hs'eq]
        exact deView_of_dzone (soWriteInode_dzone _ _ _ _ _)
      exact deView_trans d1 (deView_trans d2 (deView_trans d3 d4))
    · rw [if_neg hz] at h
      rcases em ((soWriteInode now sW { entry1 with refCount := u16sub1 entry1.refCount }
          nInodeEnt IUIN).1 ≠ 0) with e1 | e1
      · rw [if_pos e1] at h
        exact absurd (show (soWriteInode now sW
          { entry1 with refCount := u16sub1 entry1.refCount } nInodeEnt IUIN).1 = 0 from
          congrArg (fun p => p.1) h) e1
      rw [if_neg e1] at h
      generalize hW1 : (soWriteInode now sW { entry1 with refCount := u16sub1 entry1.refCount }
          nInodeEnt IUIN).2 = sA at h
      have d1 : DeView sW sA := by
        rw [← hW1]
        exact deView_of_dzone (soWriteInode_dzone _ _ _ _ _)
      rcases em ((soWriteInode now sA dir1 nInodeDir IUIN).1 ≠ 0) with e2 | e2
      · rw [if_pos e2] at h
        exact absurd (show (soWriteInode now sA dir1 nInodeDir IUIN).1 = 0 from
          congrArg (fun p => p.1) h) e2
      rw [if_neg e2] at h
      have hs'eq := congrArg Prod.snd h
      simp only [] at hs'eq
      have d2 : DeView sA s' := by
        rw [← hs'eq]
        exact deView_of_dzone (soWriteInode_dzone _ _ _ _ _)
      exact deView_trans d1 d2
  refine ⟨nL, hout, hnn, ?_⟩
  rw [hDe.2 nL, hslot, hval]

/-! ### Claim C6 -/

/-- C6 (amended): after every successful soRemDetachDirEntry with op REM
whose name lookup resolved the entry to directory slot idx, the data
cluster holding that slot — located by a GET on the state the pinned
intermediate calls reach — ends with the slot rewritten exactly as lines
164-165 of the source do: the first name byte is copied over the last and
the first is NULed (which coincides with the spec's first/last swap
because the last byte of a valid name is NUL), while the slot's
inode-number field keeps its old value instead of becoming NULL_INODE.
The hypotheses pin the run's intermediate states: the lookup on the
access-time-refreshed state, the read of the entry inode, and the read of
the slot's cluster; the resident-superblock bound makes the located
cluster a real index of the data zone. -/
theorem claim_C6 {now uid gid : Nat} {s s1 s2 s3 : FSState}
    {nInodeDir nEnt idx : Nat} {eName : List Nat} {eIno : SOInode} {dc : SODataClust}
    {s' : FSState}
    (hgd : soGetDirEntryByName now uid gid
        (setInode s nInodeDir { getInode s nInodeDir with vD1 := now }) nInodeDir eName
        = (0, s1, some nEnt, some idx))
    (hrdE : soReadInode now s1 nEnt IUIN = (0, s2, eIno))
    (hrc : soReadFileCluster now s2 nInodeDir (idx / DPC) = (0, s3, dc))
    (hdelen : idx % DPC < dc.de.length)
    (hres : s3.sb.dZoneTotal ≤ s3.dzone.length)
    (h : soRemDetachDirEntry now uid gid s nInodeDir eName 0 = (0, s')) :
    ∃ nL, (soHandleFileCluster now s3 nInodeDir (idx / DPC) FileClusterOp.GET).2.2
        = some nL ∧ nL ≠ NULL_REF ∧
      (getClust s' nL).de.getD (idx % DPC) defDirEntry =
        { name := ((dc.de.getD (idx % DPC) defDirEntry).name.set MAX_NAME
            ((dc.de.getD (idx % DPC) defDirEntry).name.getD 0 0)).set 0 0,
          nInode := (dc.de.getD (idx % DPC) defDirEntry).nInode } := by
  unfold soRemDetachDirEntry at h
  rw [if_neg (by decide : ¬((0 : Nat) ≠ 0 ∧ (0 : Nat) ≠ 1))] at h
  simp only [] at h
  rcases em ((soReadInode now s nInodeDir IUIN).1 ≠ 0) with hr | hr
  · rw [if_pos hr] at h
    exact absurd (show (soReadInode now s nInodeDir IUIN).1 = 0 from
      congrArg (fun p => p.1) h) hr
  rw [if_neg hr] at h
  rw [soReadInode_IUIN_ok (not_not.mp hr)] at h
  simp only [] at h
  generalize hs0 : setInode s nInodeDir { getInode s nInodeDir with vD1 := now } = s0 at h hgd
  rcases em ((getInode s nInodeDir).mode &&& INODE_DIR ≠ INODE_DIR) with hm | hm
  · rw [if_pos hm] at h
    exact absurd (show (- ENOTDIR : Int) = 0 from congrArg (fun p => p.1) h) (by decide)
  rw [if_neg hm] at h
  rcases em (soAccessGranted uid gid s0 nInodeDir X ≠ 0) with ha | ha
  · rw [if_pos ha] at h
    exact absurd (show soAccessGranted uid gid s0 nInodeDir X = 0 from
      congrArg (fun p => p.1) h) ha
  rw [if_neg ha] at h
  rcases em (soAccessGranted uid gid s0 nInodeDir W ≠ 0) with hw | hw
  · rw [if_pos hw] at h
    exact absurd (show soAccessGranted uid gid s0 nInodeDir W = 0 from
      congrArg (fun p => p.1) h) hw
  rw [if_neg hw] at h
  rcases em ((cstr eName).length = 0) with hn1 | hn1
  · rw [if_pos hn1] at h
    exact absurd (show (- EINVAL : Int) = 0 from congrArg (fun p => p.1) h) (by decide)
  rw [if_neg hn1] at h
  rcases em ((cstr eName).length > MAX_NAME) with hn2 | hn2
  · rw [if_pos hn2] at h
    exact absurd (show (- ENAMETOOLONG : Int) = 0 from congrArg (fun p => p.1) h) (by decide)
  rw [if_neg hn2] at h
  rcases em ((cstr eName).contains 47 = true) with hn3 | hn3
  · rw [if_pos hn3] at h
    exact absurd (show (- EINVAL : Int) = 0 from congrArg (fun p => p.1) h) (by decide)
  rw [if_neg hn3] at h
  rw [hgd] at h
  simp only [] at h
  rw [if_neg (by decide : ¬((0 : Int) ≠ 0))] at h
  rw [hrdE] at h
  simp only [] at h
  rw [if_neg (by decide : ¬((0 : Int) ≠ 0))] at h
  rw [if_true] at h
  rcases em (eIno.mode &&& INODE_DIR ≠ 0) with hd | hd
  · rw [if_pos hd] at h
    rcases em (soCheckDirectoryEmptiness s2 nEnt ≠ 0) with he | he
    · rw [if_pos he] at h
      simp only [] at h
      rw [if_pos he] at h
      exact absurd (show soCheckDirectoryEmptiness s2 nEnt = 0 from
        congrArg (fun p => p.1) h) he
    · rw [if_neg he] at h
      simp only [] at h
      rw [if_neg (by decide : ¬((0 : Int) ≠ 0))] at h
      exact remEntryTail_slot hrc hdelen hres h
  · rw [if_neg hd] at h
    simp only [] at h
    rw [if_neg (by decide : ¬((0 : Int) ≠ 0))] at h
    exact remEntryTail_slot hrc hdelen hres h

/-- Witness: the general REM theorem applied to the removal of entry "b"
(slot 2, inode 2) from directory inode 1 of stDirPacked; the located
cluster is number 1 and the slot afterwards reads name[0] = 0,
name[MAX_NAME] = 98, nInode still 2. -/
theorem claim_C6_witness :
    (soRemDetachDirEntry 100 0 0 stDirPacked 1 nameB 0).1 = 0 ∧
    (getClust (soRemDetachDirEntry 100 0 0 stDirPacked 1 nameB 0).2 1).de.getD 2
        defDirEntry =
      { name := (nameB.set MAX_NAME (nameB.getD 0 0)).set 0 0, nInode := 2 } := by
  refine ⟨by decide, ?_⟩
  obtain ⟨nL, hL, hnn, hslot⟩ :=
    @claim_C6 100 0 0 stDirPacked
      (soGetDirEntryByName 100 0 0
        (setInode stDirPacked 1 { getInode stDirPacked 1 with vD1 := 100 }) 1 nameB).2.1
      (soReadInode 100 (soGetDirEntryByName 100 0 0
        (setInode stDirPacked 1 { getInode stDirPacked 1 with vD1 := 100 }) 1 nameB).2.1
        2 IUIN).2.1
      (soReadFileCluster 100 (soReadInode 100 (soGetDirEntryByName 100 0 0
        (setInode stDirPacked 1 { getInode stDirPacked 1 with vD1 := 100 }) 1 nameB).2.1
        2 IUIN).2.1 1 (2 / DPC)).2.1
      1 2 2 nameB
      (soReadInode 100 (soGetDirEntryByName 100 0 0
        (setInode stDirPacked 1 { getInode stDirPacked 1 with vD1 := 100 }) 1 nameB).2.1
        2 IUIN).2.2
      (soReadFileCluster 100 (soReadInode 100 (soGetDirEntryByName 100 0 0
        (setInode stDirPacked 1 { getInode stDirPacked 1 with vD1 := 100 }) 1 nameB).2.1
        2 IUIN).2.1 1 (2 / DPC)).2.2
      (soRemDetachDirEntry 100 0 0 stDirPacked 1 nameB 0).2
      (by decide) (by decide) (by decide) (by decide) (by decide) (by decide)
  have h1 : nL = 1 := by
    have hg : (soHandleFileCluster 100 (soReadFileCluster 100 (soReadInode 100
        (soGetDirEntryByName 100 0 0 (setInode stDirPacked 1
          { getInode stDirPacked 1 with vD1 := 100 }) 1 nameB).2.1 2 IUIN).2.1 1
        (2 / DPC)).2.1 1 (2 / DPC) FileClusterOp.GET).2.2 = some 1 := by decide
    exact (Option.some.inj (hg.symm.trans hL)).symm
  rw [h1] at hslot
  exact hslot.trans (by decide)

/-- C6 counterexample to the claim as stated: after the successful REM of
"b" on stDirPacked the removed slot's inode-number field is still 2, not
NULL_INODE, so the slot is not in the dirty free state the data model
defines (the code never assigns the nInode field on the REM path). -/
theorem claim_C6_counterexample :
    (soRemDetachDirEntry 100 0 0 stDirPacked 1 nameB 0).1 = 0 ∧
    ((getClust (soRemDetachDirEntry 100 0 0 stDirPacked 1 nameB 0).2 1).de.getD 2
        defDirEntry).nInode = 2 ∧
    (2 : Nat) ≠ NULL_REF := by
  decide

end Sofs14
